import Mathlib

/-!
Rail Tikit: the booking transaction of `BookingConfirmation.jsx`.

A shallow embedding of the React component
`frontend/src/pages/BookingConfirmation.jsx`: its state hooks, the two async
handlers `handleConfirmTicket` and `handleDownloadTicket`, the ticket-count
controls, and the event-driven execution of the component (clicks and arrivals
of `fetch` results). The ticket documents of `generateTicketPDF` and
`downloadTextTicket` are embedded character for character. Of
`frontend/src/components/Home.jsx` the handlers `handleSearch` and
`handleVerifyTicket` are embedded, of `frontend/src/pages/TrainDetails.jsx`
the loading and refreshing of the coach list and the Buy button, of
`frontend/src/components/SignUp.jsx` the handler `handleSubmit`, and of
`frontend/src/pages/TrainSearchResults.jsx` the handler `handleShowRoutes`.

Modelling conventions.
* JavaScript numbers are IEEE 754 binary64 values (`JSNumber`): arithmetic
  rounds to the nearest double, `parseInt` and ToNumber yield doubles, and a
  number is printed as Number::toString prints it. Identifiers of the service
  (`train_id`, route ids) are integers.
* The coach list of `TrainDetails` is the parsed body as the service sent it:
  its entries are arbitrary values, and a card whose render throws (a
  `TypeError`, or an object that React refuses as a child) shows no button.
* The search form of `Home` is submitted through the constraint validation
  of the browser (`required`, `min`).
* A `fetch` either rejects (`FetchResult.threw`) or yields a response with a
  status and a body; `response.ok` is `200 ≤ status ≤ 299`; `response.json()`
  either rejects (`body = none`) or yields a parsed value.
* A JavaScript expression that may throw a `TypeError` is an `Option`
  (`none` = thrown).
* An async handler is cut at its `await`s: the part up to the first `await`
  runs at the click, each later part runs when the awaited result arrives.
-/

namespace RailTikit

/-! ## JavaScript numbers -/

/-- Number of binary digits of `n`, computed in at most `fuel` halvings. -/
def bitLengthAux : Nat → Nat → Nat
  | 0, _ => 0
  | fuel + 1, n => if n = 0 then 0 else bitLengthAux fuel (n / 2) + 1

/-- Number of binary digits of a natural number: `bitLength 0 = 0`, and
`2 ^ (bitLength n - 1) ≤ n < 2 ^ bitLength n` for `n > 0`. -/
def bitLength (n : Nat) : Nat :=
  bitLengthAux n n

/-- A JavaScript Number, an IEEE 754 binary64 value: `NaN`, an infinity, or a
finite value, held as the rational it denotes. The two zeros are one value;
they differ only under division and `Object.is`, which the components do not
use. The operations below round their results to binary64, so they yield
doubles; a `finite q` whose `q` is not a double stands for no JavaScript
value. -/
inductive JSNumber where
  | nan
  | infinity (negative : Bool)
  | finite (value : ℚ)
deriving DecidableEq

namespace JSNumber

/-- Binary exponent of the unit in the last place of binary64 at the positive
rational `a / den`: with `2 ^ e0 ≤ a / den < 2 ^ (e0 + 1)` it is `e0 - 52`,
and `-1074` in the subnormal range. -/
def ulpExponent (a den : Nat) : Int :=
  let c : Int := (bitLength a : Int) - (bitLength den : Int)
  let e0 : Int := if den * 2 ^ c.toNat ≤ a * 2 ^ (-c).toNat then c else c - 1
  max (e0 - 52) (-1074)

/-- The binary64 value of the rational `num / den` (`den > 0`): the nearest
multiple of the unit in the last place, a tie going to the even multiple, and
an infinity from `2 ^ 1024` on. -/
def round (num : Int) (den : Nat) : JSNumber :=
  if num = 0 then finite 0
  else
    let e := ulpExponent num.natAbs den
    let n1 := num.natAbs * 2 ^ (-e).toNat
    let d1 := den * 2 ^ e.toNat
    let quo := n1 / d1
    let rem := n1 % d1
    let m := if d1 < 2 * rem ∨ (2 * rem = d1 ∧ quo % 2 = 1) then quo + 1 else quo
    if 1024 < (bitLength m : Int) + e then infinity (decide (num < 0))
    else if num < 0 then finite (mkRat (-((m * 2 ^ e.toNat : Nat) : Int)) (2 ^ (-e).toNat))
    else finite (mkRat ((m * 2 ^ e.toNat : Nat) : Int) (2 ^ (-e).toNat))

/-- The Number of an integer literal. -/
def ofInt (k : Int) : JSNumber :=
  round k 1

instance instOfNat (n : Nat) : OfNat JSNumber n :=
  ⟨round n 1⟩

/-- Unary minus. -/
def neg : JSNumber → JSNumber
  | nan => nan
  | infinity s => infinity (!s)
  | finite q => finite (-q)

/-- Number::multiply, the operator `*`. -/
def mul : JSNumber → JSNumber → JSNumber
  | nan, _ => nan
  | _, nan => nan
  | infinity s, infinity t => infinity (s != t)
  | infinity s, finite q => if q.num = 0 then nan else infinity (s != decide (q.num < 0))
  | finite q, infinity s => if q.num = 0 then nan else infinity (s != decide (q.num < 0))
  | finite p, finite q => round (p.num * q.num) (p.den * q.den)

/-- Number::add, the operator `+` on numbers. -/
def add : JSNumber → JSNumber → JSNumber
  | nan, _ => nan
  | _, nan => nan
  | infinity s, infinity t => if s = t then infinity s else nan
  | infinity s, finite _ => infinity s
  | finite _, infinity s => infinity s
  | finite p, finite q => round (p.num * q.den + q.num * p.den) (p.den * q.den)

/-- Number::subtract, the operator `-`. -/
def sub (x y : JSNumber) : JSNumber :=
  add x (neg y)

instance instMul : Mul JSNumber :=
  ⟨mul⟩

instance instAdd : Add JSNumber :=
  ⟨add⟩

instance instSub : Sub JSNumber :=
  ⟨sub⟩

/-- The operator `x <= y` on numbers; false when an operand is `NaN`. -/
def le : JSNumber → JSNumber → Bool
  | nan, _ => false
  | _, nan => false
  | infinity s, infinity t => s || !t
  | infinity s, finite _ => s
  | finite _, infinity t => !t
  | finite p, finite q => decide (p.num * q.den ≤ q.num * p.den)

/-- The operator `x >= y` on numbers; false when an operand is `NaN`. -/
def ge (x y : JSNumber) : Bool :=
  le y x

/-- The operator `x < y` on numbers; false when an operand is `NaN`. -/
def lt : JSNumber → JSNumber → Bool
  | nan, _ => false
  | _, nan => false
  | x, y => !(le y x)

/-- ToBoolean of a number: `NaN` and zero are falsy. -/
def truthy : JSNumber → Bool
  | nan => false
  | infinity _ => true
  | finite q => q.num != 0

/-- Two-argument `Math.max`: `NaN` when an argument is `NaN`. -/
def max : JSNumber → JSNumber → JSNumber
  | nan, _ => nan
  | _, nan => nan
  | x, y => if le x y then y else x

/-- Two-argument `Math.min`: `NaN` when an argument is `NaN`. -/
def min : JSNumber → JSNumber → JSNumber
  | nan, _ => nan
  | _, nan => nan
  | x, y => if le x y then x else y

/-- Is the number an integer (`Number.isInteger`)? -/
def isInteger : JSNumber → Bool
  | finite q => q.den == 1
  | _ => false

end JSNumber

/-- Decimal digits of `n`, least significant first, in at most `fuel`
divisions. -/
def decimalDigitsAux : Nat → Nat → List Char
  | 0, _ => []
  | fuel + 1, n =>
    if n = 0 then [] else Char.ofNat (48 + n % 10) :: decimalDigitsAux fuel (n / 10)

/-- Decimal digits of a natural number, most significant first (`0` for 0). -/
def decimalDigits (n : Nat) : List Char :=
  if n = 0 then ['0'] else (decimalDigitsAux n n).reverse

/-- Spec side: the decimal numeral of an integer, with a minus sign when it is
negative. -/
def decimalNumeral (z : Int) : String :=
  if z < 0 then "-" ++ String.mk (decimalDigits z.natAbs) else String.mk (decimalDigits z.natAbs)

namespace JSNumber

/-- The `n` with `10 ^ (n - 1) ≤ a / den < 10 ^ n`, for a positive rational. -/
def decimalExponent (a den : Nat) : Int :=
  let c : Int := ((decimalDigits a).length : Int) - ((decimalDigits den).length : Int)
  if den * 10 ^ c.toNat ≤ a * 10 ^ (-c).toNat then c + 1 else c

/-- Does the decimal `s * 10 ^ t` denote the binary64 value `m * 2 ^ e` (`m`
the mantissa at the unit in the last place)? In units of `2 ^ (e - 2)` the
rationals with that binary64 value reach from `4 m - 2` (`4 m - 1` above a
power of two, where the unit below is half as wide) to `4 m + 2`, the two
ends included when `m` is even. -/
def readsBack (m : Nat) (e : Int) (s : Nat) (t : Int) : Bool :=
  let lo : Nat := if m = 2 ^ 52 ∧ -1074 < e then 4 * m - 1 else 4 * m - 2
  let hi : Nat := 4 * m + 2
  let x : Nat := s * 10 ^ t.toNat * 2 ^ (2 - e).toNat
  let unit : Nat := 10 ^ (-t).toNat * 2 ^ (e - 2).toNat
  if m % 2 = 0 then decide (lo * unit ≤ x) && decide (x ≤ hi * unit)
  else decide (lo * unit < x) && decide (x < hi * unit)

/-- Step 5 of Number::toString for the positive value `a / den = m * 2 ^ e`
with `10 ^ (n - 1) ≤ a / den < 10 ^ n`: the digits of the integer `s` with the
fewest digits `k` such that `s * 10 ^ (n - k)` denotes the value, the closest
such `s`, the even one of two; tried for `k`, `k + 1`, ... with the two
multiples of `10 ^ (n - k)` next to the value. The result is the digits and
`n` (one more when the decimal is `10 ^ n`). Seventeen digits always
suffice. -/
def shortestDecimal (a den m : Nat) (e : Int) (n : Int) : Nat → Nat → List Char × Int
  | 0, k => (decimalDigits (a * 10 ^ (k - n).toNat / (den * 10 ^ (n - k).toNat)), n)
  | fuel + 1, k =>
    let t : Int := n - k
    let scaled : Nat := a * 10 ^ (-t).toNat
    let step : Nat := den * 10 ^ t.toNat
    let lower : Nat := scaled / step
    let upper : Nat := lower + 1
    let okLower : Bool := decide (lower ≠ 0) && readsBack m e lower t
    let okUpper : Bool := readsBack m e upper t
    let pick (s : Nat) : List Char × Int :=
      if s = 10 ^ k then (['1'], n + 1) else (decimalDigits s, n)
    if okLower = true ∧ okUpper = true then
      (if scaled - lower * step < upper * step - scaled then pick lower
       else if upper * step - scaled < scaled - lower * step then pick upper
       else if lower % 2 = 0 then pick lower else pick upper)
    else if okLower = true then pick lower
    else if okUpper = true then pick upper
    else shortestDecimal a den m e n fuel (k + 1)

/-- Steps 6 to 10 of Number::toString: the digits laid out with `n` digits
before the decimal point, or in exponent form when `n` is above 21 or below
`-5`. -/
def layoutDecimal (ds : List Char) (n : Int) : String :=
  let k : Int := ds.length
  if k ≤ n ∧ n ≤ 21 then String.mk (ds ++ List.replicate (n - k).toNat '0')
  else if 0 < n ∧ n ≤ 21 then String.mk (ds.take n.toNat ++ '.' :: ds.drop n.toNat)
  else if -6 < n ∧ n ≤ 0 then String.mk ('0' :: '.' :: (List.replicate (-n).toNat '0' ++ ds))
  else
    let exponent := (if n - 1 < 0 then '-' else '+') :: decimalDigits (n - 1).natAbs
    match ds with
    | [] => ""
    | [d] => String.mk (d :: 'e' :: exponent)
    | d :: rest => String.mk (d :: '.' :: (rest ++ 'e' :: exponent))

/-- Number::toString of the positive finite value `a / den`. -/
def positiveToString (a den : Nat) : String :=
  let e := ulpExponent a den
  let m := a * 2 ^ (-e).toNat / (den * 2 ^ e.toNat)
  let r := shortestDecimal a den m e (decimalExponent a den) 17 1
  layoutDecimal r.1 r.2

/-- Number::toString with radix 10, the ToString of a number in a template
literal. -/
def toJSString : JSNumber → String
  | nan => "NaN"
  | infinity false => "Infinity"
  | infinity true => "-Infinity"
  | finite q =>
    if q.num = 0 then "0"
    else if q.num < 0 then "-" ++ positiveToString q.num.natAbs q.den
    else positiveToString q.num.natAbs q.den

end JSNumber

/-! ## JavaScript values -/

/-- JavaScript values that occur in parsed JSON bodies and in component state. -/
inductive JSVal where
  | undefined
  | null
  | bool (b : Bool)
  | num (n : JSNumber)
  | str (s : String)
  | arr (xs : List JSVal)
  | obj (kvs : List (String × JSVal))

namespace JSVal

/-- ToBoolean: the truthiness test of `if (v)`, `v ? a : b` and `v || w`. -/
def truthy : JSVal → Bool
  | undefined => false
  | null => false
  | bool b => b
  | num n => n.truthy
  | str s => s != ""
  | arr _ => true
  | obj _ => true

/-- Own property of a parsed object: the last binding of the key wins, a
missing key reads as `undefined`. -/
def lookup (kvs : List (String × JSVal)) (k : String) : JSVal :=
  match kvs.reverse.find? (fun kv => kv.1 == k) with
  | some kv => kv.2
  | none => undefined

/-- Property read `v.k` for the data keys used by the component: throws on
`undefined` and `null`, reads the own property of an object, and is
`undefined` on every other value. -/
def getProp (v : JSVal) (k : String) : Option JSVal :=
  match v with
  | undefined => none
  | null => none
  | obj kvs => some (lookup kvs k)
  | _ => some undefined

/-- Strict equality `v === s` against a string. -/
def strictEqStr (v : JSVal) (s : String) : Bool :=
  match v with
  | str t => t == s
  | _ => false

end JSVal

/-! ## Props, state and requests -/

/-- Field `train` of `location.state`. -/
structure Train where
  train_id : Int
  train_name : String
  train_type : String

/-- Field `searchData` of `location.state`. -/
structure SearchData where
  fromStation : String
  toStation : String
  journeyDate : String

/-- Field `coachType` of `location.state`; `seats` is assigned by the refresh. -/
structure CoachType where
  type : String
  displayName : String
  price : JSNumber
  seats : JSVal

/-- The values of `location.state` that never change. -/
structure Props where
  train : Train
  searchData : SearchData

/-- The state hooks of the component together with the `coachType` object. -/
structure State where
  ticketCount : JSNumber
  isConfirmed : Bool
  bookingId : JSVal
  bookingTime : Option String
  coachType : CoachType

/-- State of a freshly mounted component (`useState` initial values). -/
def State.init (c : CoachType) : State :=
  { ticketCount := 1, isConfirmed := false, bookingId := JSVal.null,
    bookingTime := none, coachType := c }

/-- Line 20: `const totalPrice = coachType.price * ticketCount`. -/
def totalPrice (s : State) : JSNumber :=
  s.coachType.price * s.ticketCount

/-- Body of the create-booking request (lines 27-35). -/
structure BookingData where
  train_id : Int
  from_station : String
  to_station : String
  journey_date : String
  coach_type : String
  ticket_count : JSNumber
  total_amount : JSNumber
deriving DecidableEq

/-- Body of the create-payment request (lines 99-103). -/
structure PaymentData where
  booking_id : JSVal
  amount : JSNumber
  payment_method : String

/-- Lines 27-35: `bookingData`. -/
def bookingData (p : Props) (s : State) : BookingData :=
  { train_id := p.train.train_id
    from_station := p.searchData.fromStation
    to_station := p.searchData.toStation
    journey_date := p.searchData.journeyDate
    coach_type := s.coachType.type
    ticket_count := s.ticketCount
    total_amount := totalPrice s }

/-- Lines 99-103: `paymentData`. -/
def paymentData (s : State) : PaymentData :=
  { booking_id := s.bookingId, amount := totalPrice s, payment_method := "online" }

/-- Header value of `Authorization`: the template `Bearer ${token}`. -/
def bearer (token : Option String) : String :=
  "Bearer " ++ token.getD "null"

/-- The three `fetch` calls of the component. -/
inductive Request where
  | createBooking (auth : String) (d : BookingData)
  | refreshCoachAvailability (auth : String) (train_id : Int)
  | createPayment (auth : String) (d : PaymentData)

/-- A response of `fetch`: status and the outcome of `response.json()`. -/
structure Response where
  status : Nat
  body : Option JSVal

/-- Getter `response.ok`. -/
def Response.ok (r : Response) : Bool :=
  decide (200 ≤ r.status) && decide (r.status ≤ 299)

/-- Result of awaiting a `fetch`. -/
inductive FetchResult where
  | threw
  | resp (r : Response)

/-- What the closures of one render read when a ticket document is built. -/
structure TicketView where
  bookingId : JSVal
  train_name : String
  fromStation : String
  toStation : String
  journeyDate : String
  bookingTime : Option String
  displayName : String
  ticketCount : JSNumber
  price : JSNumber
  totalPrice : JSNumber

/-- The values a render closes over for the ticket documents. -/
def ticketView (p : Props) (s : State) : TicketView :=
  { bookingId := s.bookingId
    train_name := p.train.train_name
    fromStation := p.searchData.fromStation
    toStation := p.searchData.toStation
    journeyDate := p.searchData.journeyDate
    bookingTime := s.bookingTime
    displayName := s.coachType.displayName
    ticketCount := s.ticketCount
    price := s.coachType.price
    totalPrice := totalPrice s }

/-- Argument of an `alert` call. -/
inductive Shown where
  | text (s : String)
  | value (v : JSVal)
  | confirmed (booking_id : JSVal) (seat_numbers : Option (List JSVal))

/-- The two ticket documents. -/
inductive Artifact where
  | html
  | text
deriving DecidableEq

/-- Observable actions of the handlers, in program order. -/
inductive Effect where
  | fetch (r : Request)
  | alert (m : Shown)
  | consoleError (label : String)
  | consoleWarn (label : String)
  | download (kind : Artifact) (view : TicketView)
  | navigate (path : String)

/-! ## `handleConfirmTicket` -/

/-- Line 66: `updatedCoaches.find(c => c.coach_type === coachType.type)` on the
elements of an array; `none` when the callback throws. -/
def findCoach (type : String) : List JSVal → Option JSVal
  | [] => some JSVal.undefined
  | c :: cs =>
    match c.getProp "coach_type" with
    | none => none
    | some v => if v.strictEqStr type then some c else findCoach type cs

/-- Line 66 on an arbitrary parsed body: a value that is not an array has no
callable `find`. -/
def updatedCoach (updatedCoaches : JSVal) (type : String) : Option JSVal :=
  match updatedCoaches with
  | JSVal.arr xs => findCoach type xs
  | _ => none

/-- Line 78: `allocated_seats.map(s => s.seat_number)` on the elements of an
array; `none` when the callback throws. -/
def seatNumbers : List JSVal → Option (List JSVal)
  | [] => some []
  | s :: ss =>
    match s.getProp "seat_number" with
    | none => none
    | some n =>
      match seatNumbers ss with
      | none => none
      | some ns => some (n :: ns)

/-- Lines 77-78: the argument of the success `alert`; `none` when building it
throws. -/
def confirmedMessage (result : JSVal) : Option Shown :=
  match result.getProp "booking_id", result.getProp "allocated_seats" with
  | some bid, some allocated =>
    if allocated.truthy then
      match allocated with
      | JSVal.arr xs =>
        match seatNumbers xs with
        | some ns => some (Shown.confirmed bid (some ns))
        | none => none
      | _ => none
    else some (Shown.confirmed bid none)
  | _, _ => none

/-- Lines 83-86: the outer `catch` of `handleConfirmTicket`. -/
def catchConfirm : List Effect :=
  [Effect.consoleError "Error confirming ticket:",
   Effect.alert (Shown.text "Error occurred while confirming ticket. Please try again.")]

/-- Lines 23-44: the part of `handleConfirmTicket` before its first `await`
completes: the create-booking request. -/
def confirmRequest (p : Props) (token : Option String) (s : State) : Effect :=
  Effect.fetch (Request.createBooking (bearer token) (bookingData p s))

/-- Result of running one segment of `handleConfirmTicket`. -/
structure Resumed where
  st : State
  effects : List Effect
  result : Option JSVal

/-- Lines 37-61 and 79-86: the segment run when the create-booking `fetch`
settles; `result = some r` when the handler goes on to await the refresh. -/
def onBookingResult (p : Props) (token : Option String) (s : State)
    (r : FetchResult) (now : String) : Resumed :=
  match r with
  | FetchResult.threw => ⟨s, catchConfirm, none⟩
  | FetchResult.resp res =>
    if res.ok then
      match res.body with
      | none => ⟨s, catchConfirm, none⟩
      | some result =>
        match result.getProp "booking_id" with
        | none => ⟨s, catchConfirm, none⟩
        | some bid =>
          ⟨{ s with bookingId := bid, bookingTime := some now, isConfirmed := true },
           [Effect.fetch (Request.refreshCoachAvailability (bearer token) p.train.train_id)],
           some result⟩
    else
      match res.body with
      | none => ⟨s, catchConfirm, none⟩
      | some errorData =>
        match errorData.getProp "detail" with
        | none => ⟨s, catchConfirm, none⟩
        | some d =>
          ⟨s, [Effect.alert (if d.truthy then Shown.value d
                 else Shown.text "Failed to confirm ticket. Please try again.")], none⟩

/-- Lines 63-71: the body of the inner `try` after the refresh `fetch`
settled; `none` when it throws. -/
def refreshSeats (c : CoachType) (r : FetchResult) : Option CoachType :=
  match r with
  | FetchResult.threw => none
  | FetchResult.resp res =>
    if res.ok then
      match res.body with
      | none => none
      | some updatedCoaches =>
        match updatedCoach updatedCoaches c.type with
        | none => none
        | some u =>
          if u.truthy then
            match u.getProp "available_seats" with
            | none => none
            | some v => some { c with seats := v }
          else some c
    else some c

/-- State and effects after a handler ran. -/
structure Outcome where
  st : State
  effects : List Effect

/-- Lines 54-78: the segment run when the refresh `fetch` settles. -/
def onRefreshResult (s : State) (result : JSVal) (r : FetchResult) : Outcome :=
  let s1 : State :=
    match refreshSeats s.coachType r with
    | none => s
    | some c => { s with coachType := c }
  let warn : List Effect :=
    match refreshSeats s.coachType r with
    | none => [Effect.consoleWarn "Failed to refresh seat availability:"]
    | some _ => []
  match confirmedMessage result with
  | some m => ⟨s1, warn ++ [Effect.alert m]⟩
  | none => ⟨s1, warn ++ catchConfirm⟩

/-- Lines 22-87: `handleConfirmTicket` run from state `s` with no other event
in between; `booking` and `refresh` are the results of its two `fetch` calls
and `now` is `new Date().toLocaleString()`. -/
def handleConfirmTicket (p : Props) (token : Option String) (s : State)
    (booking : FetchResult) (now : String) (refresh : FetchResult) : Outcome :=
  let b := onBookingResult p token s booking now
  match b.result with
  | none => ⟨b.st, confirmRequest p token s :: b.effects⟩
  | some result =>
    let c := onRefreshResult b.st result refresh
    ⟨c.st, confirmRequest p token s :: (b.effects ++ c.effects)⟩

/-! ## `handleDownloadTicket` -/

/-- Lines 129-221: `generateTicketPDF`. -/
def generateTicketPDF (v : TicketView) : List Effect :=
  [Effect.download Artifact.html v,
   Effect.alert (Shown.text "Ticket downloaded successfully! Check your Downloads folder."),
   Effect.navigate "/my-tickets"]

/-- Lines 223-268: `downloadTextTicket`. -/
def downloadTextTicket (v : TicketView) : List Effect :=
  [Effect.download Artifact.text v,
   Effect.alert (Shown.text "Ticket downloaded successfully! Check your Downloads folder."),
   Effect.navigate "/my-tickets"]

/-- Lines 123-126: the `catch` of `handleDownloadTicket`. -/
def catchPayment : List Effect :=
  [Effect.consoleError "Error processing payment:",
   Effect.alert (Shown.text "Error occurred while processing payment. Please try again.")]

/-- Lines 105-112: the create-payment request of a render. -/
def paymentRequest (token : Option String) (s : State) : Effect :=
  Effect.fetch (Request.createPayment (bearer token) (paymentData s))

/-- Lines 114-126: the segment run when the create-payment `fetch` settles;
`v` holds the values of the render whose handler was clicked. -/
def onPaymentResult (format : String) (v : TicketView) (r : FetchResult) : List Effect :=
  match r with
  | FetchResult.threw => catchPayment
  | FetchResult.resp res =>
    if res.ok then
      if format = "html" then generateTicketPDF v else downloadTextTicket v
    else [Effect.alert (Shown.text "Failed to process payment. Please try again.")]

/-- Lines 89-127: `handleDownloadTicket(format)` run from state `s`; `payment`
is the result of its `fetch`. -/
def handleDownloadTicket (p : Props) (token : Option String) (s : State)
    (format : String) (payment : FetchResult) : Outcome :=
  if s.isConfirmed = false then
    ⟨s, [Effect.alert (Shown.text "Please confirm your ticket first before downloading.")]⟩
  else
    ⟨s, paymentRequest token s :: onPaymentResult format (ticketView p s) payment⟩

/-! ## The ticket-count controls -/

/-- White space skipped by `parseInt` (StrWhiteSpaceChar), by code point. -/
def isStrWhiteSpace (c : Char) : Bool :=
  decide (c.toNat ∈ [9, 10, 11, 12, 13, 32, 160, 5760, 8232, 8233, 8239, 8287, 12288, 65279])
    || (decide (8192 ≤ c.toNat) && decide (c.toNat ≤ 8202))

/-- Value of a character as a digit (`0-9`, `a-z`, `A-Z`). -/
def digitValue (c : Char) : Option Nat :=
  if 48 ≤ c.toNat ∧ c.toNat ≤ 57 then some (c.toNat - 48)
  else if 97 ≤ c.toNat ∧ c.toNat ≤ 122 then some (c.toNat - 97 + 10)
  else if 65 ≤ c.toNat ∧ c.toNat ≤ 90 then some (c.toNat - 65 + 10)
  else none

/-- The longest prefix of digits of the radix, as digit values. -/
def leadingDigits (radix : Nat) : List Char → List Nat
  | [] => []
  | c :: cs =>
    match digitValue c with
    | some d => if d < radix then d :: leadingDigits radix cs else []
    | none => []

/-- Number denoted by digit values, most significant first. -/
def digitsValue (radix : Nat) (ds : List Nat) : Nat :=
  ds.foldl (fun acc d => acc * radix + d) 0

/-- The digits of `parseInt` after white space and sign: a `0x`/`0X` prefix
selects radix 16; `none` is `NaN`. -/
def parseUnsigned (cs : List Char) : Option Nat :=
  match cs with
  | c0 :: c1 :: rest =>
    if c0.toNat = 48 ∧ (c1.toNat = 120 ∨ c1.toNat = 88) then
      (if leadingDigits 16 rest = [] then none else some (digitsValue 16 (leadingDigits 16 rest)))
    else
      (if leadingDigits 10 cs = [] then none else some (digitsValue 10 (leadingDigits 10 cs)))
  | _ => if leadingDigits 10 cs = [] then none else some (digitsValue 10 (leadingDigits 10 cs))

/-- The integer read by `parseInt(s)` without radix argument, before it is
made a Number: white space is skipped, a sign is read, then the longest run of
digits; `none` when there is no digit. -/
def parseInteger (s : String) : Option Int :=
  match s.toList.dropWhile isStrWhiteSpace with
  | [] => none
  | c :: cs =>
    if c.toNat = 45 then (parseUnsigned cs).map (fun n => - (n : Int))
    else if c.toNat = 43 then (parseUnsigned cs).map (fun n => (n : Int))
    else (parseUnsigned (c :: cs)).map (fun n => (n : Int))

/-- JavaScript `parseInt(s)` without radix argument: `NaN` when no digit is
read, else the Number of the integer read (the nearest double, an infinity
from `2 ^ 1024` on). -/
def parseInt (s : String) : JSNumber :=
  match parseInteger s with
  | none => JSNumber.nan
  | some k => JSNumber.round k 1

/-- Line 371: `Math.max(1, parseInt(e.target.value) || 1)`. -/
def typedCount (value : String) : JSNumber :=
  JSNumber.max 1 (if (parseInt value).truthy then parseInt value else 1)

/-- Line 362: `Math.max(1, ticketCount - 1)`. -/
def decrementCount (ticketCount : JSNumber) : JSNumber :=
  JSNumber.max 1 (ticketCount - 1)

/-- Line 377: `Math.min(10, ticketCount + 1)`. -/
def incrementCount (ticketCount : JSNumber) : JSNumber :=
  JSNumber.min 10 (ticketCount + 1)

/-! ## Event-driven execution of the component -/

/-- An invocation of an async handler, suspended at an `await` (or finished),
with the locals its remaining code reads. -/
inductive Call where
  | awaitBooking (token : Option String) (sent : BookingData)
  | awaitRefresh (result : JSVal)
  | awaitPayment (format : String) (view : TicketView)
  | done

/-- Is the invocation waiting for the create-booking response? -/
def Call.isAwaitBooking : Call → Bool
  | Call.awaitBooking _ _ => true
  | _ => false

/-- The mounted component: hook state, the handler invocations started so far
(indexed in order of their clicks), the effects emitted so far, and a history
variable `booked` recording, for each create-booking response taken by the
success branch, the booking id stored and the request body of that invocation. -/
structure Page where
  st : State
  calls : List Call
  trace : List Effect
  booked : List (JSVal × BookingData)

/-- The component right after mounting. -/
def Page.init (c : CoachType) : Page :=
  { st := State.init c, calls := [], trace := [], booked := [] }

/-- User actions on rendered, enabled controls and arrivals of `fetch`
results; `i` names the handler invocation whose `await` settles. -/
inductive Event where
  | clickMinus
  | clickPlus
  | changeInput (value : String)
  | clickConfirm (token : Option String)
  | clickDownload (kind : Artifact) (token : Option String)
  | bookingSettles (i : Nat) (r : FetchResult) (now : String)
  | refreshSettles (i : Nat) (r : FetchResult)
  | paymentSettles (i : Nat) (r : FetchResult)

/-- Argument passed by the two download buttons (lines 406 and 412). -/
def Artifact.format : Artifact → String
  | Artifact.html => "html"
  | Artifact.text => "text"

/-- One event of the component. The ticket-count controls and the Confirm
button are rendered while `!isConfirmed` (line 354), the download buttons
while `isConfirmed` (line 400); the minus and plus buttons are disabled at
both limits of the range (lines 363, 378). An event on a control that is not rendered
or is disabled, or for an invocation that is not waiting for it, changes
nothing. -/
def step (p : Props) (σ : Page) : Event → Page
  | Event.clickMinus =>
    if σ.st.isConfirmed = false ∧ σ.st.ticketCount.le 1 = false then
      { σ with st := { σ.st with ticketCount := decrementCount σ.st.ticketCount } }
    else σ
  | Event.clickPlus =>
    if σ.st.isConfirmed = false ∧ σ.st.ticketCount.ge 10 = false then
      { σ with st := { σ.st with ticketCount := incrementCount σ.st.ticketCount } }
    else σ
  | Event.changeInput value =>
    if σ.st.isConfirmed = false then
      { σ with st := { σ.st with ticketCount := typedCount value } }
    else σ
  | Event.clickConfirm token =>
    if σ.st.isConfirmed = false then
      { σ with
        calls := σ.calls ++ [Call.awaitBooking token (bookingData p σ.st)]
        trace := σ.trace ++ [confirmRequest p token σ.st] }
    else σ
  | Event.clickDownload kind token =>
    if σ.st.isConfirmed = true then
      { σ with
        calls := σ.calls ++ [Call.awaitPayment kind.format (ticketView p σ.st)]
        trace := σ.trace ++ [paymentRequest token σ.st] }
    else σ
  | Event.bookingSettles i r now =>
    match σ.calls[i]? with
    | some (Call.awaitBooking token sent) =>
      let b := onBookingResult p token σ.st r now
      match b.result with
      | some result =>
        { st := b.st
          calls := σ.calls.set i (Call.awaitRefresh result)
          trace := σ.trace ++ b.effects
          booked := σ.booked ++ [(b.st.bookingId, sent)] }
      | none =>
        { st := b.st
          calls := σ.calls.set i Call.done
          trace := σ.trace ++ b.effects
          booked := σ.booked }
    | _ => σ
  | Event.refreshSettles i r =>
    match σ.calls[i]? with
    | some (Call.awaitRefresh result) =>
      let c := onRefreshResult σ.st result r
      { σ with
        st := c.st
        calls := σ.calls.set i Call.done
        trace := σ.trace ++ c.effects }
    | _ => σ
  | Event.paymentSettles i r =>
    match σ.calls[i]? with
    | some (Call.awaitPayment format view) =>
      { σ with
        calls := σ.calls.set i Call.done
        trace := σ.trace ++ onPaymentResult format view r }
    | _ => σ

/-- A sequence of events, executed in order. -/
def run (p : Props) (σ : Page) (es : List Event) : Page :=
  es.foldl (step p) σ

/-- Pages reachable from a freshly mounted component. -/
def Reachable (p : Props) (c : CoachType) (σ : Page) : Prop :=
  ∃ es : List Event, σ = run p (Page.init c) es

/-! ## Observations on effects -/

/-- Is the effect the download of a ticket document? -/
def Effect.isDownload : Effect → Bool
  | Effect.download _ _ => true
  | _ => false

/-- Is the effect a `fetch`? -/
def Effect.isFetch : Effect → Bool
  | Effect.fetch _ => true
  | _ => false

/-- Is the effect an `alert`? -/
def Effect.isAlert : Effect → Bool
  | Effect.alert _ => true
  | _ => false

/-- Is the effect a create-booking request? -/
def Effect.isBookingRequest : Effect → Bool
  | Effect.fetch (Request.createBooking _ _) => true
  | _ => false

/-- Is the effect a refresh-coach-availability request? -/
def Effect.isRefreshRequest : Effect → Bool
  | Effect.fetch (Request.refreshCoachAvailability _ _) => true
  | _ => false

/-- Is the effect a create-payment request? -/
def Effect.isPaymentRequest : Effect → Bool
  | Effect.fetch (Request.createPayment _ _) => true
  | _ => false

/-- Did the `fetch` yield a response with `response.ok`? -/
def FetchResult.isOk : FetchResult → Bool
  | FetchResult.threw => false
  | FetchResult.resp r => r.ok

/-- Number of handler invocations waiting for a create-booking response. -/
def Page.inFlightBookings (σ : Page) : Nat :=
  σ.calls.countP Call.isAwaitBooking

/-- After the first request of a handler run, is another request emitted
before the first `alert`? -/
def requeriesBeforeReport (effects : List Effect) : Bool :=
  ((effects.drop 1).takeWhile (fun e => !e.isAlert)).any Effect.isFetch

/-- An ok create-booking response with booking_id `b` was taken by a waiting
invocation of `handleConfirmTicket` whose request body was `sent`, in the
course of the events `es` from mounting. -/
def BookingReceived (p : Props) (c : CoachType) (es : List Event) (b : JSVal)
    (sent : BookingData) : Prop :=
  ∃ (es1 es2 : List Event) (i : Nat) (res : Response) (now : String)
    (token : Option String) (result : JSVal),
    es = es1 ++ Event.bookingSettles i (FetchResult.resp res) now :: es2
    ∧ (run p (Page.init c) es1).calls[i]? = some (Call.awaitBooking token sent)
    ∧ res.ok = true ∧ res.body = some result ∧ result.getProp "booking_id" = some b

/-- Invariant of the execution: the history is made of received bookings, a
confirmed state shows a booking of the history, and so does every
create-payment request of the trace. -/
def PaysBooked (p : Props) (c : CoachType) (es : List Event) (σ : Page) : Prop :=
  (∀ b ∈ σ.booked, BookingReceived p c es b.1 b.2)
  ∧ (σ.st.isConfirmed = true → ∃ sent, (σ.st.bookingId, sent) ∈ σ.booked)
  ∧ (∀ auth d, Effect.fetch (Request.createPayment auth d) ∈ σ.trace →
      (∃ sent, (d.booking_id, sent) ∈ σ.booked) ∧ d.payment_method = "online")

/-! ## Concrete data of the scenarios -/

/-- A train and a search, as passed in `location.state`. -/
def sampleProps : Props :=
  { train := { train_id := 101, train_name := "Suborno Express", train_type := "Intercity" }
    searchData := { fromStation := "Dhaka", toStation := "Chattogram", journeyDate := "2025-07-01" } }

/-- The coach of the scenario: AC chair at price 1200, 40 seats shown. -/
def acChair : CoachType :=
  { type := "AC_Chair", displayName := "AC Chair", price := 1200, seats := JSVal.num 40 }

/-- A response with status 200 whose body is an object with booking_id 7. -/
def bookedSevenResponse : Response :=
  { status := 200, body := some (JSVal.obj [("booking_id", JSVal.num 7)]) }

/-- The create-booking `fetch` resolving with `bookedSevenResponse`. -/
def bookedSeven : FetchResult :=
  FetchResult.resp bookedSevenResponse

/-- A response with status 409 whose body carries a detail text. -/
def conflict : FetchResult :=
  FetchResult.resp
    { status := 409, body := some (JSVal.obj [("detail", JSVal.str "Not enough seats available")]) }

/-- A response with status 200 and an empty object as body. -/
def okEmpty : FetchResult :=
  FetchResult.resp { status := 200, body := some (JSVal.obj []) }

/-- A fresh state with three tickets selected. -/
def threeSelected : State :=
  { ticketCount := 3, isConfirmed := false, bookingId := JSVal.null,
    bookingTime := none, coachType := acChair }

/-- A confirmed state: booking 7 for three AC chair tickets. -/
def confirmedThree : State :=
  { ticketCount := 3, isConfirmed := true, bookingId := JSVal.num 7,
    bookingTime := some "7/1/2025, 10:00:00 AM", coachType := acChair }

/-- Confirm is clicked twice before any response arrives. -/
def doubleClickRun : Page :=
  run sampleProps (Page.init acChair) [Event.clickConfirm none, Event.clickConfirm none]

/-- Confirm is clicked with one ticket, the plus button is clicked while the
request is pending, the booking succeeds with id 7, the refresh fails, and
the HTML download is clicked. -/
def lateChangeRun : Page :=
  run sampleProps (Page.init acChair)
    [Event.clickConfirm none, Event.clickPlus, Event.bookingSettles 0 bookedSeven "now",
     Event.refreshSettles 0 FetchResult.threw, Event.clickDownload Artifact.html none]

/-! ## The ticket documents -/

mutual
/-- ToString of a value, as applied by a template literal `${v}`. -/
def JSVal.toJSString : JSVal → String
  | JSVal.undefined => "undefined"
  | JSVal.null => "null"
  | JSVal.bool b => if b then "true" else "false"
  | JSVal.num n => n.toJSString
  | JSVal.str s => s
  | JSVal.arr xs => JSVal.joinElements xs
  | JSVal.obj _ => "[object Object]"
/-- The elements of an array joined by commas (`Array.prototype.join`). -/
def JSVal.joinElements : List JSVal → String
  | [] => ""
  | [x] => JSVal.elementString x
  | x :: y :: rest => JSVal.elementString x ++ "," ++ JSVal.joinElements (y :: rest)
/-- An array element inside `join`: `undefined` and `null` give the empty
string, every other value its ToString. -/
def JSVal.elementString : JSVal → String
  | JSVal.undefined => ""
  | JSVal.null => ""
  | JSVal.bool b => if b then "true" else "false"
  | JSVal.num n => n.toJSString
  | JSVal.str s => s
  | JSVal.arr xs => JSVal.joinElements xs
  | JSVal.obj _ => "[object Object]"
end

/-- ToString of a hook holding a string or `null` (`bookingTime`). -/
def nullableString : Option String → String
  | none => "null"
  | some s => s

/-- The HTML document of `generateTicketPDF` (lines 131-198): the template text before the
booking id. -/
def ticketContentHead : String :=
  "\n" ++
  "<!DOCTYPE html>\n" ++
  "<html>\n" ++
  "<head>\n" ++
  "    <title>Railway E-Ticket</title>\n" ++
  "    <style>\n" ++
  "        body \x7b font-family: Arial, sans-serif; margin: 20px; \x7d\n" ++
  "        .ticket \x7b border: 2px solid #333; padding: 20px; max-width: 600px; " ++
  "margin: 0 auto; \x7d\n" ++
  "        .header \x7b text-align: center; border-bottom: 2px solid #333; padding-bottom: " ++
  "10px; margin-bottom: 20px; \x7d\n" ++
  "        .row \x7b display: flex; justify-content: space-between; margin: " ++
  "10px 0; \x7d\n" ++
  "        .total-row \x7b border-top: 2px solid #333; margin-top: 20px; padding-top: " ++
  "10px; font-weight: bold; font-size: 18px; \x7d\n" ++
  "        .footer \x7b text-align: center; margin-top: 20px; border-top: 1px " ++
  "solid #333; padding-top: 10px; \x7d\n" ++
  "    </style>\n" ++
  "</head>\n" ++
  "<body>\n" ++
  "    <div class=\"ticket\">\n" ++
  "        <div class=\"header\">\n" ++
  "            <h1>🚆 Rail Tikit</h1>\n" ++
  "            <h2>E-Ticket</h2>\n" ++
  "        </div>\n" ++
  "        \n" ++
  "        <div class=\"content\">\n" ++
  "            <div class=\"row\">\n" ++
  "                <span><strong>Booking ID:</strong></span>\n" ++
  "                <span>"

/-- The HTML document of `generateTicketPDF`: the template from the booking id up to the
currency sign of the total row, with the values of the render. -/
def ticketContentDetails (v : TicketView) : String :=
  "</span>\n" ++
  "            </div>\n" ++
  "            <div class=\"row\">\n" ++
  "                <span><strong>Train:</strong></span>\n" ++
  "                <span>" ++
  v.train_name ++
  "</span>\n" ++
  "            </div>\n" ++
  "            <div class=\"row\">\n" ++
  "                <span><strong>Route:</strong></span>\n" ++
  "                <span>" ++
  v.fromStation ++
  " → " ++
  v.toStation ++
  "</span>\n" ++
  "            </div>\n" ++
  "            <div class=\"row\">\n" ++
  "                <span><strong>Journey Date:</strong></span>\n" ++
  "                <span>" ++
  v.journeyDate ++
  "</span>\n" ++
  "            </div>\n" ++
  "            <div class=\"row\">\n" ++
  "                <span><strong>Booking Time:</strong></span>\n" ++
  "                <span>" ++
  nullableString v.bookingTime ++
  "</span>\n" ++
  "            </div>\n" ++
  "            <div class=\"row\">\n" ++
  "                <span><strong>Coach Type:</strong></span>\n" ++
  "                <span>" ++
  v.displayName ++
  "</span>\n" ++
  "            </div>\n" ++
  "            <div class=\"row\">\n" ++
  "                <span><strong>Number of Tickets:</strong></span>\n" ++
  "                <span>" ++
  v.ticketCount.toJSString ++
  "</span>\n" ++
  "            </div>\n" ++
  "            <div class=\"row\">\n" ++
  "                <span><strong>Price per Ticket:</strong></span>\n" ++
  "                <span>৳" ++
  v.price.toJSString ++
  "</span>\n" ++
  "            </div>\n" ++
  "            <div class=\"row total-row\">\n" ++
  "                <span><strong>Total Amount Paid:</strong></span>\n" ++
  "                <span><strong>"

/-- The HTML document of `generateTicketPDF`: the template text after the total amount. -/
def ticketContentFoot : String :=
  "</strong></span>\n" ++
  "            </div>\n" ++
  "        </div>\n" ++
  "        \n" ++
  "        <div class=\"footer\">\n" ++
  "            <p><strong>Thank you for choosing Rail Tikit!</strong></p>\n" ++
  "            <p>Please arrive 30 minutes before departure time.</p>\n" ++
  "            <p>Keep this ticket safe for your journey.</p>\n" ++
  "        </div>\n" ++
  "    </div>\n" ++
  "</body>\n" ++
  "</html>"

/-- The text document of `downloadTextTicket` (lines 225-245): the template text before the
booking id. -/
def ticketTextHead : String :=
  "\n" ++
  "========================================\n" ++
  "    RAIL TIKIT E-TICKET\n" ++
  "========================================\n" ++
  "\n" ++
  "Booking ID: "

/-- The text document of `downloadTextTicket`: the template from the booking id up to the
currency sign of the total row, with the values of the render. -/
def ticketTextDetails (v : TicketView) : String :=
  "\n" ++
  "Train: " ++
  v.train_name ++
  "\n" ++
  "Route: " ++
  v.fromStation ++
  " → " ++
  v.toStation ++
  "\n" ++
  "Journey Date: " ++
  v.journeyDate ++
  "\n" ++
  "Booking Time: " ++
  nullableString v.bookingTime ++
  "\n" ++
  "Coach Type: " ++
  v.displayName ++
  "\n" ++
  "Number of Tickets: " ++
  v.ticketCount.toJSString ++
  "\n" ++
  "Price per Ticket: ৳" ++
  v.price.toJSString ++
  "\n" ++
  "Total Amount Paid: "

/-- The text document of `downloadTextTicket`: the template text after the total amount. -/
def ticketTextFoot : String :=
  "\n" ++
  "\n" ++
  "========================================\n" ++
  "Thank you for choosing Rail Tikit!\n" ++
  "Please arrive 30 minutes before departure time.\n" ++
  "Keep this ticket safe for your journey.\n" ++
  "========================================\n"

/-- Lines 131-198: `ticketContent`, the template literal of
`generateTicketPDF`. -/
def ticketContent (v : TicketView) : String :=
  ticketContentHead ++ v.bookingId.toJSString ++ ticketContentDetails v ++ "৳" ++
    v.totalPrice.toJSString ++ ticketContentFoot

/-- Lines 225-245: `ticketText`, the template literal of `downloadTextTicket`. -/
def ticketText (v : TicketView) : String :=
  ticketTextHead ++ v.bookingId.toJSString ++ ticketTextDetails v ++ "৳" ++
    v.totalPrice.toJSString ++ ticketTextFoot

/-- Lines 207 and 254: `downloadLink.download`, the name of the downloaded
file. -/
def Artifact.fileName (kind : Artifact) (v : TicketView) : String :=
  match kind with
  | Artifact.html => "Railway_Ticket_" ++ v.bookingId.toJSString ++ ".html"
  | Artifact.text => "Railway_Ticket_" ++ v.bookingId.toJSString ++ ".txt"

/-- Lines 201 and 248: the content of the blob that is downloaded. -/
def Artifact.content (kind : Artifact) (v : TicketView) : String :=
  match kind with
  | Artifact.html => ticketContent v
  | Artifact.text => ticketText v

/-- File name and content of a download effect. -/
def Effect.document : Effect → Option (String × String)
  | Effect.download kind v => some (kind.fileName v, kind.content v)
  | _ => none

/-- The documents downloaded by a list of effects, as pairs of file name and
content. -/
def emitted (effects : List Effect) : List (String × String) :=
  effects.filterMap Effect.document

/-- The text `piece` occurs in `doc`. -/
def Contains (doc piece : String) : Prop :=
  ∃ pre post : String, doc = pre ++ piece ++ post

/-- Do the characters `piece` stand at the start of `doc`? -/
def startsWith : List Char → List Char → Bool
  | [], _ => true
  | _ :: _, [] => false
  | a :: as, b :: bs => decide (a = b) && startsWith as bs

/-- Do the characters `piece` occur in `doc`? The search that decides
`Contains`. -/
def occursIn (piece : List Char) : List Char → Bool
  | [] => startsWith piece []
  | c :: cs => startsWith piece (c :: cs) || occursIn piece cs

/-- The documents downloaded when `handleConfirmTicket` ran on an ok
create-booking response with parsed body `result` (the refresh `fetch` threw)
and a download button was then clicked with an ok payment response. -/
def documentsAfterBooking (p : Props) (s : State) (result : JSVal) (kind : Artifact) :
    List (String × String) :=
  emitted (handleDownloadTicket p none
    (handleConfirmTicket p none s (FetchResult.resp { status := 200, body := some result })
      "now" FetchResult.threw).st
    kind.format (FetchResult.resp { status := 200, body := some (JSVal.obj []) })).effects

/-- A parsed create-booking body with booking id 7 and the given allocated
seats. -/
def bookedWithSeats (seats : List JSVal) : JSVal :=
  JSVal.obj [("booking_id", JSVal.num 7), ("allocated_seats", JSVal.arr seats)]

/-- An allocated seat as the service reports it. -/
def seat (seat_number : String) : JSVal :=
  JSVal.obj [("seat_number", JSVal.str seat_number), ("coach_number", JSVal.str "KA")]

/-! ## `Home.jsx`: train search and ticket verification -/

/-- JavaScript `String.prototype.trim`: white space and line terminators are
removed from both ends. -/
def jsTrim (s : String) : String :=
  String.mk ((s.toList.dropWhile isStrWhiteSpace).reverse.dropWhile isStrWhiteSpace).reverse

/-- The class `\d` of a regular expression: the ten ASCII digits. -/
def isDecimalDigit (c : Char) : Bool :=
  decide (48 ≤ c.toNat) && decide (c.toNat ≤ 57)

/-- Matcher for `\d*$`: only digits up to the end of the input. -/
def digitsToEnd : List Char → Bool
  | [] => true
  | c :: cs => isDecimalDigit c && digitsToEnd cs

/-- Line 324: does `match(/^\d+$/)` succeed: one digit, then `\d*$`. -/
def matchesDigits (s : String) : Bool :=
  match s.toList with
  | [] => false
  | c :: cs => isDecimalDigit c && digitsToEnd cs

/-- The hooks of `Home` read or set by `handleVerifyTicket` (lines 47-49);
`verifyError` is `null`, a message, or the `detail` of an error body. -/
structure VerifyState where
  bookingId : String
  verifyLoading : Bool
  verifyError : JSVal

/-- The two `fetch` calls of the handlers of `Home` modelled here. -/
inductive HomeRequest where
  | searchTrains (from_station : String) (to_station : String) (journey_date : String)
  | verifyTicket (auth : String) (booking_id : String)

/-- Observable actions of `handleSearch` and `handleVerifyTicket`, in program
order; a navigation carries its `state`. -/
inductive HomeEffect where
  | fetch (r : HomeRequest)
  | alert (text : String)
  | consoleError (label : String)
  | navigateSearchResults (trains : JSVal) (searchData : SearchData)
  | navigateVerifyTicket (ticketDetails : JSVal)

/-- Is the effect a `fetch`? -/
def HomeEffect.isFetch : HomeEffect → Bool
  | HomeEffect.fetch _ => true
  | _ => false

/-- Is the effect a call of `navigate`? -/
def HomeEffect.isNavigate : HomeEffect → Bool
  | HomeEffect.navigateSearchResults _ _ => true
  | HomeEffect.navigateVerifyTicket _ => true
  | _ => false

/-- Hooks and effects after `handleVerifyTicket` ran. -/
structure VerifyOutcome where
  st : VerifyState
  effects : List HomeEffect

/-- Lines 362-367: the `catch` and `finally` blocks of `handleVerifyTicket`,
after the request `req` was sent. -/
def catchVerify (s : VerifyState) (req : HomeEffect) : VerifyOutcome :=
  ⟨{ s with verifyLoading := false
            verifyError := JSVal.str "Error occurred while verifying ticket. Please try again." },
   [req, HomeEffect.consoleError "Error verifying ticket:"]⟩

/-- Lines 316-368: `handleVerifyTicket` run from the hooks `s` with no other
event in between; `r` is the result of its `fetch` (read only when the request
is sent). The setters of lines 330-331 are overwritten by the setters that
follow the `await`, so the outcome shows the final values. -/
def handleVerifyTicket (token : Option String) (s : VerifyState) (r : FetchResult) :
    VerifyOutcome :=
  if jsTrim s.bookingId = "" then
    ⟨{ s with verifyError := JSVal.str "Please enter a booking ID" }, []⟩
  else if matchesDigits (jsTrim s.bookingId) = false then
    ⟨{ s with verifyError := JSVal.str "Please enter a valid booking ID (numbers only)" }, []⟩
  else
    match r with
    | FetchResult.threw =>
      catchVerify s (HomeEffect.fetch (HomeRequest.verifyTicket (bearer token) (jsTrim s.bookingId)))
    | FetchResult.resp res =>
      if res.ok then
        match res.body with
        | none =>
          catchVerify s
            (HomeEffect.fetch (HomeRequest.verifyTicket (bearer token) (jsTrim s.bookingId)))
        | some ticketDetails =>
          ⟨{ s with verifyLoading := false, verifyError := JSVal.null },
           [HomeEffect.fetch (HomeRequest.verifyTicket (bearer token) (jsTrim s.bookingId)),
            HomeEffect.navigateVerifyTicket ticketDetails]⟩
      else
        match res.body with
        | none =>
          catchVerify s
            (HomeEffect.fetch (HomeRequest.verifyTicket (bearer token) (jsTrim s.bookingId)))
        | some errorData =>
          if res.status = 404 then
            ⟨{ s with verifyLoading := false
                      verifyError :=
                        JSVal.str "Invalid ticket - No ticket found with this booking ID" },
             [HomeEffect.fetch (HomeRequest.verifyTicket (bearer token) (jsTrim s.bookingId))]⟩
          else
            match errorData.getProp "detail" with
            | none =>
              catchVerify s
                (HomeEffect.fetch (HomeRequest.verifyTicket (bearer token) (jsTrim s.bookingId)))
            | some d =>
              ⟨{ s with verifyLoading := false
                        verifyError :=
                          if d.truthy then d else JSVal.str "Failed to verify ticket" },
               [HomeEffect.fetch
                  (HomeRequest.verifyTicket (bearer token) (jsTrim s.bookingId))]⟩

/-- Lines 225-228: the `catch` of `handleSearch`. -/
def catchSearch : List HomeEffect :=
  [HomeEffect.consoleError "Error searching trains:",
   HomeEffect.alert "Error occurred while searching trains. Please try again."]

/-- Lines 188-229: `handleSearch` on the hook `searchData`; `r` is the result
of its `fetch` (read only when the request is sent). The handler sets no
hook. -/
def handleSearch (searchData : SearchData) (r : FetchResult) : List HomeEffect :=
  if searchData.fromStation = "" ∨ searchData.toStation = "" ∨ searchData.journeyDate = "" then
    [HomeEffect.alert "Please fill in all required fields"]
  else if searchData.fromStation = searchData.toStation then
    [HomeEffect.alert "Source and destination stations cannot be the same"]
  else
    HomeEffect.fetch
        (HomeRequest.searchTrains searchData.fromStation searchData.toStation
          searchData.journeyDate)
      :: (match r with
          | FetchResult.threw => catchSearch
          | FetchResult.resp res =>
            if res.ok then
              match res.body with
              | none => catchSearch
              | some trainsData => [HomeEffect.navigateSearchResults trainsData searchData]
            else [HomeEffect.alert "Failed to search trains. Please try again."])

/-- Number of days of a month of the proleptic Gregorian calendar. -/
def daysInMonth (year month : Nat) : Nat :=
  if month = 2 then
    (if year % 400 = 0 ∨ (year % 4 = 0 ∧ year % 100 ≠ 0) then 29 else 28)
  else if month = 4 ∨ month = 6 ∨ month = 9 ∨ month = 11 then 30
  else 31

/-- The date denoted by a valid date string `YYYY-MM-DD` (a year of four or
more digits, greater than zero), as year, month and day in one number that
orders dates; `none` when the text is no valid date string. A date input
holds such a string or the empty string. -/
def dateNumber (s : String) : Option Nat :=
  match s.toList.reverse with
  | d2 :: d1 :: h2 :: m2 :: m1 :: h1 :: y =>
    let year := digitsValue 10 (y.reverse.map (fun c => c.toNat - 48))
    let month := (m1.toNat - 48) * 10 + (m2.toNat - 48)
    let day := (d1.toNat - 48) * 10 + (d2.toNat - 48)
    if h1.toNat = 45 ∧ h2.toNat = 45 ∧ 4 ≤ y.length
        ∧ (d2 :: d1 :: m2 :: m1 :: y).all isDecimalDigit = true
        ∧ 0 < year ∧ 1 ≤ month ∧ month ≤ 12 ∧ 1 ≤ day ∧ day ≤ daysInMonth year month then
      some (year * 10000 + month * 100 + day)
    else none
  | _ => none

/-- Is the date `a` earlier than the date `b`? False when one of the two is no
valid date string. With the value of a date input for `a` and its `min` for
`b` this is the range underflow of constraint validation. -/
def dateBefore (a b : String) : Bool :=
  match dateNumber a, dateNumber b with
  | some x, some y => decide (x < y)
  | _, _ => false

/-- The hooks read by the search form (lines 555-646) and the instant of its
last render, as `new Date().toISOString()` returns it (UTC). The two station
inputs show `fromStationSearch` and `toStationSearch`, the date input shows
`searchData.journeyDate`. -/
structure SearchForm where
  fromStationSearch : String
  toStationSearch : String
  searchData : SearchData
  renderedAt : String

/-- Line 635: `new Date().toISOString().split('T')[0]`, the `min` attribute of
the date input: the text before the first `T` of the UTC timestamp of the
render. -/
def journeyDateMin (renderedAt : String) : String :=
  String.mk (renderedAt.toList.takeWhile (fun c => c != 'T'))

/-- Constraint validation of the search form, run by the browser when the
submit button is clicked: the three inputs are `required` (lines 568, 603,
636) and the date input has the `min` of the last render (line 635). -/
def searchFormValid (f : SearchForm) : Bool :=
  f.fromStationSearch != "" && f.toStationSearch != "" && f.searchData.journeyDate != ""
    && !(dateBefore f.searchData.journeyDate (journeyDateMin f.renderedAt))

/-- A click on the submit button of the search form (lines 555, 641-643): the
`submit` event, and with it `handleSearch`, is dispatched only when the form
is valid. -/
def submitSearchForm (f : SearchForm) (r : FetchResult) : List HomeEffect :=
  if searchFormValid f = true then handleSearch f.searchData r else []

/-! ## Concrete data of the scenarios of `Home` and of the ticket count -/

/-- The search form on 2 July 2025 at 02:00 in Dhaka (UTC+6), which is 1 July
20:00 UTC, with a journey on 1 July chosen. -/
def afterMidnightForm : SearchForm :=
  { fromStationSearch := "Dhaka", toStationSearch := "Chattogram"
    searchData := { fromStation := "Dhaka", toStation := "Chattogram", journeyDate := "2025-07-01" }
    renderedAt := "2025-07-01T20:00:00.000Z" }

/-- The verification form with booking id 999999 typed in. -/
def verifyUnknown : VerifyState :=
  { bookingId := "999999", verifyLoading := false, verifyError := JSVal.null }

/-- A 404 response whose body is not JSON (`response.json()` rejects). -/
def notFoundUnparsed : FetchResult :=
  FetchResult.resp { status := 404, body := none }

/-- A 404 response with the error body of the service. -/
def notFoundDetail : FetchResult :=
  FetchResult.resp { status := 404, body := some (JSVal.obj [("detail", JSVal.str "Not found")]) }

/-- The number 25 is typed into the ticket-count input, then Confirm is
clicked. -/
def typedRun : Page :=
  run sampleProps (Page.init acChair) [Event.changeInput "25", Event.clickConfirm none]

/-- Five tickets are selected while the coach shows two seats. -/
def fiveOfTwo : State :=
  { ticketCount := 5, isConfirmed := false, bookingId := JSVal.null, bookingTime := none,
    coachType := { type := "AC_Chair", displayName := "AC Chair", price := 1200,
                   seats := JSVal.num 2 } }

/-- Other props with the same train name, stations and date. -/
def otherProps : Props :=
  { train := { train_id := 202, train_name := "Suborno Express", train_type := "Mail" }
    searchData := { fromStation := "Dhaka", toStation := "Chattogram", journeyDate := "2025-07-01" } }

/-- A state that differs from `confirmedThree` in `isConfirmed`, in the coach
type and in the seats shown. -/
def unconfirmedThree : State :=
  { ticketCount := 3, isConfirmed := false, bookingId := JSVal.num 7,
    bookingTime := some "7/1/2025, 10:00:00 AM",
    coachType := { type := "Snigdha", displayName := "AC Chair", price := 1200,
                   seats := JSVal.num 12 } }

/-- An ok create-booking response allocating seats 17, 18 and 19 to booking 7. -/
def threeSeatsResponse : Response :=
  { status := 200, body := some (bookedWithSeats [seat "17", seat "18", seat "19"]) }

/-- An ok create-booking response for booking 7 with an empty seat list. -/
def noSeatsResponse : Response :=
  { status := 200, body := some (bookedWithSeats []) }

/-! ## `TrainDetails.jsx`: the inventory snapshot -/

/-- The hooks of `TrainDetails` (lines 6-10); `error` is `null` or a
message. -/
structure DetailsState where
  trainRoutes : JSVal
  coachAvailability : JSVal
  loading : Bool
  refreshingSeats : Bool
  error : JSVal

/-- The hooks of a freshly mounted `TrainDetails` (`useState` initial
values). -/
def DetailsState.init : DetailsState :=
  { trainRoutes := JSVal.arr [], coachAvailability := JSVal.arr [], loading := true,
    refreshingSeats := false, error := JSVal.null }

/-- Observable actions of `fetchCoachAvailability` and `fetchTrainData`, in
program order. -/
inductive DetailsEffect where
  | fetchTrainRoutes (auth : String) (train_id : Int)
  | fetchCoachAvailability (auth : String) (train_id : Int)
  | consoleError (label : String)
  | consoleWarn (label : String)

/-- Is the effect a coach-availability request? -/
def DetailsEffect.isCoachRequest : DetailsEffect → Bool
  | DetailsEffect.fetchCoachAvailability _ _ => true
  | _ => false

/-- Hooks and effects after a handler of `TrainDetails` ran. -/
structure DetailsOutcome where
  st : DetailsState
  effects : List DetailsEffect

/-- Lines 95-116 and 122-143: the fallback coach list. -/
def fallbackCoaches : JSVal :=
  JSVal.arr
    [JSVal.obj [("coach_type", JSVal.str "AC_Cabin"), ("available_seats", JSVal.num 24),
                ("price", JSVal.num 2500)],
     JSVal.obj [("coach_type", JSVal.str "AC_Chair"), ("available_seats", JSVal.num 72),
                ("price", JSVal.num 1200)],
     JSVal.obj [("coach_type", JSVal.str "Snigdha"), ("available_seats", JSVal.num 90),
                ("price", JSVal.num 800)],
     JSVal.obj [("coach_type", JSVal.str "Shovon"), ("available_seats", JSVal.num 108),
                ("price", JSVal.num 400)]]

/-- Lines 38-59: `fetchCoachAvailability` run from the hooks `s` with no other
event in between; `r` is the result of its `fetch`. The setter of line 40 is
overwritten by the `finally` block, so the outcome shows the final values. -/
def fetchCoachAvailability (token : Option String) (train_id : Int) (s : DetailsState)
    (r : FetchResult) : DetailsOutcome :=
  match r with
  | FetchResult.threw =>
    ⟨{ s with refreshingSeats := false },
     [DetailsEffect.fetchCoachAvailability (bearer token) train_id,
      DetailsEffect.consoleError "Error fetching coach availability:"]⟩
  | FetchResult.resp res =>
    if res.ok then
      match res.body with
      | none =>
        ⟨{ s with refreshingSeats := false },
         [DetailsEffect.fetchCoachAvailability (bearer token) train_id,
          DetailsEffect.consoleError "Error fetching coach availability:"]⟩
      | some coachData =>
        ⟨{ s with coachAvailability := coachData, refreshingSeats := false },
         [DetailsEffect.fetchCoachAvailability (bearer token) train_id]⟩
    else
      ⟨{ s with refreshingSeats := false },
       [DetailsEffect.fetchCoachAvailability (bearer token) train_id]⟩

/-- Lines 118-146: the `catch` and `finally` blocks of `fetchTrainData`. -/
def catchTrainData (s : DetailsState) : DetailsState :=
  { s with error := JSVal.str "Error occurred while fetching train data"
           coachAvailability := fallbackCoaches
           loading := false }

/-- Lines 82-87: the routes part of `fetchTrainData` once both responses are
there; `none` when `routesResponse.json()` rejects. -/
def storeRoutes (s : DetailsState) (routesResponse : Response) : Option DetailsState :=
  if routesResponse.ok then
    match routesResponse.body with
    | none => none
    | some routesData => some { s with trainRoutes := routesData }
  else some { s with error := JSVal.str "Failed to fetch train routes" }

/-- Lines 61-147: `fetchTrainData` run from the hooks `s` with no other event
in between; `routes` and `coach` are the results of the two `fetch` calls
awaited by `Promise.all`. -/
def fetchTrainData (token : Option String) (train_id : Int) (s : DetailsState)
    (routes coach : FetchResult) : DetailsOutcome :=
  match routes, coach with
  | FetchResult.resp routesResponse, FetchResult.resp coachResponse =>
    match storeRoutes s routesResponse with
    | none =>
      ⟨catchTrainData s,
       [DetailsEffect.fetchTrainRoutes (bearer token) train_id,
        DetailsEffect.fetchCoachAvailability (bearer token) train_id,
        DetailsEffect.consoleError "Error fetching train data:"]⟩
    | some s1 =>
      if coachResponse.ok then
        match coachResponse.body with
        | none =>
          ⟨catchTrainData s1,
           [DetailsEffect.fetchTrainRoutes (bearer token) train_id,
            DetailsEffect.fetchCoachAvailability (bearer token) train_id,
            DetailsEffect.consoleError "Error fetching train data:"]⟩
        | some coachData =>
          ⟨{ s1 with coachAvailability := coachData, loading := false },
           [DetailsEffect.fetchTrainRoutes (bearer token) train_id,
            DetailsEffect.fetchCoachAvailability (bearer token) train_id]⟩
      else
        ⟨{ s1 with coachAvailability := fallbackCoaches, loading := false },
         [DetailsEffect.fetchTrainRoutes (bearer token) train_id,
          DetailsEffect.fetchCoachAvailability (bearer token) train_id,
          DetailsEffect.consoleWarn "Failed to fetch coach availability, using fallback data"]⟩
  | _, _ =>
    ⟨catchTrainData s,
     [DetailsEffect.fetchTrainRoutes (bearer token) train_id,
      DetailsEffect.fetchCoachAvailability (bearer token) train_id,
      DetailsEffect.consoleError "Error fetching train data:"]⟩

/-- Lines 24-29: `handleVisibilityChange`; `hidden` is `document.hidden` at the
time of the event and `r` the result of the `fetch` of the refresh it may
start. -/
def handleVisibilityChange (token : Option String) (train_id : Int) (s : DetailsState)
    (hidden : Bool) (r : FetchResult) : DetailsOutcome :=
  if hidden = false then fetchCoachAvailability token train_id s r else ⟨s, []⟩

/-- What a component can register with the browser to be called back later. -/
inductive Registration where
  | eventListener (type : String)
  | timeout (ms : Nat)
  | interval (ms : Nat)

/-- Is the registration a timer? -/
def Registration.isTimer : Registration → Bool
  | Registration.eventListener _ => false
  | Registration.timeout _ => true
  | Registration.interval _ => true

/-- Lines 16-36: the registrations made by the effect of `TrainDetails`, given
whether `train` and `searchData` are present. No other line of the component
registers a callback. -/
def detailsRegistrations (hasTrain hasSearchData : Bool) : List Registration :=
  if hasTrain = false ∨ hasSearchData = false then []
  else [Registration.eventListener "visibilitychange"]

/-- Spec side: an entry of a snapshot has numbers `available_seats` and
`total_seats` with `available_seats ≤ total_seats`. -/
def withinTotal (c : JSVal) : Bool :=
  match c.getProp "available_seats", c.getProp "total_seats" with
  | some (JSVal.num a), some (JSVal.num t) => a.le t
  | _, _ => false

/-- Spec side: the snapshot is a list whose entries all satisfy
`withinTotal`. -/
def snapshotWithinTotals : JSVal → Bool
  | JSVal.arr xs => xs.all withinTotal
  | _ => false

/-! ### The coach cards and the Buy button -/

/-- The digits of a non-decimal integer literal, after its prefix `0x`, `0o`
or `0b`: the Number of their value when there is at least one character and
all are digits of the radix, else `NaN`. -/
def nonDecimalLiteral (radix : Nat) (cs : List Char) : JSNumber :=
  if cs.isEmpty = false
      ∧ cs.all (fun c => match digitValue c with
                         | some d => decide (d < radix)
                         | none => false) = true then
    JSNumber.round (digitsValue radix (cs.filterMap digitValue)) 1
  else JSNumber.nan

/-- The Number of the decimal `mantissa * 10 ^ exponent`, with its sign. -/
def scaledDecimal (negative : Bool) (mantissa : Nat) (exponent : Int) : JSNumber :=
  JSNumber.round
    (if negative then -((mantissa * 10 ^ exponent.toNat : Nat) : Int)
     else ((mantissa * 10 ^ exponent.toNat : Nat) : Int))
    (10 ^ (-exponent).toNat)

/-- StrUnsignedDecimalLiteral, the sign already read: `Infinity`, or digits
with an optional fraction and an optional exponent part, up to the end of the
text; `NaN` for any other text. -/
def decimalLiteral (negative : Bool) (cs : List Char) : JSNumber :=
  if cs = "Infinity".toList then JSNumber.infinity negative
  else
    let whole := cs.takeWhile isDecimalDigit
    let afterWhole := cs.dropWhile isDecimalDigit
    let fraction : List Char :=
      match afterWhole with
      | [] => []
      | c :: r => if c.toNat = 46 then r.takeWhile isDecimalDigit else []
    let afterFraction : List Char :=
      match afterWhole with
      | [] => []
      | c :: r => if c.toNat = 46 then r.dropWhile isDecimalDigit else c :: r
    let mantissa := digitsValue 10 ((whole ++ fraction).map (fun c => c.toNat - 48))
    if whole.isEmpty = true ∧ fraction.isEmpty = true then JSNumber.nan
    else
      match afterFraction with
      | [] => scaledDecimal negative mantissa (-(fraction.length : Int))
      | c :: r =>
        if c.toNat = 101 ∨ c.toNat = 69 then
          let negativeExponent : Bool :=
            match r with
            | [] => false
            | d :: _ => decide (d.toNat = 45)
          let digits : List Char :=
            match r with
            | [] => []
            | d :: ds => if d.toNat = 45 ∨ d.toNat = 43 then ds else d :: ds
          let x : Int := digitsValue 10 (digits.map (fun c => c.toNat - 48))
          if digits.isEmpty = false ∧ digits.all isDecimalDigit = true then
            scaledDecimal negative mantissa
              ((if negativeExponent then -x else x) - (fraction.length : Int))
          else JSNumber.nan
        else JSNumber.nan

/-- StringToNumber, the ToNumber of a string: white space is trimmed from
both ends; the empty text is 0; a literal with prefix `0x`, `0o` or `0b`
(either case) is read in its radix; any other text is read as a signed decimal
literal, and is `NaN` when it is none. -/
def stringToNumber (s : String) : JSNumber :=
  match (jsTrim s).toList with
  | [] => 0
  | [c] => decimalLiteral false [c]
  | c0 :: c1 :: rest =>
    if c0.toNat = 48 ∧ (c1.toNat = 120 ∨ c1.toNat = 88) then nonDecimalLiteral 16 rest
    else if c0.toNat = 48 ∧ (c1.toNat = 111 ∨ c1.toNat = 79) then nonDecimalLiteral 8 rest
    else if c0.toNat = 48 ∧ (c1.toNat = 98 ∨ c1.toNat = 66) then nonDecimalLiteral 2 rest
    else if c0.toNat = 45 then decimalLiteral true (c1 :: rest)
    else if c0.toNat = 43 then decimalLiteral false (c1 :: rest)
    else decimalLiteral false (c0 :: c1 :: rest)

mutual
/-- Does ToPrimitive throw on the value? A value parsed from JSON holds no
function: an object with an own property `toString` has no callable
`toString`, and the `valueOf` it inherits returns the object itself, so the
conversion ends in a TypeError. An array is joined, which converts its
elements. -/
def JSVal.toPrimitiveThrows : JSVal → Bool
  | JSVal.obj kvs => kvs.any (fun kv => kv.1 == "toString")
  | JSVal.arr xs => JSVal.anyToPrimitiveThrows xs
  | _ => false
/-- Does the conversion of one of the elements throw? -/
def JSVal.anyToPrimitiveThrows : List JSVal → Bool
  | [] => false
  | x :: rest => JSVal.toPrimitiveThrows x || JSVal.anyToPrimitiveThrows rest
end

/-- ToNumber of a value, as the operators `<=` and `>` apply it next to a
number: `none` when ToPrimitive throws. An array is converted through its
joined text, an object through the text `[object Object]`. -/
def JSVal.toNumber (v : JSVal) : Option JSNumber :=
  match v with
  | JSVal.undefined => some JSNumber.nan
  | JSVal.null => some 0
  | JSVal.bool b => some (if b then 1 else 0)
  | JSVal.num n => some n
  | JSVal.str t => some (stringToNumber t)
  | JSVal.arr xs =>
    if (JSVal.arr xs).toPrimitiveThrows = true then none
    else some (stringToNumber (JSVal.arr xs).toJSString)
  | JSVal.obj kvs =>
    if (JSVal.obj kvs).toPrimitiveThrows = true then none else some JSNumber.nan

/-- ToPropertyKey of a value used as the key of `table[key]`: its ToString,
`none` when ToPrimitive throws. -/
def JSVal.toPropertyKey (v : JSVal) : Option String :=
  if v.toPrimitiveThrows = true then none else some v.toJSString

mutual
/-- Does React render the value as a child (`{v}` in JSX)? A text or a number
is shown, `null`, `undefined` and a boolean show nothing, an array is rendered
element by element, and an object is refused with the error "Objects are not
valid as a React child". -/
def JSVal.validChild : JSVal → Bool
  | JSVal.obj _ => false
  | JSVal.arr xs => JSVal.allValidChild xs
  | _ => true
/-- Does React render every element as a child? -/
def JSVal.allValidChild : List JSVal → Bool
  | [] => true
  | x :: rest => JSVal.validChild x && JSVal.allValidChild rest
end

/-- The table of `getCoachDisplayName` (lines 150-160). -/
def displayNames : List (String × String) :=
  [("AC_Cabin", "AC Cabin"), ("AC_Chair", "AC Chair"), ("Snigdha", "Snigdha"),
   ("Shovon", "Shovon"), ("AC First Class", "AC First Class"), ("AC Business", "AC Business"),
   ("First Class", "First Class"), ("Second Class", "Second Class"),
   ("Sleeper Class", "Sleeper Class")]

/-- The table of `getCoachDescription` (lines 165-175). -/
def descriptions : List (String × String) :=
  [("AC_Cabin", "Air-conditioned cabin with bed facilities"),
   ("AC_Chair", "Air-conditioned chair car"), ("Snigdha", "Premium non-AC seating"),
   ("Shovon", "Standard seating"), ("AC First Class", "Premium air-conditioned cabin"),
   ("AC Business", "Business class air-conditioned"), ("First Class", "First class comfort"),
   ("Second Class", "Economy seating"), ("Sleeper Class", "Sleeping berth facility")]

/-- The property names every object literal inherits from `Object.prototype`;
each holds a function, except `__proto__`, which yields `Object.prototype`
itself. -/
def objectPrototypeNames : List String :=
  ["constructor", "hasOwnProperty", "isPrototypeOf", "propertyIsEnumerable", "toLocaleString",
   "toString", "valueOf", "__proto__", "__defineGetter__", "__defineSetter__",
   "__lookupGetter__", "__lookupSetter__"]

/-- What `getCoachDisplayName` and `getCoachDescription` return: a text, the
value of an inherited property of the table, or the argument itself. -/
inductive TableValue where
  | text (s : String)
  | inherited (name : String)
  | argument (v : JSVal)

/-- Does React render the returned value as a child? A function shows
nothing, `Object.prototype` is an object and is refused. -/
def TableValue.validChild : TableValue → Bool
  | TableValue.text _ => true
  | TableValue.inherited name => name != "__proto__"
  | TableValue.argument v => v.validChild

/-- Lines 149-162: `getCoachDisplayName`, `displayNames[coachType] ||
coachType`: the entry of the table under the key, an inherited property when
the key names one (all are truthy), else the argument; `none` when the
conversion of the argument to a key throws. -/
def getCoachDisplayName (coachType : JSVal) : Option TableValue :=
  match coachType.toPropertyKey with
  | none => none
  | some key =>
    match displayNames.lookup key with
    | some d => some (if d = "" then TableValue.argument coachType else TableValue.text d)
    | none =>
      some (if objectPrototypeNames.contains key then TableValue.inherited key
            else TableValue.argument coachType)

/-- Lines 164-177: `getCoachDescription`, `descriptions[coachType] ||
'Standard coach'`. -/
def getCoachDescription (coachType : JSVal) : Option TableValue :=
  match coachType.toPropertyKey with
  | none => none
  | some key =>
    match descriptions.lookup key with
    | some d => some (TableValue.text (if d = "" then "Standard coach" else d))
    | none =>
      some (if objectPrototypeNames.contains key then TableValue.inherited key
            else TableValue.text "Standard coach")

/-- Lines 180-186: `coachInfo`, the `coachType` passed to the booking page. -/
structure CoachInfo where
  type : JSVal
  displayName : TableValue
  price : JSVal
  seats : JSVal
  description : TableValue

/-- Lines 179-196: the `coachInfo` that `handleBooking(coach)` passes to
`navigate`; `none` when building it throws. -/
def handleBooking (coach : JSVal) : Option CoachInfo :=
  match coach.getProp "coach_type", coach.getProp "price", coach.getProp "available_seats" with
  | some type, some price, some seats =>
    match getCoachDisplayName type, getCoachDescription type with
    | some displayName, some description =>
      some { type := type, displayName := displayName, price := price, seats := seats,
             description := description }
    | _, _ => none
  | _, _, _ => none

/-- Line 272: the `disabled` attribute of the Buy button of a coach,
`coach.available_seats <= 0 || refreshingSeats`; `none` when the expression
throws. -/
def buyDisabled (coach : JSVal) (refreshingSeats : Bool) : Option Bool :=
  match coach.getProp "available_seats" with
  | none => none
  | some seats =>
    match seats.toNumber with
    | none => none
    | some n => some (n.le 0 || refreshingSeats)

/-- A rendered coach card: the `disabled` attribute of its Buy button and the
entry its click handler passes to `handleBooking`. -/
structure CoachCard where
  disabled : Bool
  coach : JSVal

/-- Lines 245-277: the card of one entry of `coachAvailability`; `none` when
an expression of the card throws or React refuses one of its children (the
name, the description, the price, the available seats unless a refresh is in
progress, the total seats). -/
def coachCard (coach : JSVal) (refreshingSeats : Bool) : Option CoachCard :=
  match coach.getProp "coach_type", coach.getProp "price", coach.getProp "total_seats" with
  | some type, some price, some total =>
    match getCoachDisplayName type, getCoachDescription type,
        buyDisabled coach refreshingSeats with
    | some displayName, some description, some disabled =>
      if displayName.validChild = true ∧ description.validChild = true
          ∧ price.validChild = true
          ∧ (refreshingSeats = true
              ∨ ((coach.getProp "available_seats").getD JSVal.undefined).validChild = true)
          ∧ total.validChild = true then
        some { disabled := disabled, coach := coach }
      else none
    | _, _, _ => none
  | _, _, _ => none

/-- The cards of the entries of a list; `none` when one of them fails. -/
def coachCardList (refreshingSeats : Bool) : List JSVal → Option (List CoachCard)
  | [] => some []
  | coach :: rest =>
    match coachCard coach refreshingSeats, coachCardList refreshingSeats rest with
    | some card, some cards => some (card :: cards)
    | _, _ => none

/-- Lines 243-283: the cards shown for the hook `coachAvailability`,
`coachAvailability.length > 0 ? coachAvailability.map(...) : ...`; `none` when
the expression throws: on `null` and `undefined`, and on a value with a
positive `length` that is not an array and so has no callable `map`. -/
def coachCards (coachAvailability : JSVal) (refreshingSeats : Bool) :
    Option (List CoachCard) :=
  match coachAvailability with
  | JSVal.undefined => none
  | JSVal.null => none
  | JSVal.arr xs => coachCardList refreshingSeats xs
  | JSVal.str t => if t = "" then some [] else none
  | JSVal.obj kvs =>
    match (JSVal.lookup kvs "length").toNumber with
    | none => none
    | some n => if JSNumber.lt 0 n = true then none else some []
  | _ => some []

/-- A click on the Buy button of the card at `index` (lines 269-275): nothing
while the page shows "Loading train details..." (lines 198-206), when the page
does not render, when there is no such card, or when its button is disabled;
else the `coachType` that `handleBooking` passes to `navigate`. -/
def clickBuy (s : DetailsState) (index : Nat) : Option CoachInfo :=
  if s.loading = true then none
  else
    match coachCards s.coachAvailability s.refreshingSeats with
    | none => none
    | some cards =>
      match cards[index]? with
      | none => none
      | some card => if card.disabled = true then none else handleBooking card.coach

/-- Spec side: the first entry of a coach list whose `coach_type` is the given
type. -/
def firstEntryOfType (type : String) (xs : List JSVal) : Option JSVal :=
  xs.find? (fun c => ((c.getProp "coach_type").getD JSVal.undefined).strictEqStr type)

/-! ## `SignUp.jsx`: `handleSubmit` -/

/-- JavaScript `s.length`: the number of UTF-16 code units, two for a
character outside the basic plane. -/
def jsLength (s : String) : Nat :=
  (s.toList.map (fun c => if c.toNat < 65536 then 1 else 2)).sum

/-- The hook `formData` of `SignUp` (lines 6-12). -/
structure SignUpForm where
  name : String
  email : String
  phone : String
  password : String
  confirmPassword : String

/-- The hooks of `SignUp` read or set by `handleSubmit` (lines 6-15); `error`
is a message or the `detail` of an error body. -/
structure SignUpState where
  formData : SignUpForm
  loading : Bool
  error : JSVal
  success : String

/-- Line 60: `dataToSend`, the fields of `formData` other than
`confirmPassword`, as the entries of the request body. -/
def dataToSend (f : SignUpForm) : List (String × JSVal) :=
  [("name", JSVal.str f.name), ("email", JSVal.str f.email), ("phone", JSVal.str f.phone),
   ("password", JSVal.str f.password)]

/-- Observable actions of `handleSubmit`, in program order; `navigateLater` is
the `setTimeout` of lines 74-76. -/
inductive SignUpEffect where
  | fetchSignup (body : List (String × JSVal))
  | consoleError (label : String)
  | navigateLater (ms : Nat) (path : String)

/-- Is the effect the signup request? -/
def SignUpEffect.isFetch : SignUpEffect → Bool
  | SignUpEffect.fetchSignup _ => true
  | _ => false

/-- Hooks and effects after `handleSubmit` ran. -/
structure SignUpOutcome where
  st : SignUpState
  effects : List SignUpEffect

/-- Lines 80-85: the `catch` and `finally` blocks of `handleSubmit`. -/
def catchSignUp (s : SignUpState) : SignUpOutcome :=
  ⟨{ s with loading := false, success := ""
            error := JSVal.str "Network error. Please check your connection and try again." },
   [SignUpEffect.fetchSignup (dataToSend s.formData),
    SignUpEffect.consoleError "Registration error:"]⟩

/-- Lines 38-86: `handleSubmit` run from the hooks `s` with no other event in
between; `r` is the result of its `fetch` (read only when the request is
sent). The setters of lines 40-42 are overwritten where a later setter follows,
so the outcome shows the final values. -/
def handleSubmit (s : SignUpState) (r : FetchResult) : SignUpOutcome :=
  if s.formData.password ≠ s.formData.confirmPassword then
    ⟨{ s with loading := false, success := ""
              error := JSVal.str "Passwords do not match. Please check and try again." }, []⟩
  else if jsLength s.formData.password < 6 then
    ⟨{ s with loading := false, success := ""
              error := JSVal.str "Password must be at least 6 characters long." }, []⟩
  else
    match r with
    | FetchResult.threw => catchSignUp s
    | FetchResult.resp res =>
      match res.body with
      | none => catchSignUp s
      | some data =>
        if res.ok then
          ⟨{ s with loading := false, error := JSVal.str ""
                    success := "Registration successful! You can now login." },
           [SignUpEffect.fetchSignup (dataToSend s.formData),
            SignUpEffect.navigateLater 2000 "/login"]⟩
        else
          match data.getProp "detail" with
          | none => catchSignUp s
          | some d =>
            ⟨{ s with loading := false, success := ""
                      error := if d.truthy then d
                               else JSVal.str "Registration failed. Please try again." },
             [SignUpEffect.fetchSignup (dataToSend s.formData)]⟩

/-! ## `TrainSearchResults.jsx`: showing and hiding routes -/

/-- A value of the object `trainRoutes`: `routes` is `undefined` while the
entry has no such key. -/
structure RouteEntry where
  routes : JSVal
  visible : Bool

/-- Observable actions of `handleShowRoutes`, in program order. -/
inductive ResultsEffect where
  | fetchTrainRoutes (auth : String) (train_id : Int)
  | alert (text : String)
  | consoleError (label : String)

/-- The hooks `trainRoutes` and `routeLoading` of `TrainSearchResults` (objects
keyed by train id), the invocations of `handleShowRoutes` started so far (the
train id while the invocation awaits its `fetch`, `none` once it has ended),
and the effects emitted so far. -/
structure ResultsPage where
  trainRoutes : List (Int × RouteEntry)
  routeLoading : List (Int × Bool)
  calls : List (Option (Int × Option String))
  trace : List ResultsEffect

/-- The component after the trains were loaded. -/
def ResultsPage.init : ResultsPage :=
  { trainRoutes := [], routeLoading := [], calls := [], trace := [] }

/-- Object update `{...prev, [id]: v}`: the key is replaced where it is,
or added. -/
def setKey {α : Type} (m : List (Int × α)) (id : Int) (v : α) : List (Int × α) :=
  if m.any (fun kv => kv.1 == id) then m.map (fun kv => if kv.1 == id then (id, v) else kv)
  else m ++ [(id, v)]

/-- Lines 72-75 and 96-99: `{...prev[trainId], visible: v}`, also when `prev`
has no such key. -/
def withVisible (prev : List (Int × RouteEntry)) (id : Int) (v : Bool) : RouteEntry :=
  match prev.lookup id with
  | some e => { e with visible := v }
  | none => { routes := JSVal.undefined, visible := v }

/-- Lines 81-90: every entry gets `visible: false`. -/
def hideAll (prev : List (Int × RouteEntry)) : List (Int × RouteEntry) :=
  prev.map (fun kv => (kv.1, { kv.2 with visible := false }))

/-- Number of entries of `trainRoutes` with `visible` true. -/
def visibleCount (m : List (Int × RouteEntry)) : Nat :=
  m.countP (fun kv => kv.2.visible)

/-- Clicks on the Show/Hide Routes button of a train and arrivals of the
results of the train-routes `fetch` of an invocation. -/
inductive ResultsEvent where
  | clickRoutes (train_id : Int) (token : Option String)
  | routesSettle (i : Nat) (r : FetchResult)

/-- One event of `TrainSearchResults` (lines 65-133 and 203-210). The button of
a train is disabled while `routeLoading` holds true for it; an event on a
disabled button, or for an invocation that is not waiting, changes nothing. -/
def resultsStep (σ : ResultsPage) : ResultsEvent → ResultsPage
  | ResultsEvent.clickRoutes id token =>
    if σ.routeLoading.lookup id = some true then σ
    else if ((σ.trainRoutes.lookup id).map (fun e => e.visible)) = some true then
      { σ with trainRoutes := setKey σ.trainRoutes id (withVisible σ.trainRoutes id false) }
    else if (((σ.trainRoutes.lookup id).map (fun e => e.routes)).getD JSVal.undefined).truthy
        = true then
      { σ with
        trainRoutes :=
          setKey (hideAll σ.trainRoutes) id (withVisible (hideAll σ.trainRoutes) id true) }
    else
      { trainRoutes := hideAll σ.trainRoutes
        routeLoading := setKey σ.routeLoading id true
        calls := σ.calls ++ [some (id, token)]
        trace := σ.trace ++ [ResultsEffect.fetchTrainRoutes (bearer token) id] }
  | ResultsEvent.routesSettle i r =>
    match σ.calls[i]? with
    | some (some (id, _)) =>
      match r with
      | FetchResult.threw =>
        { σ with
          routeLoading := setKey σ.routeLoading id false
          calls := σ.calls.set i none
          trace := σ.trace ++ [ResultsEffect.consoleError "Error fetching train routes:",
                               ResultsEffect.alert "Error occurred while fetching train routes"] }
      | FetchResult.resp res =>
        if res.ok then
          match res.body with
          | none =>
            { σ with
              routeLoading := setKey σ.routeLoading id false
              calls := σ.calls.set i none
              trace := σ.trace ++ [ResultsEffect.consoleError "Error fetching train routes:",
                ResultsEffect.alert "Error occurred while fetching train routes"] }
          | some data =>
            { σ with
              trainRoutes := setKey σ.trainRoutes id { routes := data, visible := true }
              routeLoading := setKey σ.routeLoading id false
              calls := σ.calls.set i none }
        else
          { σ with
            routeLoading := setKey σ.routeLoading id false
            calls := σ.calls.set i none
            trace := σ.trace ++ [ResultsEffect.alert "Failed to fetch train routes"] }
    | _ => σ

/-- A sequence of events of `TrainSearchResults`, executed in order. -/
def resultsRun (σ : ResultsPage) (es : List ResultsEvent) : ResultsPage :=
  es.foldl resultsStep σ

/-! ## Concrete data of the scenarios of the other components -/

/-- An ok coach-availability response with 80 available seats of 72. -/
def oversold : FetchResult :=
  FetchResult.resp
    { status := 200
      body := some (JSVal.arr
        [JSVal.obj [("coach_type", JSVal.str "AC_Chair"), ("available_seats", JSVal.num 80),
                    ("total_seats", JSVal.num 72), ("price", JSVal.num 1200)]]) }

/-- An ok train-routes response with an empty list. -/
def noRoutesResponse : Response :=
  { status := 200, body := some (JSVal.arr []) }

/-- The train-routes `fetch` resolving with `noRoutesResponse`. -/
def noRoutes : FetchResult :=
  FetchResult.resp noRoutesResponse

/-- A response with status 500 and an error body. -/
def serverErrorResponse : Response :=
  { status := 500, body := some (JSVal.obj [("detail", JSVal.str "Internal Server Error")]) }

/-- A `fetch` resolving with `serverErrorResponse`. -/
def serverError : FetchResult :=
  FetchResult.resp serverErrorResponse

/-- An ok coach-availability response: 9 of 108 Shovon seats and 5 of 72 AC
chair seats are available. -/
def fiveLeftResponse : Response :=
  { status := 200
    body := some (JSVal.arr
      [JSVal.obj [("coach_type", JSVal.str "Shovon"), ("available_seats", JSVal.num 9),
                  ("total_seats", JSVal.num 108), ("price", JSVal.num 400)],
       JSVal.obj [("coach_type", JSVal.str "AC_Chair"), ("available_seats", JSVal.num 5),
                  ("total_seats", JSVal.num 72), ("price", JSVal.num 1200)]]) }

/-- An ok refresh response whose list starts with `null`, followed by the AC
chair entry with 5 seats. -/
def nullFirstResponse : Response :=
  { status := 200
    body := some (JSVal.arr
      [JSVal.null,
       JSVal.obj [("coach_type", JSVal.str "AC_Chair"), ("available_seats", JSVal.num 5)]]) }

/-- An ok train-routes response with one route. -/
def oneRoute : FetchResult :=
  FetchResult.resp
    { status := 200, body := some (JSVal.arr [JSVal.obj [("distance", JSVal.num 320)]]) }

/-- Show Routes is clicked on train 1 and, before its response arrives, on
train 2; then both responses arrive. -/
def twoRoutesRun : ResultsPage :=
  resultsRun ResultsPage.init
    [ResultsEvent.clickRoutes 1 none, ResultsEvent.clickRoutes 2 none,
     ResultsEvent.routesSettle 0 oneRoute, ResultsEvent.routesSettle 1 oneRoute]

/-- A signup form with matching passwords of eight characters. -/
def signUpValid : SignUpState :=
  { formData := { name := "Rahim", email := "rahim@example.com", phone := "01700000000",
                  password := "secret12", confirmPassword := "secret12" }
    loading := false, error := JSVal.str "", success := "" }

/-- A non-ok create-booking response whose body carries the reason. -/
def notEnoughSeats : Response :=
  { status := 400
    body := some (JSVal.obj [("detail", JSVal.str "Not enough seats available")]) }

/-- A coach entry without `available_seats`. -/
def noSeatCount : JSVal :=
  JSVal.obj [("coach_type", JSVal.str "Shovon"), ("price", JSVal.num 400)]

/-- A loaded page of `TrainDetails` whose coach list holds `noSeatCount`
only, no refresh in progress. -/
def noSeatCountPage : DetailsState :=
  { trainRoutes := JSVal.arr [], coachAvailability := JSVal.arr [noSeatCount], loading := false,
    refreshingSeats := false, error := JSVal.null }

/-- The count 9007199254740991 is typed into the ticket-count input, then
Confirm is clicked. -/
def largeCountRun : Page :=
  run sampleProps (Page.init acChair)
    [Event.changeInput "9007199254740991", Event.clickConfirm none]

/-- The count 9007199254740991 is typed, Confirm is clicked, booking 7 is
returned, the refresh fails, the text download is clicked and the payment
succeeds. -/
def largeOrderRun : Page :=
  run sampleProps (Page.init acChair)
    [Event.changeInput "9007199254740991", Event.clickConfirm none,
     Event.bookingSettles 0 bookedSeven "now", Event.refreshSettles 0 FetchResult.threw,
     Event.clickDownload Artifact.text none, Event.paymentSettles 1 okEmpty]

/-- Booking 7 confirmed for three AC chair tickets at the price 1200.1, held
as the double nearest to it. -/
def decimalFareOrder : State :=
  { ticketCount := 3, isConfirmed := true, bookingId := JSVal.num 7,
    bookingTime := some "7/1/2025, 10:00:00 AM"
    coachType := { type := "AC_Chair", displayName := "AC Chair"
                   price := JSNumber.round 12001 10, seats := JSVal.num 40 } }

/-- A string of 309 nines typed into the ticket-count input. -/
def manyNines : String :=
  String.mk (List.replicate 309 '9')

/-- A loaded page of `TrainDetails` showing the fallback coach list, no
refresh in progress. -/
def fallbackPage : DetailsState :=
  { trainRoutes := JSVal.arr [], coachAvailability := fallbackCoaches, loading := false,
    refreshingSeats := false, error := JSVal.null }

/-! ## Lemmas on the handlers and on the execution -/

/-- A number below `2 ^ k` has at most `k` binary digits. -/
theorem bitLengthAux_le (fuel : Nat) : ∀ (n k : Nat), n < 2 ^ k → bitLengthAux fuel n ≤ k := by
  induction fuel with
  | zero => intro n k _; simp [bitLengthAux]
  | succ fuel ih =>
    intro n k h
    unfold bitLengthAux
    split
    · exact Nat.zero_le _
    · rename_i hn
      cases k with
      | zero => simp at h; exact absurd h hn
      | succ k =>
        have h2 : n / 2 < 2 ^ k := by
          rw [Nat.div_lt_iff_lt_mul (by decide)]
          rw [pow_succ] at h
          exact h
        exact Nat.succ_le_succ (ih _ _ h2)

/-- A number below `2 ^ k` has at most `k` binary digits. -/
theorem bitLength_le (n k : Nat) (h : n < 2 ^ k) : bitLength n ≤ k :=
  bitLengthAux_le n n k h

/-- The unit in the last place at an integer below `2 ^ 53` is at most 1. -/
theorem ulpExponent_nonpos (a : Nat) (h : a < 2 ^ 53) : JSNumber.ulpExponent a 1 ≤ 0 := by
  have hb := bitLength_le a 53 h
  have h1 : bitLength 1 = 1 := by decide
  unfold JSNumber.ulpExponent
  simp only [h1]
  split <;> omega

/-- A fraction whose numerator is a multiple of its denominator. -/
theorem mkRat_mul_self (k : Int) (c : Nat) (hc : c ≠ 0) : mkRat (k * (c : Int)) c = (k : ℚ) := by
  have h := Rat.mkRat_mul_right (n := k) (d := 1) hc
  rw [one_mul] at h
  rw [h, Rat.mkRat_one]

/-- Rounding an integer whose unit in the last place is `2 ^ (-t)`: the integer itself, or an infinity. -/
theorem round_of_fine_unit (k : Int) (t : Nat) (hk : k ≠ 0)
    (he : JSNumber.ulpExponent k.natAbs 1 = -(t : Int)) :
    JSNumber.round k 1
      = if 1024 < (bitLength (k.natAbs * 2 ^ t) : Int) + -(t : Int) then
          JSNumber.infinity (decide (k < 0))
        else JSNumber.finite (k : ℚ) := by
  unfold JSNumber.round
  simp only [hk, if_false, he]
  have h0 : (-(t : Int)).toNat = 0 := by omega
  have h1 : (- -(t : Int)).toNat = t := by omega
  simp only [h0, h1, pow_zero, mul_one, Nat.div_one, Nat.mod_one]
  have hm : ¬ (1 < 2 * 0 ∨ (2 * 0 = 1 ∧ k.natAbs * 2 ^ t % 2 = 1)) := by omega
  rw [if_neg hm]
  have hpos : (2 ^ t : Nat) ≠ 0 := by positivity
  split
  · rfl
  · by_cases hneg : k < 0
    · rw [if_pos hneg]
      congr 1
      have hk2 : (k.natAbs : Int) = -k := by omega
      have : -((k.natAbs * 2 ^ t : Nat) : Int) = k * ((2 ^ t : Nat) : Int) := by
        rw [Nat.cast_mul, hk2]; ring
      rw [this, mkRat_mul_self k _ hpos]
    · rw [if_neg hneg]
      congr 1
      have hk2 : (k.natAbs : Int) = k := by omega
      have : ((k.natAbs * 2 ^ t : Nat) : Int) = k * ((2 ^ t : Nat) : Int) := by
        rw [Nat.cast_mul, hk2]
      rw [this, mkRat_mul_self k _ hpos]

/-- An integer below `2 ^ 53` in magnitude is a double. -/
theorem round_of_small (k : Int) (h : k.natAbs < 2 ^ 53) :
    JSNumber.round k 1 = JSNumber.finite (k : ℚ) := by
  by_cases hk : k = 0
  · simp [hk, JSNumber.round]
  · have he := ulpExponent_nonpos k.natAbs h
    obtain ⟨t, ht⟩ : ∃ t : Nat, JSNumber.ulpExponent k.natAbs 1 = -(t : Int) :=
      ⟨(-JSNumber.ulpExponent k.natAbs 1).toNat, by omega⟩
    rw [round_of_fine_unit k t hk ht]
    have hbl : bitLength (k.natAbs * 2 ^ t) ≤ 53 + t := by
      apply bitLength_le
      calc k.natAbs * 2 ^ t < 2 ^ 53 * 2 ^ t := Nat.mul_lt_mul_of_pos_right h (by positivity)
        _ = 2 ^ (53 + t) := by rw [pow_add]
    have hov : ¬ (1024 < (bitLength (k.natAbs * 2 ^ t) : Int) + -(t : Int)) := by omega
    rw [if_neg hov]

/-- The product of two integers below `2 ^ 53` in magnitude is the double nearest to their exact product. -/
theorem mul_of_small (a b : Int) (ha : a.natAbs < 2 ^ 53) (hb : b.natAbs < 2 ^ 53) :
    JSNumber.round a 1 * JSNumber.round b 1 = JSNumber.round (a * b) 1 := by
  rw [round_of_small a ha, round_of_small b hb]
  show JSNumber.mul _ _ = _
  simp [JSNumber.mul]

/-- A fraction with denominator 1 is an integer. -/
theorem isInteger_mkRat_one (z : Int) : (JSNumber.finite (mkRat z 1)).isInteger = true := by
  simp [JSNumber.isInteger, Rat.mkRat_one]

/-- The Number of an integer is an integer or an infinity. -/
theorem round_integer (k : Int) :
    (JSNumber.round k 1).isInteger = true ∨ ∃ b, JSNumber.round k 1 = JSNumber.infinity b := by
  by_cases hk : k = 0
  · left; simp [hk, JSNumber.round, JSNumber.isInteger]
  · rcases le_or_lt 0 (JSNumber.ulpExponent k.natAbs 1) with he | he
    · unfold JSNumber.round
      simp only [hk, if_false]
      generalize JSNumber.ulpExponent k.natAbs 1 = e at he
      have h0 : (-e).toNat = 0 := by omega
      simp only [h0, pow_zero]
      split_ifs <;>
        first
        | (right; exact ⟨_, rfl⟩)
        | (left; exact isInteger_mkRat_one _)
    · obtain ⟨t, ht⟩ : ∃ t : Nat, JSNumber.ulpExponent k.natAbs 1 = -(t : Int) :=
        ⟨(-JSNumber.ulpExponent k.natAbs 1).toNat, by omega⟩
      rw [round_of_fine_unit k t hk ht]
      split
      · right; exact ⟨_, rfl⟩
      · left; simp [JSNumber.isInteger]

/-- No digits are produced for 0. -/
theorem decimalDigitsAux_zero (fuel : Nat) : decimalDigitsAux fuel 0 = [] := by
  cases fuel <;> simp [decimalDigitsAux]

/-- Enough fuel is as good as more fuel. -/
theorem decimalDigitsAux_fuel : ∀ (f1 f2 n : Nat), n ≤ f1 → n ≤ f2 →
    decimalDigitsAux f1 n = decimalDigitsAux f2 n := by
  intro f1
  induction f1 with
  | zero =>
    intro f2 n h1 _
    have hn : n = 0 := by omega
    subst hn
    rw [decimalDigitsAux_zero, decimalDigitsAux_zero]
  | succ f1 ih =>
    intro f2 n h1 h2
    by_cases hn : n = 0
    · subst hn
      rw [decimalDigitsAux_zero, decimalDigitsAux_zero]
    · cases f2 with
      | zero => omega
      | succ f2 =>
        have hd : n / 10 < n := Nat.div_lt_self (by omega) (by decide)
        simp only [decimalDigitsAux, hn, if_false]
        rw [ih f2 (n / 10) (by omega) (by omega)]

/-- Ten times a positive number is written with one more zero. -/
theorem decimalDigits_mul_ten (q : Nat) (hq : 0 < q) :
    decimalDigits (q * 10) = decimalDigits q ++ ['0'] := by
  have h10 : q * 10 ≠ 0 := by omega
  have hq0 : q ≠ 0 := by omega
  obtain ⟨f, hf⟩ : ∃ f, q * 10 = f + 1 := ⟨q * 10 - 1, by omega⟩
  have h1 : decimalDigitsAux (q * 10) (q * 10) = '0' :: decimalDigitsAux q q := by
    have hmod : q * 10 % 10 = 0 := by omega
    have hdiv : q * 10 / 10 = q := by omega
    rw [hf]
    simp only [decimalDigitsAux]
    rw [← hf, if_neg h10, hmod, hdiv, decimalDigitsAux_fuel f q q (by omega) (le_refl q)]
  simp only [decimalDigits, h10, hq0, if_false, h1, List.reverse_cons]

/-- A positive number times a power of ten is written with that many more zeros. -/
theorem decimalDigits_mul_pow (q j : Nat) (hq : 0 < q) :
    decimalDigits (q * 10 ^ j) = decimalDigits q ++ List.replicate j '0' := by
  induction j with
  | zero => simp
  | succ j ih =>
    have hp : 0 < q * 10 ^ j := Nat.mul_pos hq (by positivity)
    rw [pow_succ, ← Nat.mul_assoc, decimalDigits_mul_ten _ hp, ih, List.append_assoc,
      List.replicate_succ']

/-- The number of digits of a positive number fixes its magnitude. -/
theorem decimalDigitsAux_length : ∀ (fuel n : Nat), n ≤ fuel → 0 < n →
    10 ^ ((decimalDigitsAux fuel n).length - 1) ≤ n
    ∧ n < 10 ^ (decimalDigitsAux fuel n).length
    ∧ 1 ≤ (decimalDigitsAux fuel n).length := by
  intro fuel
  induction fuel with
  | zero => intro n h1 h2; omega
  | succ fuel ih =>
    intro n h1 h2
    have hn : n ≠ 0 := by omega
    simp only [decimalDigitsAux, hn, if_false, List.length_cons]
    by_cases hs : n / 10 = 0
    · rw [hs, decimalDigitsAux_zero]
      simp only [List.length_nil, zero_add, Nat.sub_self, pow_zero, pow_one]
      omega
    · have hd : n / 10 < n := Nat.div_lt_self (by omega) (by decide)
      obtain ⟨a, b, c⟩ := ih (n / 10) (by omega) (by omega)
      generalize (decimalDigitsAux fuel (n / 10)).length = len at a b c
      obtain ⟨l, rfl⟩ : ∃ l, len = l + 1 := ⟨len - 1, by omega⟩
      simp only [Nat.add_sub_cancel] at a ⊢
      refine ⟨?_, ?_, by omega⟩
      · rw [pow_succ]; omega
      · rw [pow_succ (n := l + 1)]; omega

/-- The number of digits of a positive number fixes its magnitude. -/
theorem decimalDigits_length (n : Nat) (h : 0 < n) :
    10 ^ ((decimalDigits n).length - 1) ≤ n ∧ n < 10 ^ (decimalDigits n).length
    ∧ 1 ≤ (decimalDigits n).length := by
  have hn : n ≠ 0 := by omega
  simp only [decimalDigits, hn, if_false, List.length_reverse]
  exact decimalDigitsAux_length n n (le_refl n) h

/-- The decimal exponent of a positive integer is its number of digits. -/
theorem decimalExponent_int (k : Nat) (h : 0 < k) :
    JSNumber.decimalExponent k 1 = ((decimalDigits k).length : Int) := by
  obtain ⟨a, b, c⟩ := decimalDigits_length k h
  have h1 : (decimalDigits 1).length = 1 := by decide
  unfold JSNumber.decimalExponent
  simp only [h1]
  generalize (decimalDigits k).length = len at a b c
  obtain ⟨l, rfl⟩ : ∃ l, len = l + 1 := ⟨len - 1, by omega⟩
  simp only [Nat.add_sub_cancel] at a
  have e1 : (((l + 1 : Nat) : Int) - ((1 : Nat) : Int)).toNat = l := by omega
  have e2 : (-(((l + 1 : Nat) : Int) - ((1 : Nat) : Int))).toNat = 0 := by omega
  simp only [e1, e2, pow_zero, mul_one, one_mul]
  rw [if_pos a]
  omega

/-- Among the multiples of a power of ten only the integer itself reads back as an integer below `2 ^ 53`. -/
theorem readsBack_int (k t s j : Nat) (hk : 0 < k) :
    JSNumber.readsBack (k * 2 ^ t) (-(t : Int)) s (j : Int) = decide (s * 10 ^ j = k) := by
  have e1 : ((j : Int)).toNat = j := by omega
  have e2 : (2 - -(t : Int)).toNat = t + 2 := by omega
  have e3 : (-(j : Int)).toNat = 0 := by omega
  have e4 : (-(t : Int) - 2).toNat = 0 := by omega
  unfold JSNumber.readsBack
  simp only [e1, e2, e3, e4, pow_zero, mul_one]
  have hP : 2 ^ (t + 2) = 4 * 2 ^ t := by rw [pow_add]; ring
  have h2t : 0 < 2 ^ t := by positivity
  generalize s * 10 ^ j = X
  have hm : 4 * (k * 2 ^ t) = k * (4 * 2 ^ t) := by ring
  have hx : X * 2 ^ (t + 2) = X * (4 * 2 ^ t) := by rw [hP]
  rw [hx]
  have hkp : 4 ≤ k * (4 * 2 ^ t) := by
    have : 1 * (4 * 1) ≤ k * (4 * 2 ^ t) := Nat.mul_le_mul hk (Nat.mul_le_mul_left 4 h2t)
    omega
  rcases Nat.lt_trichotomy X k with hlt | heq | hgt
  · have h1 : (X + 1) * (4 * 2 ^ t) ≤ k * (4 * 2 ^ t) := Nat.mul_le_mul_right _ hlt
    rw [Nat.add_mul, one_mul] at h1
    have hne : X ≠ k := by omega
    simp only [hne, decide_False]
    generalize X * (4 * 2 ^ t) = a at h1 ⊢
    generalize k * (4 * 2 ^ t) = b at h1 hm hkp ⊢
    generalize k * 2 ^ t = m at hm ⊢
    generalize 2 ^ t = p at h1 h2t
    split <;> split <;> simp <;> omega
  · subst heq
    simp only [decide_True]
    generalize X * (4 * 2 ^ t) = b at hm hkp ⊢
    generalize X * 2 ^ t = m at hm ⊢
    split <;> split <;> simp <;> omega
  · have h1 : (k + 1) * (4 * 2 ^ t) ≤ X * (4 * 2 ^ t) := Nat.mul_le_mul_right _ hgt
    rw [Nat.add_mul, one_mul] at h1
    have hne : X ≠ k := by omega
    simp only [hne, decide_False]
    generalize X * (4 * 2 ^ t) = a at h1 ⊢
    generalize k * (4 * 2 ^ t) = b at h1 hm hkp ⊢
    generalize k * 2 ^ t = m at hm ⊢
    generalize 2 ^ t = p at h1 h2t
    split <;> split <;> simp <;> omega

/-- The search for the shortest decimal of a positive integer below `2 ^ 53` stops at the integer without its trailing zeros. -/
theorem shortestDecimal_int (k t D : Nat) (hk : 0 < k) (hD : k < 10 ^ D) :
    ∀ (fuel kk : Nat), 1 ≤ kk → kk ≤ D → D < kk + fuel →
    ∃ j, j < D ∧ 10 ^ j ∣ k
      ∧ JSNumber.shortestDecimal k 1 (k * 2 ^ t) (-(t : Int)) (D : Int) fuel kk
          = (decimalDigits (k / 10 ^ j), (D : Int)) := by
  intro fuel
  induction fuel with
  | zero => intro kk h1 h2 h3; omega
  | succ fuel ih =>
    intro kk h1 h2 h3
    obtain ⟨j, hj⟩ : ∃ j, D = kk + j := ⟨D - kk, by omega⟩
    have e1 : ((D : Int) - (kk : Int)) = (j : Int) := by omega
    have e2 : (-(j : Int)).toNat = 0 := by omega
    have e3 : ((j : Int)).toNat = j := by omega
    have hp : 0 < 10 ^ j := by positivity
    unfold JSNumber.shortestDecimal
    simp only [e1, e2, e3, pow_zero, mul_one, one_mul, readsBack_int k t _ j hk]
    have hup : ¬ ((k / 10 ^ j + 1) * 10 ^ j = k) := by
      have h4 : k < (k / 10 ^ j + 1) * 10 ^ j := by
        rw [Nat.mul_comm]
        exact Nat.lt_mul_div_succ k hp
      omega
    by_cases hdvd : 10 ^ j ∣ k
    · have hlow : k / 10 ^ j * 10 ^ j = k := Nat.div_mul_cancel hdvd
      have hne : k / 10 ^ j ≠ 0 := by
        intro h0
        rw [h0, zero_mul] at hlow
        omega
      have hlt : k / 10 ^ j < 10 ^ kk := by
        apply Nat.div_lt_of_lt_mul
        rw [← pow_add, Nat.add_comm, ← hj]
        exact hD
      have hne2 : k / 10 ^ j ≠ 10 ^ kk := by omega
      refine ⟨j, by omega, hdvd, ?_⟩
      simp [hlow, hne, hup, hne2]
    · have hlow : ¬ (k / 10 ^ j * 10 ^ j = k) := by
        intro h
        exact hdvd ⟨k / 10 ^ j, by rw [Nat.mul_comm]; exact h.symm⟩
      have hj0 : j ≠ 0 := by
        intro h0
        subst h0
        exact hdvd (by simp)
      obtain ⟨j2, hj2, hd2, hs2⟩ := ih (kk + 1) (by omega) (by omega) (by omega)
      refine ⟨j2, hj2, hd2, ?_⟩
      simp [hlow, hup]
      exact hs2

/-- A positive integer below `2 ^ 53` is printed with all its digits. -/
theorem positiveToString_int (k : Nat) (hk : 0 < k) (h : k < 2 ^ 53) :
    JSNumber.positiveToString k 1 = String.mk (decimalDigits k) := by
  have he := ulpExponent_nonpos k h
  obtain ⟨t, ht⟩ : ∃ t : Nat, JSNumber.ulpExponent k 1 = -(t : Int) :=
    ⟨(-JSNumber.ulpExponent k 1).toNat, by omega⟩
  obtain ⟨a, b, c⟩ := decimalDigits_length k hk
  have h16 : (decimalDigits k).length ≤ 16 := by
    by_contra hc
    have h17 : 16 ≤ (decimalDigits k).length - 1 := by omega
    have : 10 ^ 16 ≤ 10 ^ ((decimalDigits k).length - 1) := Nat.pow_le_pow_right (by decide) h17
    have h53 : 2 ^ 53 < 10 ^ 16 := by norm_num
    omega
  have e1 : (- -(t : Int)).toNat = t := by omega
  have e2 : (-(t : Int)).toNat = 0 := by omega
  obtain ⟨j, hj, hdvd, hs⟩ := shortestDecimal_int k t (decimalDigits k).length hk b 17 1
    (le_refl 1) c (by omega)
  unfold JSNumber.positiveToString
  simp only [ht, e1, e2, pow_zero, mul_one, Nat.div_one, decimalExponent_int k hk, hs]
  have hq : 0 < k / 10 ^ j := by
    apply Nat.div_pos (Nat.le_of_dvd hk hdvd) (by positivity)
  have hdig : decimalDigits k = decimalDigits (k / 10 ^ j) ++ List.replicate j '0' := by
    rw [← decimalDigits_mul_pow (k / 10 ^ j) j hq, Nat.div_mul_cancel hdvd]
  have hlen : (decimalDigits k).length = (decimalDigits (k / 10 ^ j)).length + j := by
    rw [hdig]
    simp
  unfold JSNumber.layoutDecimal
  have hc1 : ((decimalDigits (k / 10 ^ j)).length : Int) ≤ ((decimalDigits k).length : Int)
      ∧ ((decimalDigits k).length : Int) ≤ 21 := by omega
  simp only [hc1, and_self, if_true]
  have e3 : (((decimalDigits k).length : Int)
      - ((decimalDigits (k / 10 ^ j)).length : Int)).toNat = j := by omega
  rw [e3, ← hdig]

/-- An integer below `2 ^ 53` in magnitude is printed as its decimal numeral. -/
theorem toJSString_of_small (z : Int) (h : z.natAbs < 2 ^ 53) :
    (JSNumber.finite (z : ℚ)).toJSString = decimalNumeral z := by
  simp only [JSNumber.toJSString, decimalNumeral, Rat.intCast_num, Rat.intCast_den]
  by_cases h0 : z = 0
  · subst h0
    rfl
  · have hpos : 0 < z.natAbs := Int.natAbs_pos.mpr h0
    rw [if_neg h0, positiveToString_int z.natAbs hpos h]

/-- The literal 1 is the double 1. -/
theorem one_eq_finite : (1 : JSNumber) = JSNumber.finite 1 := by
  decide

/-- The literal 0 is the double 0. -/
theorem zero_eq_finite : (0 : JSNumber) = JSNumber.finite 0 := by
  decide

/-- A text that occurs in a document is found by the search. -/
theorem occursIn_of_contains (doc piece : String) (h : Contains doc piece) :
    occursIn piece.toList doc.toList = true := by
  obtain ⟨pre, post, rfl⟩ := h
  have hs : ∀ (a b : List Char), startsWith a (a ++ b) = true := by
    intro a b
    induction a with
    | nil => cases b <;> rfl
    | cons x xs ih => simp [startsWith, ih]
  have ho : ∀ (l a b : List Char), occursIn a (l ++ (a ++ b)) = true := by
    intro l a b
    induction l with
    | nil =>
      cases hab : a ++ b with
      | nil =>
        have ha : a = [] := (List.append_eq_nil.mp hab).1
        subst ha
        rfl
      | cons c cs =>
        have h1 := hs a b
        rw [hab] at h1
        simp [occursIn, h1]
    | cons x xs ih => simp [occursIn, ih]
  have hl : (pre ++ piece ++ post).toList = pre.toList ++ (piece.toList ++ post.toList) := by
    simp [String.toList, String.data_append]
  rw [hl]
  exact ho _ _ _

/-- `handleConfirmTicket` when the handler ends in the segment after the create-booking `fetch`. -/
theorem handleConfirmTicket_of_none {p : Props} {token : Option String} {s : State}
    {booking : FetchResult} {now : String} (refresh : FetchResult)
    (h : (onBookingResult p token s booking now).result = none) :
    handleConfirmTicket p token s booking now refresh
      = ⟨(onBookingResult p token s booking now).st,
         confirmRequest p token s :: (onBookingResult p token s booking now).effects⟩ := by
  simp only [handleConfirmTicket, h]

/-- `handleConfirmTicket` when the handler goes on to the refresh. -/
theorem handleConfirmTicket_of_some {p : Props} {token : Option String} {s : State}
    {booking : FetchResult} {now : String} (refresh : FetchResult) {result : JSVal}
    (h : (onBookingResult p token s booking now).result = some result) :
    handleConfirmTicket p token s booking now refresh
      = ⟨(onRefreshResult (onBookingResult p token s booking now).st result refresh).st,
         confirmRequest p token s :: ((onBookingResult p token s booking now).effects
           ++ (onRefreshResult (onBookingResult p token s booking now).st result refresh).effects)⟩ := by
  simp only [handleConfirmTicket, h]

/-- A thrown `fetch` or a non-ok response changes no state and plans no refresh. -/
theorem onBookingResult_of_not_ok (p : Props) (token : Option String) (s : State)
    (booking : FetchResult) (now : String) (h : booking.isOk = false) :
    (onBookingResult p token s booking now).st = s
    ∧ (onBookingResult p token s booking now).result = none
    ∧ (onBookingResult p token s booking now).effects.any Effect.isRefreshRequest = false := by
  cases booking with
  | threw => simp [onBookingResult, catchConfirm, Effect.isRefreshRequest]
  | resp res =>
    have hok : res.ok = false := h
    unfold onBookingResult
    simp only [hok]
    rcases hb : res.body with _ | errorData
    · simp [catchConfirm, Effect.isRefreshRequest]
    · rcases hd : errorData.getProp "detail" with _ | d <;>
        simp [hd, catchConfirm, Effect.isRefreshRequest]

/-- The success branch (lines 46-61) on an ok response whose body yields `booking_id`. -/
theorem onBookingResult_of_ok (p : Props) (token : Option String) (s : State)
    (res : Response) (now : String) (result b : JSVal)
    (hok : res.ok = true) (hbody : res.body = some result)
    (hid : result.getProp "booking_id" = some b) :
    onBookingResult p token s (FetchResult.resp res) now
      = ⟨{ s with bookingId := b, bookingTime := some now, isConfirmed := true },
         [Effect.fetch (Request.refreshCoachAvailability (bearer token) p.train.train_id)],
         some result⟩ := by
  simp [onBookingResult, hok, hbody, hid]

/-- The refresh segment leaves the four hooks as they are. -/
theorem onRefreshResult_keeps (s : State) (result : JSVal) (r : FetchResult) :
    (onRefreshResult s result r).st.isConfirmed = s.isConfirmed
    ∧ (onRefreshResult s result r).st.bookingId = s.bookingId
    ∧ (onRefreshResult s result r).st.bookingTime = s.bookingTime
    ∧ (onRefreshResult s result r).st.ticketCount = s.ticketCount := by
  unfold onRefreshResult
  cases refreshSeats s.coachType r <;> cases confirmedMessage result <;> simp

/-- Running one more event is one more `step`. -/
theorem run_append_singleton (p : Props) (σ : Page) (es : List Event) (e : Event) :
    run p σ (es ++ [e]) = step p (run p σ es) e := by
  simp [run, List.foldl_append]

/-- A received booking stays received when more events follow. -/
theorem BookingReceived.extend {p : Props} {c : CoachType} {es : List Event} {b : JSVal}
    {sent : BookingData} (h : BookingReceived p c es b sent) (e : Event) :
    BookingReceived p c (es ++ [e]) b sent := by
  obtain ⟨es1, es2, i, res, now, token, result, h1, h2, h3, h4, h5⟩ := h
  exact ⟨es1, es2 ++ [e], i, res, now, token, result, by simp [h1], h2, h3, h4, h5⟩

/-- The two ways the create-booking segment can end. -/
theorem onBookingResult_cases (p : Props) (token : Option String) (s : State)
    (r : FetchResult) (now : String) :
    ((onBookingResult p token s r now).result = none
      ∧ (onBookingResult p token s r now).st = s
      ∧ (onBookingResult p token s r now).effects.any Effect.isPaymentRequest = false)
    ∨ ∃ (res : Response) (result b : JSVal),
        r = FetchResult.resp res ∧ res.ok = true ∧ res.body = some result
        ∧ result.getProp "booking_id" = some b
        ∧ onBookingResult p token s r now
          = ⟨{ s with bookingId := b, bookingTime := some now, isConfirmed := true },
             [Effect.fetch (Request.refreshCoachAvailability (bearer token) p.train.train_id)],
             some result⟩ := by
  cases r with
  | threw => left; simp [onBookingResult, catchConfirm, Effect.isPaymentRequest]
  | resp res =>
    rcases hok : res.ok with _ | _
    · left
      rcases hb : res.body with _ | errorData
      · simp [onBookingResult, hok, hb, catchConfirm, Effect.isPaymentRequest]
      · rcases hd : errorData.getProp "detail" with _ | d <;>
          simp [onBookingResult, hok, hb, hd, catchConfirm, Effect.isPaymentRequest]
    · rcases hb : res.body with _ | result
      · left; simp [onBookingResult, hok, hb, catchConfirm, Effect.isPaymentRequest]
      · rcases hd : result.getProp "booking_id" with _ | b
        · left; simp [onBookingResult, hok, hb, hd, catchConfirm, Effect.isPaymentRequest]
        · right
          exact ⟨res, result, b, rfl, hok, hb, hd,
            onBookingResult_of_ok p token s res now result b hok hb hd⟩

/-- The refresh segment emits no create-payment request. -/
theorem onRefreshResult_no_payment (s : State) (result : JSVal) (r : FetchResult) :
    (onRefreshResult s result r).effects.any Effect.isPaymentRequest = false := by
  unfold onRefreshResult
  cases refreshSeats s.coachType r <;> cases confirmedMessage result <;>
    simp [catchConfirm, Effect.isPaymentRequest]

/-- The payment segment emits no further create-payment request. -/
theorem onPaymentResult_no_payment (format : String) (v : TicketView) (r : FetchResult) :
    (onPaymentResult format v r).any Effect.isPaymentRequest = false := by
  cases r with
  | threw => simp [onPaymentResult, catchPayment, Effect.isPaymentRequest]
  | resp res =>
    rcases hok : res.ok with _ | _ <;> by_cases hf : format = "html" <;>
      simp [onPaymentResult, hok, hf, generateTicketPDF, downloadTextTicket,
        Effect.isPaymentRequest]

/-- The payment segment emits no refresh request. -/
theorem onPaymentResult_no_refresh (format : String) (v : TicketView) (r : FetchResult) :
    (onPaymentResult format v r).any Effect.isRefreshRequest = false := by
  cases r with
  | threw => simp [onPaymentResult, catchPayment, Effect.isRefreshRequest]
  | resp res =>
    rcases hok : res.ok with _ | _ <;> by_cases hf : format = "html" <;>
      simp [onPaymentResult, hok, hf, generateTicketPDF, downloadTextTicket,
        Effect.isRefreshRequest]

/-- A list without payment requests contains none. -/
theorem not_mem_of_any_isPaymentRequest {l : List Effect}
    (h : l.any Effect.isPaymentRequest = false) (auth : String) (d : PaymentData) :
    Effect.fetch (Request.createPayment auth d) ∉ l := by
  intro hm
  have := List.any_eq_false.mp h _ hm
  simp [Effect.isPaymentRequest] at this

/-- The create-booking result arrives at a waiting invocation that goes on to the refresh. -/
theorem step_bookingSettles_some {p : Props} {σ : Page} {i : Nat} {r : FetchResult}
    {now : String} {token : Option String} {sent : BookingData} {result : JSVal}
    (hcall : σ.calls[i]? = some (Call.awaitBooking token sent))
    (hres : (onBookingResult p token σ.st r now).result = some result) :
    step p σ (Event.bookingSettles i r now)
      = { st := (onBookingResult p token σ.st r now).st
          calls := σ.calls.set i (Call.awaitRefresh result)
          trace := σ.trace ++ (onBookingResult p token σ.st r now).effects
          booked := σ.booked ++ [((onBookingResult p token σ.st r now).st.bookingId, sent)] } := by
  simp only [step, hcall, hres]

/-- The create-booking result arrives at a waiting invocation that ends. -/
theorem step_bookingSettles_none {p : Props} {σ : Page} {i : Nat} {r : FetchResult}
    {now : String} {token : Option String} {sent : BookingData}
    (hcall : σ.calls[i]? = some (Call.awaitBooking token sent))
    (hres : (onBookingResult p token σ.st r now).result = none) :
    step p σ (Event.bookingSettles i r now)
      = { st := (onBookingResult p token σ.st r now).st
          calls := σ.calls.set i Call.done
          trace := σ.trace ++ (onBookingResult p token σ.st r now).effects
          booked := σ.booked } := by
  simp only [step, hcall, hres]

/-- A create-booking result is taken only by an invocation waiting for it. -/
theorem step_bookingSettles_cases (p : Props) (σ : Page) (i : Nat) (r : FetchResult)
    (now : String) :
    step p σ (Event.bookingSettles i r now) = σ
    ∨ ∃ token sent, σ.calls[i]? = some (Call.awaitBooking token sent) := by
  rcases h : σ.calls[i]? with _ | call
  · left; simp only [step, h]
  · cases call with
    | awaitBooking token sent => right; exact ⟨token, sent, rfl⟩
    | awaitRefresh result => left; simp only [step, h]
    | awaitPayment format view => left; simp only [step, h]
    | done => left; simp only [step, h]

/-- A refresh result is taken only by an invocation waiting for it. -/
theorem step_refreshSettles_cases (p : Props) (σ : Page) (i : Nat) (r : FetchResult) :
    step p σ (Event.refreshSettles i r) = σ
    ∨ ∃ result, step p σ (Event.refreshSettles i r)
        = { σ with
            st := (onRefreshResult σ.st result r).st
            calls := σ.calls.set i Call.done
            trace := σ.trace ++ (onRefreshResult σ.st result r).effects } := by
  rcases h : σ.calls[i]? with _ | call
  · left; simp only [step, h]
  · cases call with
    | awaitBooking token sent => left; simp only [step, h]
    | awaitRefresh result => right; exact ⟨result, by simp only [step, h]⟩
    | awaitPayment format view => left; simp only [step, h]
    | done => left; simp only [step, h]

/-- A payment result is taken only by an invocation waiting for it. -/
theorem step_paymentSettles_cases (p : Props) (σ : Page) (i : Nat) (r : FetchResult) :
    step p σ (Event.paymentSettles i r) = σ
    ∨ ∃ format view, step p σ (Event.paymentSettles i r)
        = { σ with
            calls := σ.calls.set i Call.done
            trace := σ.trace ++ onPaymentResult format view r } := by
  rcases h : σ.calls[i]? with _ | call
  · left; simp only [step, h]
  · cases call with
    | awaitBooking token sent => left; simp only [step, h]
    | awaitRefresh result => left; simp only [step, h]
    | awaitPayment format view => right; exact ⟨format, view, by simp only [step, h]⟩
    | done => left; simp only [step, h]

/-- Every event preserves `PaysBooked`. -/
theorem paysBooked_step (p : Props) (c : CoachType) (es : List Event) (e : Event)
    (h : PaysBooked p c es (run p (Page.init c) es)) :
    PaysBooked p c (es ++ [e]) (step p (run p (Page.init c) es) e) := by
  obtain ⟨hB, hC, hP⟩ := h
  have hB1 : ∀ b ∈ (run p (Page.init c) es).booked,
      BookingReceived p c (es ++ [e]) b.1 b.2 := fun b hb => (hB b hb).extend e
  generalize hσ : run p (Page.init c) es = σ at hB hC hP hB1 ⊢
  cases e with
  | clickMinus =>
    simp only [step]
    split
    · exact ⟨hB1, hC, hP⟩
    · exact ⟨hB1, hC, hP⟩
  | clickPlus =>
    simp only [step]
    split
    · exact ⟨hB1, hC, hP⟩
    · exact ⟨hB1, hC, hP⟩
  | changeInput value =>
    simp only [step]
    split
    · exact ⟨hB1, hC, hP⟩
    · exact ⟨hB1, hC, hP⟩
  | clickConfirm token =>
    simp only [step]
    split
    · refine ⟨hB1, hC, ?_⟩
      intro auth d hm
      rcases List.mem_append.mp hm with hm | hm
      · exact hP auth d hm
      · simp [confirmRequest] at hm
    · exact ⟨hB1, hC, hP⟩
  | clickDownload kind token =>
    simp only [step]
    split
    · rename_i hconf
      refine ⟨hB1, hC, ?_⟩
      intro auth d hm
      rcases List.mem_append.mp hm with hm | hm
      · exact hP auth d hm
      · simp only [List.mem_singleton, paymentRequest, Effect.fetch.injEq,
          Request.createPayment.injEq] at hm
        obtain ⟨-, rfl⟩ := hm
        exact ⟨hC hconf, rfl⟩
    · exact ⟨hB1, hC, hP⟩
  | bookingSettles i r now =>
    rcases step_bookingSettles_cases p σ i r now with hs | ⟨token, sent, hcall⟩
    · rw [hs]; exact ⟨hB1, hC, hP⟩
    · rcases onBookingResult_cases p token σ.st r now with
        ⟨h1, h2, h3⟩ | ⟨res, result, b, hr, hok, hbody, hid, heq⟩
      · rw [step_bookingSettles_none hcall h1]
        refine ⟨hB1, ?_, ?_⟩
        · intro hconf
          simp only [h2] at hconf ⊢
          exact hC hconf
        · intro auth d hm
          rcases List.mem_append.mp hm with hm | hm
          · exact hP auth d hm
          · exact absurd hm (not_mem_of_any_isPaymentRequest h3 auth d)
      · have hres : (onBookingResult p token σ.st r now).result = some result := by rw [heq]
        rw [step_bookingSettles_some hcall hres, heq]
        refine ⟨?_, ?_, ?_⟩
        · intro x hx
          rcases List.mem_append.mp hx with hx | hx
          · exact hB1 x hx
          · rw [List.mem_singleton] at hx
            subst hx
            exact ⟨es, [], i, res, now, token, result, by rw [hr], by rw [hσ]; exact hcall,
              hok, hbody, hid⟩
        · intro _
          exact ⟨sent, List.mem_append.mpr (Or.inr (List.mem_singleton.mpr rfl))⟩
        · intro auth d hm
          rcases List.mem_append.mp hm with hm | hm
          · obtain ⟨⟨s0, hs0⟩, hm0⟩ := hP auth d hm
            exact ⟨⟨s0, List.mem_append.mpr (Or.inl hs0)⟩, hm0⟩
          · simp at hm
  | refreshSettles i r =>
    rcases step_refreshSettles_cases p σ i r with hs | ⟨result, hs⟩
    · rw [hs]; exact ⟨hB1, hC, hP⟩
    · rw [hs]
      obtain ⟨k1, k2, -, -⟩ := onRefreshResult_keeps σ.st result r
      refine ⟨hB1, ?_, ?_⟩
      · intro hconf
        simp only [k1, k2] at hconf ⊢
        exact hC hconf
      · intro auth d hm
        rcases List.mem_append.mp hm with hm | hm
        · exact hP auth d hm
        · exact absurd hm
            (not_mem_of_any_isPaymentRequest (onRefreshResult_no_payment σ.st result r) auth d)
  | paymentSettles i r =>
    rcases step_paymentSettles_cases p σ i r with hs | ⟨format, view, hs⟩
    · rw [hs]; exact ⟨hB1, hC, hP⟩
    · rw [hs]
      refine ⟨hB1, hC, ?_⟩
      intro auth d hm
      rcases List.mem_append.mp hm with hm | hm
      · exact hP auth d hm
      · exact absurd hm
          (not_mem_of_any_isPaymentRequest (onPaymentResult_no_payment format view r) auth d)

/-- `PaysBooked` holds along every execution from mounting. -/
theorem paysBooked_run (p : Props) (c : CoachType) (es : List Event) :
    PaysBooked p c es (run p (Page.init c) es) := by
  induction es using List.reverseRecOn with
  | nil =>
    refine ⟨?_, ?_, ?_⟩
    · intro b hb; simp [run, Page.init] at hb
    · intro h; simp [run, Page.init, State.init] at h
    · intro auth d hm; simp [run, Page.init] at hm
  | append_singleton es e ih =>
    rw [run_append_singleton]
    exact paysBooked_step p c es e ih

/-- With no event in between, the event-driven execution of a Confirm click agrees with `handleConfirmTicket`. -/
theorem run_confirm_eq_handleConfirmTicket (p : Props) (token : Option String) (s : State)
    (booking : FetchResult) (now : String) (refresh : FetchResult)
    (hs : s.isConfirmed = false) :
    (run p ⟨s, [], [], []⟩
        [Event.clickConfirm token, Event.bookingSettles 0 booking now,
         Event.refreshSettles 0 refresh]).st
      = (handleConfirmTicket p token s booking now refresh).st
    ∧ (run p ⟨s, [], [], []⟩
        [Event.clickConfirm token, Event.bookingSettles 0 booking now,
         Event.refreshSettles 0 refresh]).trace
      = (handleConfirmTicket p token s booking now refresh).effects := by
  rcases hres : (onBookingResult p token s booking now).result with _ | result
  · rw [handleConfirmTicket_of_none refresh hres]
    simp [run, step, hs, hres]
  · rw [handleConfirmTicket_of_some refresh hres]
    simp [run, step, hs, hres]

/-- With no event in between, the event-driven execution of a download click agrees with `handleDownloadTicket`. -/
theorem run_download_eq_handleDownloadTicket (p : Props) (token : Option String) (s : State)
    (kind : Artifact) (payment : FetchResult) (hs : s.isConfirmed = true) :
    (run p ⟨s, [], [], []⟩
        [Event.clickDownload kind token, Event.paymentSettles 0 payment]).st
      = (handleDownloadTicket p token s kind.format payment).st
    ∧ (run p ⟨s, [], [], []⟩
        [Event.clickDownload kind token, Event.paymentSettles 0 payment]).trace
      = (handleDownloadTicket p token s kind.format payment).effects := by
  simp [run, step, hs, handleDownloadTicket]


/-! ## The reservation request -/

/-- C1, as stated, fails: with price 1200 and the count 9007199254740991
typed into the input, the create-booking request carries `ticket_count =
9007199254740991` and `total_amount = 10808639105689188352`, the double
nearest to the product, which is 10808639105689189200; and with the price
1200.1 and 3 tickets it carries 3600.2999999999997, not the double of
3600.3. -/
theorem large_total_is_rounded :
    largeCountRun.st.coachType.price = JSNumber.finite 1200
    ∧ largeCountRun.st.ticketCount = JSNumber.finite 9007199254740991
    ∧ largeCountRun.trace
      = [Effect.fetch (Request.createBooking (bearer none)
          { train_id := 101, from_station := "Dhaka", to_station := "Chattogram",
            journey_date := "2025-07-01", coach_type := "AC_Chair"
            ticket_count := JSNumber.finite 9007199254740991
            total_amount := JSNumber.finite 10808639105689188352 })]
    ∧ (1200 : ℚ) * 9007199254740991 = 10808639105689189200
    ∧ JSNumber.finite 10808639105689188352 ≠ JSNumber.finite ((1200 : ℚ) * 9007199254740991)
    ∧ decimalFareOrder.coachType.price.toJSString = "1200.1"
    ∧ (bookingData sampleProps decimalFareOrder).total_amount.toJSString = "3600.2999999999997"
    ∧ (bookingData sampleProps decimalFareOrder).total_amount ≠ JSNumber.round 36003 10 := by
  refine ⟨by decide, by decide, rfl, by norm_num, ?_, by decide, by decide, by decide⟩
  intro h
  injection h with h
  norm_num at h

/-- C1 amended: for every price and every ticket count of the state, the first
effect of `handleConfirmTicket` is the create-booking request, whose body
carries `ticket_count = ticketCount` and `total_amount = price * ticketCount`,
the product of binary64 arithmetic (whatever the two `fetch` calls yield); the
product is exact when price and count are integers `a` and `b` with `a`, `b`
and `a * b` below `2 ^ 53` in magnitude; with price 1200 and 3 tickets the
request carries `ticket_count = 3` and `total_amount = 3600`. -/
theorem booking_request_carries_count_and_total (p : Props) (token : Option String)
    (s : State) (booking : FetchResult) (now : String) (refresh : FetchResult) :
    (∃ d rest,
      (handleConfirmTicket p token s booking now refresh).effects
        = Effect.fetch (Request.createBooking (bearer token) d) :: rest
      ∧ d.ticket_count = s.ticketCount
      ∧ d.total_amount = s.coachType.price * s.ticketCount
      ∧ ∀ a b : Int, a.natAbs < 2 ^ 53 → b.natAbs < 2 ^ 53 → (a * b).natAbs < 2 ^ 53 →
          s.coachType.price = JSNumber.ofInt a → s.ticketCount = JSNumber.ofInt b →
          d.ticket_count = JSNumber.finite (b : ℚ)
          ∧ d.total_amount = JSNumber.finite ((a * b : Int) : ℚ))
    ∧ (∃ d rest,
      (handleConfirmTicket sampleProps none threeSelected bookedSeven "now" okEmpty).effects
        = Effect.fetch (Request.createBooking (bearer none) d) :: rest
      ∧ d.ticket_count = JSNumber.finite 3 ∧ d.total_amount = JSNumber.finite 3600) := by
  constructor
  · have hex : ∀ a b : Int, a.natAbs < 2 ^ 53 → b.natAbs < 2 ^ 53 → (a * b).natAbs < 2 ^ 53 →
        s.coachType.price = JSNumber.ofInt a → s.ticketCount = JSNumber.ofInt b →
        (bookingData p s).ticket_count = JSNumber.finite (b : ℚ)
        ∧ (bookingData p s).total_amount = JSNumber.finite ((a * b : Int) : ℚ) := by
      intro a b ha hb hab hp hc
      constructor
      · show s.ticketCount = _
        rw [hc, JSNumber.ofInt, round_of_small b hb]
      · show s.coachType.price * s.ticketCount = _
        rw [hp, hc, JSNumber.ofInt, JSNumber.ofInt, mul_of_small a b ha hb,
          round_of_small (a * b) hab]
    refine ⟨bookingData p s, ?_⟩
    cases h : (onBookingResult p token s booking now).result with
    | none => exact ⟨_, by rw [handleConfirmTicket_of_none refresh h]; rfl, rfl, rfl, hex⟩
    | some result => exact ⟨_, by rw [handleConfirmTicket_of_some refresh h]; rfl, rfl, rfl, hex⟩
  · exact ⟨bookingData sampleProps threeSelected, _, rfl, by decide, by decide⟩

/-- C2: evaluation at the failing input. Two clicks on Confirm before any
response arrives: both are accepted, two invocations wait for a create-booking
response at the same time, and the trace holds two create-booking requests. -/
theorem double_confirm_emits_two_booking_requests :
    doubleClickRun.inFlightBookings = 2
    ∧ doubleClickRun.trace
      = [confirmRequest sampleProps none (State.init acChair),
         confirmRequest sampleProps none (State.init acChair)]
    ∧ doubleClickRun.trace.countP Effect.isBookingRequest = 2 :=
  ⟨rfl, rfl, rfl⟩

/-! ## The ticket artifact and the payment -/

/-- C3: `handleDownloadTicket` emits a ticket document exactly when
`isConfirmed` is true and the create-payment response is ok; with
`isConfirmed` false it emits neither a create-payment request nor a document
(so a thrown `fetch` or a non-ok response never yields a document). -/
theorem artifact_iff_confirmed_and_paid (p : Props) (token : Option String) (s : State)
    (format : String) (payment : FetchResult) :
    (handleDownloadTicket p token s format payment).effects.any Effect.isDownload
        = (s.isConfirmed && payment.isOk)
    ∧ (handleDownloadTicket p token { s with isConfirmed := false } format payment).effects.any
        Effect.isPaymentRequest = false
    ∧ (handleDownloadTicket p token { s with isConfirmed := false } format payment).effects.any
        Effect.isDownload = false := by
  refine ⟨?_, ?_, ?_⟩
  · unfold handleDownloadTicket
    cases hc : s.isConfirmed
    · simp [Effect.isDownload]
    · cases payment with
      | threw =>
        simp [onPaymentResult, catchPayment, paymentRequest, Effect.isDownload,
          FetchResult.isOk]
      | resp res =>
        cases hok : res.ok <;> by_cases hf : format = "html" <;>
          simp [onPaymentResult, paymentRequest, Effect.isDownload, FetchResult.isOk, hok, hf,
            generateTicketPDF, downloadTextTicket]
  · simp [handleDownloadTicket, Effect.isPaymentRequest]
  · simp [handleDownloadTicket, Effect.isDownload]

/-- C4: when the create-booking `fetch` throws or its response is not ok
(any status outside 200-299, any body, parsed or not), `handleConfirmTicket`
returns the state it started from (so `isConfirmed`, `bookingId`, `bookingTime`
and `coachType.seats` are unchanged) and emits no refresh request. -/
theorem rejected_reservation_creates_no_booking (p : Props) (token : Option String)
    (s : State) (booking : FetchResult) (now : String) (refresh : FetchResult)
    (h : booking.isOk = false) :
    (handleConfirmTicket p token s booking now refresh).st = s
    ∧ (handleConfirmTicket p token s booking now refresh).effects.any
        Effect.isRefreshRequest = false := by
  obtain ⟨h1, h2, h3⟩ := onBookingResult_of_not_ok p token s booking now h
  rw [handleConfirmTicket_of_none refresh h2]
  refine ⟨h1, ?_⟩
  simp only [List.any_cons, h3, confirmRequest, Effect.isRefreshRequest, Bool.or_self]

/-- Witness of C4: a 409 response on a fresh component leaves `isConfirmed`
false, `bookingId` null, `bookingTime` null, and no refresh is requested. -/
theorem rejected_reservation_creates_no_booking_witness :
    conflict.isOk = false
    ∧ (handleConfirmTicket sampleProps none (State.init acChair) conflict "now" okEmpty).st
        = { ticketCount := 1, isConfirmed := false, bookingId := JSVal.null,
            bookingTime := none, coachType := acChair }
    ∧ (handleConfirmTicket sampleProps none (State.init acChair) conflict "now"
          okEmpty).effects.any Effect.isRefreshRequest = false :=
  ⟨by decide,
   rejected_reservation_creates_no_booking sampleProps none (State.init acChair) conflict
     "now" okEmpty (by decide)⟩

/-- C5: from a confirmed state, when the create-payment `fetch` throws or its
response is not ok, `handleDownloadTicket` returns the state it started from
(`isConfirmed`, `bookingId`, `bookingTime`, `ticketCount` unchanged) and emits
no document; a following `handleDownloadTicket` starts with a create-payment
request for the same `booking_id` and emits no create-booking request. -/
theorem rejected_payment_keeps_reservation (p : Props) (token : Option String) (s : State)
    (format : String) (payment : FetchResult) (token2 : Option String) (format2 : String)
    (payment2 : FetchResult) (hc : s.isConfirmed = true) (h : payment.isOk = false) :
    (handleDownloadTicket p token s format payment).st = s
    ∧ (handleDownloadTicket p token s format payment).effects.any Effect.isDownload = false
    ∧ (∃ rest,
        (handleDownloadTicket p token2 (handleDownloadTicket p token s format payment).st
            format2 payment2).effects
          = Effect.fetch (Request.createPayment (bearer token2)
              { booking_id := s.bookingId, amount := totalPrice s, payment_method := "online" })
            :: rest)
    ∧ (handleDownloadTicket p token2 (handleDownloadTicket p token s format payment).st
          format2 payment2).effects.any Effect.isBookingRequest = false := by
  have hst : ∀ t f r, (handleDownloadTicket p t s f r).st = s := by
    intro t f r
    simp [handleDownloadTicket, hc]
  have hno : ∀ f v r, (onPaymentResult f v r).any Effect.isBookingRequest = false := by
    intro f v r
    cases r with
    | threw => simp [onPaymentResult, catchPayment, Effect.isBookingRequest]
    | resp res =>
      rcases hok : res.ok with _ | _ <;> by_cases hf : f = "html" <;>
        simp [onPaymentResult, hok, hf, generateTicketPDF, downloadTextTicket,
          Effect.isBookingRequest]
  refine ⟨hst _ _ _, ?_, ?_, ?_⟩
  · cases payment with
    | threw =>
      simp [handleDownloadTicket, hc, onPaymentResult, catchPayment, paymentRequest,
        Effect.isDownload]
    | resp res =>
      have hok : res.ok = false := h
      simp [handleDownloadTicket, hc, onPaymentResult, hok, paymentRequest, Effect.isDownload]
  · rw [hst]
    exact ⟨onPaymentResult format2 (ticketView p s) payment2,
      by simp [handleDownloadTicket, hc, paymentRequest, paymentData]⟩
  · rw [hst]
    simp [handleDownloadTicket, hc, paymentRequest, Effect.isBookingRequest, hno]

/-- Witness of C5: booking 7 is confirmed, the payment `fetch` throws, and the
retry pays booking 7 again. -/
theorem rejected_payment_keeps_reservation_witness :
    confirmedThree.isConfirmed = true ∧ FetchResult.threw.isOk = false
    ∧ (handleDownloadTicket sampleProps none confirmedThree "html" FetchResult.threw).st
        = confirmedThree
    ∧ (handleDownloadTicket sampleProps none confirmedThree "html"
          FetchResult.threw).effects.any Effect.isDownload = false
    ∧ (∃ rest,
        (handleDownloadTicket sampleProps none
            (handleDownloadTicket sampleProps none confirmedThree "html" FetchResult.threw).st
            "text" okEmpty).effects
          = Effect.fetch (Request.createPayment (bearer none)
              { booking_id := confirmedThree.bookingId, amount := totalPrice confirmedThree,
                payment_method := "online" })
            :: rest)
    ∧ (handleDownloadTicket sampleProps none
          (handleDownloadTicket sampleProps none confirmedThree "html" FetchResult.threw).st
          "text" okEmpty).effects.any Effect.isBookingRequest = false :=
  ⟨rfl, rfl,
   rejected_payment_keeps_reservation sampleProps none confirmedThree "html" FetchResult.threw
     none "text" okEmpty rfl rfl⟩

/-- C6: along every execution of the component from mounting: if
`isConfirmed` is true then `bookingId` is the `booking_id` of an ok
create-booking response that a waiting invocation received; every
create-payment request of the trace carries such a `booking_id` and
`payment_method` "online"; and a click on a download button (first attempt or
retry) emits a create-payment request carrying the current `bookingId`. -/
theorem payment_references_received_booking (p : Props) (c : CoachType) (es : List Event) :
    ((run p (Page.init c) es).st.isConfirmed = true →
      ∃ sent, BookingReceived p c es (run p (Page.init c) es).st.bookingId sent)
    ∧ (∀ auth d, Effect.fetch (Request.createPayment auth d) ∈ (run p (Page.init c) es).trace →
        (∃ sent, BookingReceived p c es d.booking_id sent) ∧ d.payment_method = "online")
    ∧ (∀ kind token, (run p (Page.init c) es).st.isConfirmed = true →
        (step p (run p (Page.init c) es) (Event.clickDownload kind token)).trace
          = (run p (Page.init c) es).trace
            ++ [Effect.fetch (Request.createPayment (bearer token)
                  { booking_id := (run p (Page.init c) es).st.bookingId
                    amount := totalPrice (run p (Page.init c) es).st
                    payment_method := "online" })]) := by
  obtain ⟨hB, hC, hP⟩ := paysBooked_run p c es
  refine ⟨?_, ?_, ?_⟩
  · intro hconf
    obtain ⟨sent, hs⟩ := hC hconf
    exact ⟨sent, hB _ hs⟩
  · intro auth d hm
    obtain ⟨⟨sent, hs⟩, hm0⟩ := hP auth d hm
    exact ⟨⟨sent, hB _ hs⟩, hm0⟩
  · intro kind token hconf
    simp [step, hconf, paymentRequest, paymentData]

/-- C7: evaluation at the failing input. One ticket is confirmed (request with
`total_amount = 1200`), the plus button is clicked while the request is
pending, booking 7 is returned for the request of 1200, and the download click
then emits a create-payment request for booking 7 with `amount = 2400`. -/
theorem late_count_change_pays_other_amount :
    lateChangeRun.booked.map (fun b => b.2.total_amount) = [1200]
    ∧ lateChangeRun.trace.head?
      = some (Effect.fetch (Request.createBooking (bearer none)
          { train_id := 101, from_station := "Dhaka", to_station := "Chattogram",
            journey_date := "2025-07-01", coach_type := "AC_Chair", ticket_count := 1,
            total_amount := 1200 }))
    ∧ lateChangeRun.trace.getLast?
      = some (Effect.fetch (Request.createPayment (bearer none)
          { booking_id := JSVal.num 7, amount := 2400, payment_method := "online" })) :=
  ⟨by decide, rfl, rfl⟩

/-! ## Failure of the create-booking call and the availability refresh -/

/-- C8, as stated, fails: when the create-booking `fetch` throws, no request
is emitted between the create-booking request and the failure alert. -/
theorem thrown_booking_reported_without_requery :
    requeriesBeforeReport
      (handleConfirmTicket sampleProps none (State.init acChair) FetchResult.threw "now"
        okEmpty).effects = false :=
  rfl

/-- C8 amended: when the create-booking `fetch` throws, `handleConfirmTicket`
emits no further request; it logs the error and alerts "Error occurred while
confirming ticket. Please try again.", and returns the state it started
from. -/
theorem thrown_booking_reports_failure_directly (p : Props) (token : Option String)
    (s : State) (now : String) (refresh : FetchResult) :
    handleConfirmTicket p token s FetchResult.threw now refresh
      = ⟨s, [Effect.fetch (Request.createBooking (bearer token) (bookingData p s)),
             Effect.consoleError "Error confirming ticket:",
             Effect.alert
               (Shown.text "Error occurred while confirming ticket. Please try again.")]⟩
    ∧ requeriesBeforeReport
        (handleConfirmTicket p token s FetchResult.threw now refresh).effects = false := by
  constructor <;> rfl

/-- C9: for every ok create-booking response whose parsed body yields
`booking_id = b`, and for every result of the refresh `fetch` (thrown, non-ok,
ok with any body), `handleConfirmTicket` ends with `isConfirmed = true` and
`bookingId = b`. -/
theorem refresh_is_best_effort (p : Props) (token : Option String) (s : State)
    (res : Response) (now : String) (refresh : FetchResult) (result b : JSVal)
    (hok : res.ok = true) (hbody : res.body = some result)
    (hid : result.getProp "booking_id" = some b) :
    (handleConfirmTicket p token s (FetchResult.resp res) now refresh).st.isConfirmed = true
    ∧ (handleConfirmTicket p token s (FetchResult.resp res) now refresh).st.bookingId = b := by
  have h := onBookingResult_of_ok p token s res now result b hok hbody hid
  have hr : (onBookingResult p token s (FetchResult.resp res) now).result = some result := by
    rw [h]
  rw [handleConfirmTicket_of_some refresh hr, h]
  obtain ⟨k1, k2, -, -⟩ := onRefreshResult_keeps
    { s with bookingId := b, bookingTime := some now, isConfirmed := true } result refresh
  exact ⟨k1, k2⟩

/-- Witness of C9: booking 7 is returned and the refresh `fetch` throws. -/
theorem refresh_is_best_effort_witness :
    bookedSevenResponse.ok = true
    ∧ bookedSevenResponse.body = some (JSVal.obj [("booking_id", JSVal.num 7)])
    ∧ (JSVal.obj [("booking_id", JSVal.num 7)]).getProp "booking_id" = some (JSVal.num 7)
    ∧ (handleConfirmTicket sampleProps none (State.init acChair)
          (FetchResult.resp bookedSevenResponse) "now" FetchResult.threw).st.isConfirmed = true
    ∧ (handleConfirmTicket sampleProps none (State.init acChair)
          (FetchResult.resp bookedSevenResponse) "now" FetchResult.threw).st.bookingId
        = JSVal.num 7 :=
  ⟨rfl, rfl, rfl,
   refresh_is_best_effort sampleProps none (State.init acChair) bookedSevenResponse "now"
     FetchResult.threw (JSVal.obj [("booking_id", JSVal.num 7)]) (JSVal.num 7) rfl rfl rfl⟩

/-- C10, as stated, fails: after an ok create-payment response on a confirmed
booking, `handleDownloadTicket` has emitted no refresh request. -/
theorem paid_download_emits_no_refresh :
    (handleDownloadTicket sampleProps none confirmedThree "html" okEmpty).effects.any
        Effect.isDownload = true
    ∧ (handleDownloadTicket sampleProps none confirmedThree "html" okEmpty).effects.any
        Effect.isRefreshRequest = false :=
  ⟨rfl, rfl⟩

/-- C10 amended: the availability refresh is requested after the reservation,
not after the payment. `handleDownloadTicket` emits no refresh request,
whatever the payment result; `handleConfirmTicket`, on an ok create-booking
response whose parsed body yields `booking_id`, emits the refresh request for
the train right after the create-booking request. -/
theorem refresh_follows_reservation_not_payment (p : Props) (token : Option String)
    (s : State) (res : Response) (now : String) (refresh : FetchResult) (result b : JSVal)
    (token2 : Option String) (s2 : State) (format : String) (payment : FetchResult)
    (hok : res.ok = true) (hbody : res.body = some result)
    (hid : result.getProp "booking_id" = some b) :
    (handleDownloadTicket p token2 s2 format payment).effects.any Effect.isRefreshRequest = false
    ∧ ∃ rest,
        (handleConfirmTicket p token s (FetchResult.resp res) now refresh).effects
          = Effect.fetch (Request.createBooking (bearer token) (bookingData p s))
            :: Effect.fetch (Request.refreshCoachAvailability (bearer token) p.train.train_id)
            :: rest := by
  constructor
  · unfold handleDownloadTicket
    split
    · simp [Effect.isRefreshRequest]
    · simp [paymentRequest, Effect.isRefreshRequest, onPaymentResult_no_refresh]
  · have h := onBookingResult_of_ok p token s res now result b hok hbody hid
    have hr : (onBookingResult p token s (FetchResult.resp res) now).result = some result := by
      rw [h]
    rw [handleConfirmTicket_of_some refresh hr, h]
    exact ⟨_, rfl⟩

/-- Witness of C10 amended: booking 7 is returned for three AC chair tickets;
the refresh for train 101 follows the create-booking request, and the paid
download of the confirmed booking requests no refresh. -/
theorem refresh_follows_reservation_not_payment_witness :
    bookedSevenResponse.ok = true
    ∧ bookedSevenResponse.body = some (JSVal.obj [("booking_id", JSVal.num 7)])
    ∧ (JSVal.obj [("booking_id", JSVal.num 7)]).getProp "booking_id" = some (JSVal.num 7)
    ∧ (handleDownloadTicket sampleProps none confirmedThree "html" okEmpty).effects.any
        Effect.isRefreshRequest = false
    ∧ ∃ rest,
        (handleConfirmTicket sampleProps none threeSelected
            (FetchResult.resp bookedSevenResponse) "now" okEmpty).effects
          = Effect.fetch (Request.createBooking (bearer none)
              (bookingData sampleProps threeSelected))
            :: Effect.fetch (Request.refreshCoachAvailability (bearer none)
                sampleProps.train.train_id)
            :: rest :=
  ⟨rfl, rfl, rfl,
   refresh_follows_reservation_not_payment sampleProps none threeSelected bookedSevenResponse
     "now" okEmpty (JSVal.obj [("booking_id", JSVal.num 7)]) (JSVal.num 7) none confirmedThree
     "html" okEmpty rfl rfl rfl⟩

/-! ## Lemmas on `Home`, on the ticket documents and on the state after a booking -/

/-- The matcher for `\d*$` accepts exactly the lists of ASCII digits. -/
theorem digitsToEnd_iff (cs : List Char) :
    digitsToEnd cs = true ↔ ∀ c ∈ cs, 48 ≤ c.toNat ∧ c.toNat ≤ 57 := by
  induction cs with
  | nil => simp [digitsToEnd]
  | cons c cs ih => simp [digitsToEnd, isDecimalDigit, ih]

/-- The match of `/^\d+$/` succeeds exactly on non-empty strings of ASCII digits. -/
theorem matchesDigits_iff (t : String) :
    matchesDigits t = true ↔ t ≠ "" ∧ ∀ c ∈ t.toList, 48 ≤ c.toNat ∧ c.toNat ≤ 57 := by
  obtain ⟨cs⟩ := t
  cases cs with
  | nil =>
    have h : (String.mk []) = "" := rfl
    simp [matchesDigits, h]
  | cons c cs =>
    have h : String.mk (c :: cs) ≠ "" := by
      intro h
      have := congrArg String.toList h
      simp at this
    simp [matchesDigits, h, isDecimalDigit, digitsToEnd_iff]

/-- On an accepted booking id the request is the first effect and the only `fetch`, and `verifyLoading` ends false. -/
theorem handleVerifyTicket_accept (token : Option String) (s : VerifyState) (r : FetchResult)
    (h1 : jsTrim s.bookingId ≠ "") (h2 : matchesDigits (jsTrim s.bookingId) = true) :
    ∃ rest, (handleVerifyTicket token s r).effects
        = HomeEffect.fetch (HomeRequest.verifyTicket (bearer token) (jsTrim s.bookingId)) :: rest
      ∧ rest.any HomeEffect.isFetch = false
      ∧ (handleVerifyTicket token s r).st.verifyLoading = false := by
  cases r with
  | threw => simp [handleVerifyTicket, h1, h2, catchVerify, HomeEffect.isFetch]
  | resp res =>
    rcases hok : res.ok with _ | _ <;> rcases hb : res.body with _ | body
    · simp [handleVerifyTicket, h1, h2, hok, hb, catchVerify, HomeEffect.isFetch]
    · by_cases h404 : res.status = 404
      · simp [handleVerifyTicket, h1, h2, hok, hb, h404, HomeEffect.isFetch]
      · rcases hd : body.getProp "detail" with _ | d <;>
          simp [handleVerifyTicket, h1, h2, hok, hb, h404, hd, catchVerify, HomeEffect.isFetch]
    · simp [handleVerifyTicket, h1, h2, hok, hb, catchVerify, HomeEffect.isFetch]
    · simp [handleVerifyTicket, h1, h2, hok, hb, HomeEffect.isFetch]

/-- A rejected booking id yields no effect, keeps `verifyLoading` and sets a message. -/
theorem handleVerifyTicket_reject (token : Option String) (s : VerifyState) (r : FetchResult)
    (h : jsTrim s.bookingId = "" ∨ matchesDigits (jsTrim s.bookingId) = false) :
    (handleVerifyTicket token s r).effects = []
    ∧ (handleVerifyTicket token s r).st.verifyLoading = s.verifyLoading
    ∧ ∃ m, (handleVerifyTicket token s r).st.verifyError = JSVal.str m := by
  by_cases h1 : jsTrim s.bookingId = ""
  · simp [handleVerifyTicket, h1]
  · have h2 : matchesDigits (jsTrim s.bookingId) = false := by
      rcases h with h | h
      · exact absurd h h1
      · exact h
    simp [handleVerifyTicket, h1, h2]

/-- Every navigation of `handleVerifyTicket` carries the parsed body of an ok response. -/
theorem handleVerifyTicket_navigates (token : Option String) (s : VerifyState)
    (r : FetchResult) (e : HomeEffect)
    (he : e ∈ (handleVerifyTicket token s r).effects) (hn : e.isNavigate = true) :
    ∃ res ticketDetails, r = FetchResult.resp res ∧ res.ok = true
      ∧ res.body = some ticketDetails ∧ e = HomeEffect.navigateVerifyTicket ticketDetails := by
  by_cases h1 : jsTrim s.bookingId = ""
  · simp [handleVerifyTicket, h1] at he
  · rcases h2 : matchesDigits (jsTrim s.bookingId) with _ | _
    · simp [handleVerifyTicket, h1, h2] at he
    · cases r with
      | threw =>
        simp [handleVerifyTicket, h1, h2, catchVerify] at he
        rcases he with rfl | rfl <;> simp [HomeEffect.isNavigate] at hn
      | resp res =>
        rcases hok : res.ok with _ | _ <;> rcases hb : res.body with _ | body
        · simp [handleVerifyTicket, h1, h2, hok, hb, catchVerify] at he
          rcases he with rfl | rfl <;> simp [HomeEffect.isNavigate] at hn
        · by_cases h404 : res.status = 404
          · simp [handleVerifyTicket, h1, h2, hok, hb, h404] at he
            subst he
            simp [HomeEffect.isNavigate] at hn
          · rcases hd : body.getProp "detail" with _ | d
            · simp [handleVerifyTicket, h1, h2, hok, hb, h404, hd, catchVerify] at he
              rcases he with rfl | rfl <;> simp [HomeEffect.isNavigate] at hn
            · simp [handleVerifyTicket, h1, h2, hok, hb, h404, hd] at he
              subst he
              simp [HomeEffect.isNavigate] at hn
        · simp [handleVerifyTicket, h1, h2, hok, hb, catchVerify] at he
          rcases he with rfl | rfl <;> simp [HomeEffect.isNavigate] at hn
        · simp [handleVerifyTicket, h1, h2, hok, hb] at he
          rcases he with rfl | rfl
          · simp [HomeEffect.isNavigate] at hn
          · exact ⟨res, body, rfl, hok, hb, rfl⟩

/-- A truthy value is not `null`. -/
theorem truthy_ne_null {d : JSVal} (h : d.truthy = true) : d ≠ JSVal.null := by
  intro hd
  rw [hd] at h
  simp [JSVal.truthy] at h

/-- Without an ok response `verifyError` ends non-null. -/
theorem handleVerifyTicket_error_of_not_ok (token : Option String) (s : VerifyState)
    (r : FetchResult) (h : r.isOk = false) :
    (handleVerifyTicket token s r).st.verifyError ≠ JSVal.null := by
  by_cases h1 : jsTrim s.bookingId = ""
  · simp [handleVerifyTicket, h1]
  · rcases h2 : matchesDigits (jsTrim s.bookingId) with _ | _
    · simp [handleVerifyTicket, h1, h2]
    · cases r with
      | threw => simp [handleVerifyTicket, h1, h2, catchVerify]
      | resp res =>
        have hok : res.ok = false := h
        rcases hb : res.body with _ | body
        · simp [handleVerifyTicket, h1, h2, hok, hb, catchVerify]
        · by_cases h404 : res.status = 404
          · simp [handleVerifyTicket, h1, h2, hok, hb, h404]
          · rcases hd : body.getProp "detail" with _ | d
            · simp [handleVerifyTicket, h1, h2, hok, hb, h404, hd, catchVerify]
            · rcases ht : d.truthy with _ | _
              · simp [handleVerifyTicket, h1, h2, hok, hb, h404, hd, ht]
              · simpa [handleVerifyTicket, h1, h2, hok, hb, h404, hd, ht] using
                  truthy_ne_null ht

/-- The values read by the ticket documents are fixed by nine fields of props and state. -/
theorem ticketView_congr (p1 p2 : Props) (s1 s2 : State)
    (h1 : s1.bookingId = s2.bookingId) (h2 : p1.train.train_name = p2.train.train_name)
    (h3 : p1.searchData.fromStation = p2.searchData.fromStation)
    (h4 : p1.searchData.toStation = p2.searchData.toStation)
    (h5 : p1.searchData.journeyDate = p2.searchData.journeyDate)
    (h6 : s1.bookingTime = s2.bookingTime)
    (h7 : s1.coachType.displayName = s2.coachType.displayName)
    (h8 : s1.ticketCount = s2.ticketCount) (h9 : s1.coachType.price = s2.coachType.price) :
    ticketView p1 s1 = ticketView p2 s2 := by
  simp only [ticketView, totalPrice, h1, h2, h3, h4, h5, h6, h7, h8, h9]

/-- Both documents contain the booking id. -/
theorem contains_bookingId (kind : Artifact) (v : TicketView) :
    Contains (kind.content v) v.bookingId.toJSString := by
  cases kind with
  | html =>
    exact ⟨ticketContentHead,
      ticketContentDetails v ++ "৳" ++ v.totalPrice.toJSString ++ ticketContentFoot,
      by simp only [Artifact.content, ticketContent, String.append_assoc]⟩
  | text =>
    exact ⟨ticketTextHead,
      ticketTextDetails v ++ "৳" ++ v.totalPrice.toJSString ++ ticketTextFoot,
      by simp only [Artifact.content, ticketText, String.append_assoc]⟩

/-- Both documents contain the currency sign followed by the total. -/
theorem contains_total (kind : Artifact) (v : TicketView) :
    Contains (kind.content v) ("৳" ++ v.totalPrice.toJSString) := by
  cases kind with
  | html =>
    exact ⟨ticketContentHead ++ v.bookingId.toJSString ++ ticketContentDetails v,
      ticketContentFoot,
      by simp only [Artifact.content, ticketContent, String.append_assoc]⟩
  | text =>
    exact ⟨ticketTextHead ++ v.bookingId.toJSString ++ ticketTextDetails v,
      ticketTextFoot,
      by simp only [Artifact.content, ticketText, String.append_assoc]⟩

/-- The payment segment downloads one document exactly on an ok response. -/
theorem emitted_onPaymentResult (kind : Artifact) (v : TicketView) (payment : FetchResult) :
    emitted (onPaymentResult kind.format v payment)
      = if payment.isOk = true then [(kind.fileName v, kind.content v)] else [] := by
  cases payment with
  | threw => simp [onPaymentResult, catchPayment, emitted, Effect.document, FetchResult.isOk]
  | resp res =>
    rcases hok : res.ok with _ | _
    · simp [onPaymentResult, hok, emitted, Effect.document, FetchResult.isOk]
    · cases kind <;>
        simp [onPaymentResult, hok, emitted, Effect.document, FetchResult.isOk, Artifact.format,
          generateTicketPDF, downloadTextTicket]

/-- `handleDownloadTicket` downloads one document exactly when confirmed and paid. -/
theorem emitted_handleDownloadTicket (p : Props) (token : Option String) (s : State)
    (kind : Artifact) (payment : FetchResult) :
    emitted (handleDownloadTicket p token s kind.format payment).effects
      = if s.isConfirmed = true ∧ payment.isOk = true then
          [(kind.fileName (ticketView p s), kind.content (ticketView p s))]
        else [] := by
  rcases hc : s.isConfirmed with _ | _
  · simp [handleDownloadTicket, hc, emitted, Effect.document]
  · have h := emitted_onPaymentResult kind (ticketView p s) payment
    simp only [emitted] at h
    simp [handleDownloadTicket, hc, emitted, paymentRequest, Effect.document, h]

/-- The state after the refresh segment. -/
theorem onRefreshResult_st (s : State) (result : JSVal) (r : FetchResult) :
    (onRefreshResult s result r).st
      = match refreshSeats s.coachType r with
        | none => s
        | some c => { s with coachType := c } := by
  unfold onRefreshResult
  cases confirmedMessage result <;> rfl

/-- The refresh assigns only `seats`. -/
theorem refreshSeats_keeps (c : CoachType) (r : FetchResult) (c2 : CoachType)
    (h : refreshSeats c r = some c2) :
    c2.type = c.type ∧ c2.displayName = c.displayName ∧ c2.price = c.price := by
  cases r with
  | threw => simp [refreshSeats] at h
  | resp res =>
    unfold refreshSeats at h
    rcases hok : res.ok with _ | _
    · simp [hok] at h
      subst h
      exact ⟨rfl, rfl, rfl⟩
    · rcases hb : res.body with _ | body
      · simp [hok, hb] at h
      · rcases hu : updatedCoach body c.type with _ | u
        · simp [hok, hb, hu] at h
        · rcases ht : u.truthy with _ | _
          · simp [hok, hb, hu, ht] at h
            subst h
            exact ⟨rfl, rfl, rfl⟩
          · rcases hg : u.getProp "available_seats" with _ | v
            · simp [hok, hb, hu, ht, hg] at h
            · simp [hok, hb, hu, ht, hg] at h
              subst h
              exact ⟨rfl, rfl, rfl⟩

/-- The state after `handleConfirmTicket` on an ok response whose body yields `booking_id`. -/
theorem handleConfirmTicket_st_of_ok (p : Props) (token : Option String) (s : State)
    (res : Response) (now : String) (refresh : FetchResult) (result b : JSVal)
    (hok : res.ok = true) (hbody : res.body = some result)
    (hid : result.getProp "booking_id" = some b) :
    (handleConfirmTicket p token s (FetchResult.resp res) now refresh).st
      = match refreshSeats s.coachType refresh with
        | none => { s with bookingId := b, bookingTime := some now, isConfirmed := true }
        | some c =>
          { s with bookingId := b, bookingTime := some now, isConfirmed := true,
                   coachType := c } := by
  have h := onBookingResult_of_ok p token s res now result b hok hbody hid
  have hr : (onBookingResult p token s (FetchResult.resp res) now).result = some result := by
    rw [h]
  rw [handleConfirmTicket_of_some refresh hr, h, onRefreshResult_st]

/-- The documents after booking 7 do not mention the allocated seats. -/
theorem documentsAfterBooking_bookedWithSeats (p : Props) (s : State) (seats : List JSVal)
    (kind : Artifact) :
    documentsAfterBooking p s (bookedWithSeats seats) kind
      = [(kind.fileName (ticketView p
            { s with bookingId := JSVal.num 7, bookingTime := some "now", isConfirmed := true }),
          kind.content (ticketView p
            { s with bookingId := JSVal.num 7, bookingTime := some "now",
                     isConfirmed := true }))] := by
  unfold documentsAfterBooking
  rw [handleConfirmTicket_st_of_ok p none s { status := 200, body := some (bookedWithSeats seats) }
    "now" FetchResult.threw (bookedWithSeats seats) (JSVal.num 7) rfl rfl rfl,
    emitted_handleDownloadTicket]
  simp [refreshSeats, FetchResult.isOk, Response.ok]

/-! ## Ticket verification (`handleVerifyTicket`) -/

/-- C11: `handleVerifyTicket` emits a verify request if and only if the
trimmed `bookingId` is non-empty and made of decimal digits only; in that case
the request is its first effect, its only `fetch`, and carries the trimmed
input as `booking_id`; otherwise it emits nothing and sets `verifyError` to a
message. -/
theorem verify_request_iff_trimmed_digits (token : Option String) (s : VerifyState) (r : FetchResult) :
    ((handleVerifyTicket token s r).effects.any HomeEffect.isFetch = true
      ↔ jsTrim s.bookingId ≠ ""
        ∧ ∀ c ∈ (jsTrim s.bookingId).toList, 48 ≤ c.toNat ∧ c.toNat ≤ 57)
    ∧ ((jsTrim s.bookingId ≠ ""
          ∧ ∀ c ∈ (jsTrim s.bookingId).toList, 48 ≤ c.toNat ∧ c.toNat ≤ 57) →
        ∃ rest, (handleVerifyTicket token s r).effects
          = HomeEffect.fetch (HomeRequest.verifyTicket (bearer token) (jsTrim s.bookingId))
            :: rest ∧ rest.any HomeEffect.isFetch = false)
    ∧ (¬ (jsTrim s.bookingId ≠ ""
          ∧ ∀ c ∈ (jsTrim s.bookingId).toList, 48 ≤ c.toNat ∧ c.toNat ≤ 57) →
        (handleVerifyTicket token s r).effects = []
        ∧ ∃ m, (handleVerifyTicket token s r).st.verifyError = JSVal.str m) := by
  rw [← matchesDigits_iff]
  by_cases hm : matchesDigits (jsTrim s.bookingId) = true
  · have h1 : jsTrim s.bookingId ≠ "" := ((matchesDigits_iff _).mp hm).1
    obtain ⟨rest, he, hr, -⟩ := handleVerifyTicket_accept token s r h1 hm
    refine ⟨?_, fun _ => ⟨rest, he, hr⟩, fun hn => absurd hm hn⟩
    rw [he]
    simp [HomeEffect.isFetch, hm]
  · have h2 : matchesDigits (jsTrim s.bookingId) = false := by simpa using hm
    obtain ⟨he, -, hv⟩ := handleVerifyTicket_reject token s r (Or.inr h2)
    refine ⟨?_, fun h => absurd h hm, fun _ => ⟨he, hv⟩⟩
    rw [he]
    simp [hm]

/-- C12: evaluation at the failing input. A 404 response whose body is not
JSON makes `response.json()` reject before the status is tested, and
`verifyError` becomes the retry message of the `catch` block; with a JSON
body the same status gives the invalid-ticket message. -/
theorem not_found_unparsed_shows_retry_message :
    (handleVerifyTicket none verifyUnknown notFoundUnparsed).st.verifyError
      = JSVal.str "Error occurred while verifying ticket. Please try again."
    ∧ (handleVerifyTicket none verifyUnknown notFoundDetail).st.verifyError
      = JSVal.str "Invalid ticket - No ticket found with this booking ID" := by
  constructor <;> rfl

/-- C13: every navigation of `handleVerifyTicket` goes to the verify-ticket
page with the parsed body of an ok response; when the `fetch` throws or the
response is not ok it does not navigate and `verifyError` ends non-null;
`verifyLoading` ends false whenever the request was sent, whatever its result,
and whenever the handler started with `verifyLoading = false` (the form cannot
be submitted while it is true, lines 506 and 511). -/
theorem verify_failure_yields_no_record (token : Option String) (s : VerifyState) (r : FetchResult) :
    (∀ e ∈ (handleVerifyTicket token s r).effects, e.isNavigate = true →
      ∃ res ticketDetails, r = FetchResult.resp res ∧ res.ok = true
        ∧ res.body = some ticketDetails ∧ e = HomeEffect.navigateVerifyTicket ticketDetails)
    ∧ (r.isOk = false →
        (handleVerifyTicket token s r).effects.any HomeEffect.isNavigate = false
        ∧ (handleVerifyTicket token s r).st.verifyError ≠ JSVal.null)
    ∧ ((handleVerifyTicket token s r).effects.any HomeEffect.isFetch = true →
        (handleVerifyTicket token s r).st.verifyLoading = false)
    ∧ (s.verifyLoading = false → (handleVerifyTicket token s r).st.verifyLoading = false) := by
  refine ⟨fun e he hn => handleVerifyTicket_navigates token s r e he hn, ?_, ?_, ?_⟩
  · intro h
    refine ⟨?_, handleVerifyTicket_error_of_not_ok token s r h⟩
    rw [List.any_eq_false]
    intro e he hn
    obtain ⟨res, d, hr, hok, -, -⟩ := handleVerifyTicket_navigates token s r e he hn
    rw [hr] at h
    simp [FetchResult.isOk, hok] at h
  · intro hf
    by_cases hm : jsTrim s.bookingId ≠ "" ∧ matchesDigits (jsTrim s.bookingId) = true
    · obtain ⟨rest, -, -, hl⟩ := handleVerifyTicket_accept token s r hm.1 hm.2
      exact hl
    · have hr : jsTrim s.bookingId = "" ∨ matchesDigits (jsTrim s.bookingId) = false := by
        by_cases h1 : jsTrim s.bookingId = ""
        · exact Or.inl h1
        · right
          simpa [h1] using hm
      rw [(handleVerifyTicket_reject token s r hr).1] at hf
      simp at hf
  · intro hl
    by_cases hm : jsTrim s.bookingId ≠ "" ∧ matchesDigits (jsTrim s.bookingId) = true
    · obtain ⟨rest, -, -, h⟩ := handleVerifyTicket_accept token s r hm.1 hm.2
      exact h
    · have hr : jsTrim s.bookingId = "" ∨ matchesDigits (jsTrim s.bookingId) = false := by
        by_cases h1 : jsTrim s.bookingId = ""
        · exact Or.inl h1
        · right
          simpa [h1] using hm
      rw [(handleVerifyTicket_reject token s r hr).2.1]
      exact hl

/-! ## Ticket count and available seats -/

/-- C14: evaluation at the failing input. Typing 25 into the ticket-count
input sets `ticketCount` to 25, and the Confirm click sends `ticket_count = 25`
with `total_amount = 30000`. -/
theorem typed_count_exceeds_ten :
    typedRun.st.ticketCount = 25
    ∧ typedRun.trace
      = [Effect.fetch (Request.createBooking (bearer none)
          { train_id := 101, from_station := "Dhaka", to_station := "Chattogram",
            journey_date := "2025-07-01", coach_type := "AC_Chair", ticket_count := 25,
            total_amount := 30000 })] := by
  constructor
  · decide
  · rfl

/-- C15, as stated, fails: with five tickets selected and two seats shown,
`handleConfirmTicket` sends the create-booking request for five tickets. -/
theorem booking_sent_beyond_available_seats :
    fiveOfTwo.ticketCount = 5 ∧ fiveOfTwo.coachType.seats = JSVal.num 2
    ∧ (handleConfirmTicket sampleProps none fiveOfTwo conflict "now" okEmpty).effects.head?
      = some (Effect.fetch (Request.createBooking (bearer none)
          { train_id := 101, from_station := "Dhaka", to_station := "Chattogram",
            journey_date := "2025-07-01", coach_type := "AC_Chair", ticket_count := 5,
            total_amount := 6000 })) :=
  ⟨rfl, rfl, rfl⟩

/-- C15 amended: `handleConfirmTicket` does not read `coachType.seats` before
sending: whatever value `seats` holds, its first effect is the create-booking
request with the same body. -/
theorem booking_request_ignores_available_seats (p : Props) (token : Option String) (s : State) (seats : JSVal)
    (booking : FetchResult) (now : String) (refresh : FetchResult) :
    ∃ rest,
      (handleConfirmTicket p token { s with coachType := { s.coachType with seats := seats } }
          booking now refresh).effects
        = Effect.fetch (Request.createBooking (bearer token) (bookingData p s)) :: rest := by
  cases h : (onBookingResult p token
      { s with coachType := { s.coachType with seats := seats } } booking now).result with
  | none => exact ⟨_, by rw [handleConfirmTicket_of_none refresh h]; rfl⟩
  | some result => exact ⟨_, by rw [handleConfirmTicket_of_some refresh h]; rfl⟩

/-! ## Train search (`handleSearch`) -/

/-- C16: `handleSearch` emits the search request if and only if `fromStation`,
`toStation` and `journeyDate` are non-empty and the two stations differ; if a
field is empty or the stations are equal it emits no request and does not
navigate. -/
theorem search_request_iff_fields_valid (searchData : SearchData) (r : FetchResult) :
    ((handleSearch searchData r).any HomeEffect.isFetch = true
      ↔ searchData.fromStation ≠ "" ∧ searchData.toStation ≠ "" ∧ searchData.journeyDate ≠ ""
        ∧ searchData.fromStation ≠ searchData.toStation)
    ∧ ((searchData.fromStation = "" ∨ searchData.toStation = "" ∨ searchData.journeyDate = ""
          ∨ searchData.fromStation = searchData.toStation) →
        (handleSearch searchData r).any HomeEffect.isFetch = false
        ∧ (handleSearch searchData r).any HomeEffect.isNavigate = false) := by
  by_cases h1 : searchData.fromStation = "" ∨ searchData.toStation = ""
      ∨ searchData.journeyDate = ""
  · have hs : handleSearch searchData r = [HomeEffect.alert "Please fill in all required fields"] := by
      simp only [handleSearch, h1, if_true]
    rw [hs]
    refine ⟨?_, fun _ => by simp [HomeEffect.isFetch, HomeEffect.isNavigate]⟩
    simp only [List.any_cons, List.any_nil, HomeEffect.isFetch, Bool.or_self,
      Bool.false_eq_true, false_iff]
    rintro ⟨a, b, c, -⟩
    rcases h1 with h | h | h
    · exact a h
    · exact b h
    · exact c h
  · by_cases h2 : searchData.fromStation = searchData.toStation
    · have hs : handleSearch searchData r
          = [HomeEffect.alert "Source and destination stations cannot be the same"] := by
        unfold handleSearch
        rw [if_neg h1, if_pos h2]
      rw [hs]
      refine ⟨?_, fun _ => by simp [HomeEffect.isFetch, HomeEffect.isNavigate]⟩
      simp only [List.any_cons, List.any_nil, HomeEffect.isFetch, Bool.or_self,
        Bool.false_eq_true, false_iff]
      rintro ⟨-, -, -, d⟩
      exact d h2
    · have hne : searchData.fromStation ≠ "" ∧ searchData.toStation ≠ ""
          ∧ searchData.journeyDate ≠ "" := by
        refine ⟨fun h => h1 (Or.inl h), fun h => h1 (Or.inr (Or.inl h)),
          fun h => h1 (Or.inr (Or.inr h))⟩
      refine ⟨?_, ?_⟩
      · simp only [handleSearch, h1, h2, if_false, List.any_cons, HomeEffect.isFetch,
          Bool.true_or, true_iff]
        exact ⟨hne.1, hne.2.1, hne.2.2, h2⟩
      · rintro (h | h | h | h)
        · exact absurd h hne.1
        · exact absurd h hne.2.1
        · exact absurd h hne.2.2
        · exact absurd h h2

/-- C17: the date input refuses a journey date earlier than its `min`, the
UTC date of the last render, and an empty date; but on 2 July 2025 at 02:00
in Dhaka the `min` is 2025-07-01, so the form submits a journey on
2025-07-01, earlier than the current date 2025-07-02, `handleSearch` sends
it, and the reservation request built from the same `searchData` carries it
again, whatever the date of the reservation. -/
theorem journey_date_checked_against_utc_date_of_render :
    (∀ f r, dateBefore f.searchData.journeyDate (journeyDateMin f.renderedAt) = true →
      submitSearchForm f r = [])
    ∧ (∀ f r, searchFormValid f = true → submitSearchForm f r = handleSearch f.searchData r)
    ∧ journeyDateMin afterMidnightForm.renderedAt = "2025-07-01"
    ∧ searchFormValid afterMidnightForm = true
    ∧ dateBefore afterMidnightForm.searchData.journeyDate "2025-07-02" = true
    ∧ submitSearchForm afterMidnightForm FetchResult.threw
        = HomeEffect.fetch (HomeRequest.searchTrains "Dhaka" "Chattogram" "2025-07-01")
            :: catchSearch
    ∧ (∀ (train : Train) (s : State),
        (bookingData { train := train, searchData := afterMidnightForm.searchData } s).journey_date
          = "2025-07-01") := by
  refine ⟨?_, ?_, by decide, by decide, by decide, ?_, fun _ _ => rfl⟩
  · intro f r h
    simp [submitSearchForm, searchFormValid, h]
  · intro f r h
    simp [submitSearchForm, h]
  · rfl

/-! ## The ticket documents -/

/-- C18: the HTML document, the text document and the download file name are
determined by `bookingId`, train name, `fromStation`, `toStation`,
`journeyDate`, `bookingTime`, coach display name, `ticketCount` and price: two
renders that agree on these nine values give identical documents and file
names, also as downloaded by `generateTicketPDF` and `downloadTextTicket`. -/
theorem ticket_documents_determined_by_booking_fields (p1 p2 : Props) (s1 s2 : State) (kind : Artifact)
    (h1 : s1.bookingId = s2.bookingId) (h2 : p1.train.train_name = p2.train.train_name)
    (h3 : p1.searchData.fromStation = p2.searchData.fromStation)
    (h4 : p1.searchData.toStation = p2.searchData.toStation)
    (h5 : p1.searchData.journeyDate = p2.searchData.journeyDate)
    (h6 : s1.bookingTime = s2.bookingTime)
    (h7 : s1.coachType.displayName = s2.coachType.displayName)
    (h8 : s1.ticketCount = s2.ticketCount) (h9 : s1.coachType.price = s2.coachType.price) :
    ticketContent (ticketView p1 s1) = ticketContent (ticketView p2 s2)
    ∧ ticketText (ticketView p1 s1) = ticketText (ticketView p2 s2)
    ∧ kind.fileName (ticketView p1 s1) = kind.fileName (ticketView p2 s2)
    ∧ emitted (generateTicketPDF (ticketView p1 s1)) = emitted (generateTicketPDF (ticketView p2 s2))
    ∧ emitted (downloadTextTicket (ticketView p1 s1))
        = emitted (downloadTextTicket (ticketView p2 s2)) := by
  rw [ticketView_congr p1 p2 s1 s2 h1 h2 h3 h4 h5 h6 h7 h8 h9]
  exact ⟨rfl, rfl, rfl, rfl, rfl⟩

/-- Witness of C18: two renders that differ in train id, train type, coach
type, seats shown and `isConfirmed` give the same documents. -/
theorem ticket_documents_determined_by_booking_fields_witness :
    confirmedThree.bookingId = unconfirmedThree.bookingId
    ∧ sampleProps.train.train_name = otherProps.train.train_name
    ∧ sampleProps.searchData.fromStation = otherProps.searchData.fromStation
    ∧ sampleProps.searchData.toStation = otherProps.searchData.toStation
    ∧ sampleProps.searchData.journeyDate = otherProps.searchData.journeyDate
    ∧ confirmedThree.bookingTime = unconfirmedThree.bookingTime
    ∧ confirmedThree.coachType.displayName = unconfirmedThree.coachType.displayName
    ∧ confirmedThree.ticketCount = unconfirmedThree.ticketCount
    ∧ confirmedThree.coachType.price = unconfirmedThree.coachType.price
    ∧ ticketContent (ticketView sampleProps confirmedThree)
        = ticketContent (ticketView otherProps unconfirmedThree)
    ∧ ticketText (ticketView sampleProps confirmedThree)
        = ticketText (ticketView otherProps unconfirmedThree)
    ∧ Artifact.html.fileName (ticketView sampleProps confirmedThree)
        = Artifact.html.fileName (ticketView otherProps unconfirmedThree)
    ∧ emitted (generateTicketPDF (ticketView sampleProps confirmedThree))
        = emitted (generateTicketPDF (ticketView otherProps unconfirmedThree))
    ∧ emitted (downloadTextTicket (ticketView sampleProps confirmedThree))
        = emitted (downloadTextTicket (ticketView otherProps unconfirmedThree)) :=
  ⟨rfl, rfl, rfl, rfl, rfl, rfl, rfl, rfl, rfl,
   ticket_documents_determined_by_booking_fields sampleProps otherProps confirmedThree
     unconfirmedThree Artifact.html rfl rfl rfl rfl rfl rfl rfl rfl rfl⟩

/-- C19, as stated, fails: for booking 7 with price 1200 and the typed count
9007199254740991, whose product is 10808639105689189200, the downloaded text
document shows "৳10808639105689188000" and does not contain
"৳10808639105689189200"; and with the price 1200.1 and 3 tickets the text
document shows "৳3600.2999999999997" and does not contain "৳3600.3". -/
theorem large_total_is_printed_rounded :
    largeOrderRun.st.coachType.price = JSNumber.finite 1200
    ∧ largeOrderRun.st.ticketCount = JSNumber.finite 9007199254740991
    ∧ (1200 : ℚ) * 9007199254740991 = 10808639105689189200
    ∧ (emitted largeOrderRun.trace).map (fun d => d.1) = ["Railway_Ticket_7.txt"]
    ∧ (∀ d ∈ emitted largeOrderRun.trace,
        Contains d.2 "৳10808639105689188000" ∧ ¬ Contains d.2 "৳10808639105689189200")
    ∧ decimalFareOrder.coachType.price.toJSString = "1200.1"
    ∧ Contains (ticketText (ticketView sampleProps decimalFareOrder)) "৳3600.2999999999997"
    ∧ ¬ Contains (ticketText (ticketView sampleProps decimalFareOrder)) "৳3600.3" := by
  have he : emitted largeOrderRun.trace
      = [(Artifact.text.fileName (ticketView sampleProps largeOrderRun.st),
          Artifact.text.content (ticketView sampleProps largeOrderRun.st))] := rfl
  refine ⟨by decide, by decide, by norm_num, by decide, ?_, by decide, ?_, ?_⟩
  · intro d hd
    rw [he, List.mem_singleton] at hd
    subst hd
    constructor
    · have h : ("৳" ++ (ticketView sampleProps largeOrderRun.st).totalPrice.toJSString)
          = "৳10808639105689188000" := by decide
      rw [← h]
      exact contains_total Artifact.text (ticketView sampleProps largeOrderRun.st)
    · intro hc
      have ho := occursIn_of_contains _ _ hc
      have hn : occursIn "৳10808639105689189200".toList
          (Artifact.text.content (ticketView sampleProps largeOrderRun.st)).toList = false := by
        decide!
      rw [hn] at ho
      exact absurd ho (by decide)
  · have h : ("৳" ++ (ticketView sampleProps decimalFareOrder).totalPrice.toJSString)
        = "৳3600.2999999999997" := by decide
    rw [← h]
    exact contains_total Artifact.text (ticketView sampleProps decimalFareOrder)
  · intro hc
    have ho := occursIn_of_contains _ _ hc
    have hn : occursIn "৳3600.3".toList
        (ticketText (ticketView sampleProps decimalFareOrder)).toList = false := by
      decide!
    rw [hn] at ho
    exact absurd ho (by decide)

/-- C19 amended: for every state and both kinds of document, the document
contains the booking id and contains the currency sign immediately followed by
the text of the Number `price * ticketCount`, the product of binary64
arithmetic as Number::toString prints it; that text is the decimal numeral of
the product when price and count are integers `a` and `b` with `a`, `b` and
`a * b` below `2 ^ 53` in magnitude; so it is for the document that
`handleDownloadTicket` downloads; for booking 7 with price 1200 and 3 tickets
it contains "৳3600" and "7". -/
theorem ticket_documents_contain_id_and_total (p : Props) (token : Option String) (s : State)
    (kind : Artifact) (payment : FetchResult) :
    Contains (kind.content (ticketView p s)) s.bookingId.toJSString
    ∧ Contains (kind.content (ticketView p s))
        ("৳" ++ (s.coachType.price * s.ticketCount).toJSString)
    ∧ (∀ a b : Int, a.natAbs < 2 ^ 53 → b.natAbs < 2 ^ 53 → (a * b).natAbs < 2 ^ 53 →
        s.coachType.price = JSNumber.ofInt a → s.ticketCount = JSNumber.ofInt b →
        Contains (kind.content (ticketView p s)) ("৳" ++ decimalNumeral (a * b)))
    ∧ (∀ d ∈ emitted (handleDownloadTicket p token s kind.format payment).effects,
        Contains d.2 s.bookingId.toJSString
        ∧ Contains d.2 ("৳" ++ (s.coachType.price * s.ticketCount).toJSString))
    ∧ decimalNumeral (1200 * 3) = "3600"
    ∧ Contains (kind.content (ticketView sampleProps confirmedThree)) "৳3600"
    ∧ Contains (kind.content (ticketView sampleProps confirmedThree)) "7" := by
  refine ⟨contains_bookingId kind (ticketView p s), contains_total kind (ticketView p s),
    ?_, ?_, by decide, ?_, contains_bookingId kind (ticketView sampleProps confirmedThree)⟩
  · intro a b ha hb hab hp hc
    have ht : (ticketView p s).totalPrice.toJSString = decimalNumeral (a * b) := by
      show (s.coachType.price * s.ticketCount).toJSString = _
      rw [hp, hc, JSNumber.ofInt, JSNumber.ofInt, mul_of_small a b ha hb,
        round_of_small (a * b) hab, toJSString_of_small (a * b) hab]
    rw [← ht]
    exact contains_total kind (ticketView p s)
  · intro d hd
    rw [emitted_handleDownloadTicket] at hd
    split at hd
    · rw [List.mem_singleton] at hd
      subst hd
      exact ⟨contains_bookingId kind (ticketView p s), contains_total kind (ticketView p s)⟩
    · simp at hd
  · have h : ("৳" ++ (ticketView sampleProps confirmedThree).totalPrice.toJSString) = "৳3600" := by
      decide
    rw [← h]
    exact contains_total kind (ticketView sampleProps confirmedThree)

/-- C20, as stated, fails: no way of counting seat entries in a document gives
the number of allocated seats for every booking, since the documents
downloaded after a response allocating three seats and after a response
allocating one seat are the same. -/
theorem no_seat_count_readable_from_artifact :
    ¬ ∃ entries : String → Nat, ∀ (seats : List JSVal) (kind : Artifact),
        ∀ d ∈ documentsAfterBooking sampleProps threeSelected (bookedWithSeats seats) kind,
          entries d.2 = seats.length := by
  rintro ⟨entries, h⟩
  have h3 := h [seat "17", seat "18", seat "19"] Artifact.html
  have h1 := h [seat "17"] Artifact.html
  rw [documentsAfterBooking_bookedWithSeats] at h3 h1
  have e3 := h3 _ (List.mem_singleton.mpr rfl)
  have e1 := h1 _ (List.mem_singleton.mpr rfl)
  rw [e3] at e1
  simp at e1

/-- C20 amended: the downloaded documents do not depend on the seats allocated
by the reservation response: two ok create-booking responses that yield the
same `booking_id` lead to identical downloads, namely (when the payment
response is ok) the document of the render with that `booking_id`, the booking
time and the selected `ticketCount`. -/
theorem artifact_independent_of_allocated_seats (p : Props) (token : Option String) (s : State) (res1 res2 : Response)
    (now : String) (refresh : FetchResult) (result1 result2 b : JSVal)
    (token2 : Option String) (kind : Artifact) (payment : FetchResult)
    (hok1 : res1.ok = true) (hbody1 : res1.body = some result1)
    (hid1 : result1.getProp "booking_id" = some b)
    (hok2 : res2.ok = true) (hbody2 : res2.body = some result2)
    (hid2 : result2.getProp "booking_id" = some b) :
    emitted (handleDownloadTicket p token2
        (handleConfirmTicket p token s (FetchResult.resp res1) now refresh).st
        kind.format payment).effects
      = emitted (handleDownloadTicket p token2
        (handleConfirmTicket p token s (FetchResult.resp res2) now refresh).st
        kind.format payment).effects
    ∧ emitted (handleDownloadTicket p token2
        (handleConfirmTicket p token s (FetchResult.resp res1) now refresh).st
        kind.format payment).effects
      = if payment.isOk = true then
          [(kind.fileName (ticketView p { s with bookingId := b, bookingTime := some now }),
            kind.content (ticketView p { s with bookingId := b, bookingTime := some now }))]
        else [] := by
  rw [handleConfirmTicket_st_of_ok p token s res1 now refresh result1 b hok1 hbody1 hid1,
    handleConfirmTicket_st_of_ok p token s res2 now refresh result2 b hok2 hbody2 hid2]
  refine ⟨rfl, ?_⟩
  rw [emitted_handleDownloadTicket]
  rcases hr : refreshSeats s.coachType refresh with _ | c
  · simp [ticketView, totalPrice]
  · obtain ⟨-, k2, k3⟩ := refreshSeats_keeps s.coachType refresh c hr
    simp [ticketView, totalPrice, k2, k3]

/-- Witness of C20 amended: booking 7 with seats 17, 18, 19 and booking 7 with
an empty seat list give the same HTML download. -/
theorem artifact_independent_of_allocated_seats_witness :
    threeSeatsResponse.ok = true
    ∧ threeSeatsResponse.body = some (bookedWithSeats [seat "17", seat "18", seat "19"])
    ∧ (bookedWithSeats [seat "17", seat "18", seat "19"]).getProp "booking_id"
        = some (JSVal.num 7)
    ∧ noSeatsResponse.ok = true
    ∧ noSeatsResponse.body = some (bookedWithSeats [])
    ∧ (bookedWithSeats []).getProp "booking_id" = some (JSVal.num 7)
    ∧ emitted (handleDownloadTicket sampleProps none
          (handleConfirmTicket sampleProps none threeSelected
            (FetchResult.resp threeSeatsResponse) "now" okEmpty).st
          Artifact.html.format okEmpty).effects
        = emitted (handleDownloadTicket sampleProps none
          (handleConfirmTicket sampleProps none threeSelected
            (FetchResult.resp noSeatsResponse) "now" okEmpty).st
          Artifact.html.format okEmpty).effects
    ∧ emitted (handleDownloadTicket sampleProps none
          (handleConfirmTicket sampleProps none threeSelected
            (FetchResult.resp threeSeatsResponse) "now" okEmpty).st
          Artifact.html.format okEmpty).effects
        = if okEmpty.isOk = true then
            [(Artifact.html.fileName (ticketView sampleProps
                { threeSelected with bookingId := JSVal.num 7, bookingTime := some "now" }),
              Artifact.html.content (ticketView sampleProps
                { threeSelected with bookingId := JSVal.num 7, bookingTime := some "now" }))]
          else [] :=
  ⟨rfl, rfl, rfl, rfl, rfl, rfl,
   artifact_independent_of_allocated_seats sampleProps none threeSelected threeSeatsResponse
     noSeatsResponse "now" okEmpty (bookedWithSeats [seat "17", seat "18", seat "19"])
     (bookedWithSeats []) (JSVal.num 7) none Artifact.html okEmpty rfl rfl rfl rfl rfl rfl⟩

/-! ## Lemmas on `TrainDetails`, `SignUp` and the refresh block -/

/-- `handleSubmit` when the two passwords differ. -/
theorem handleSubmit_mismatch (s : SignUpState) (r : FetchResult)
    (h : s.formData.password ≠ s.formData.confirmPassword) :
    handleSubmit s r
      = ⟨{ s with loading := false, success := ""
                  error := JSVal.str "Passwords do not match. Please check and try again." },
         []⟩ := by
  simp [handleSubmit, h]

/-- `handleSubmit` when the passwords agree and are shorter than six. -/
theorem handleSubmit_short (s : SignUpState) (r : FetchResult)
    (h : s.formData.password = s.formData.confirmPassword)
    (hl : jsLength s.formData.password < 6) :
    handleSubmit s r
      = ⟨{ s with loading := false, success := ""
                  error := JSVal.str "Password must be at least 6 characters long." }, []⟩ := by
  unfold handleSubmit
  rw [if_neg (not_not.mpr h), if_pos hl]

/-- On valid passwords the request is the first effect and the only `fetch`, and `loading` ends false. -/
theorem handleSubmit_sent (s : SignUpState) (r : FetchResult)
    (h : s.formData.password = s.formData.confirmPassword)
    (hl : 6 ≤ jsLength s.formData.password) :
    ∃ rest, (handleSubmit s r).effects = SignUpEffect.fetchSignup (dataToSend s.formData) :: rest
      ∧ rest.any SignUpEffect.isFetch = false
      ∧ (handleSubmit s r).st.loading = false := by
  have hl2 : ¬ jsLength s.formData.password < 6 := by omega
  have hl3 : ¬ jsLength s.formData.confirmPassword < 6 := by rw [← h]; exact hl2
  cases r with
  | threw => simp [handleSubmit, h, hl2, hl3, catchSignUp, SignUpEffect.isFetch]
  | resp res =>
    rcases hb : res.body with _ | data
    · simp [handleSubmit, h, hl2, hl3, hb, catchSignUp, SignUpEffect.isFetch]
    · rcases hok : res.ok with _ | _
      · rcases hd : data.getProp "detail" with _ | d <;>
          simp [handleSubmit, h, hl2, hl3, hb, hok, hd, catchSignUp, SignUpEffect.isFetch]
      · simp [handleSubmit, h, hl2, hl3, hb, hok, SignUpEffect.isFetch]

/-- A property read throws only on `null` and `undefined`. -/
theorem getProp_of_ne_null (c : JSVal) (k : String)
    (h : c ≠ JSVal.null ∧ c ≠ JSVal.undefined) : ∃ v, c.getProp k = some v := by
  cases c with
  | undefined => exact absurd rfl h.2
  | null => exact absurd rfl h.1
  | bool b => exact ⟨_, rfl⟩
  | num n => exact ⟨_, rfl⟩
  | str t => exact ⟨_, rfl⟩
  | arr ys => exact ⟨_, rfl⟩
  | obj kvs => exact ⟨_, rfl⟩

/-- On a list without `null` entries `find` does not throw and returns the first entry of the type. -/
theorem findCoach_of_no_null (type : String) (xs : List JSVal)
    (h : ∀ c ∈ xs, c ≠ JSVal.null ∧ c ≠ JSVal.undefined) :
    findCoach type xs = some ((firstEntryOfType type xs).getD JSVal.undefined) := by
  induction xs with
  | nil => simp [findCoach, firstEntryOfType]
  | cons c cs ih =>
    obtain ⟨v, hv⟩ := getProp_of_ne_null c "coach_type" (h c (List.mem_cons_self _ _))
    have ih2 := ih (fun c hc => h c (List.mem_cons_of_mem _ hc))
    rcases hm : v.strictEqStr type with _ | _
    · simp [findCoach, firstEntryOfType, hv, hm, List.find?_cons] at ih2 ⊢
      simpa [firstEntryOfType] using ih2
    · simp [findCoach, firstEntryOfType, hv, hm, List.find?_cons]

/-- The first entry of a type is an entry of the list. -/
theorem firstEntryOfType_mem (type : String) (xs : List JSVal) (u : JSVal)
    (h : firstEntryOfType type xs = some u) : u ∈ xs :=
  List.mem_of_find?_eq_some h

/-- The first entry of a type is an object. -/
theorem firstEntryOfType_obj (type : String) (xs : List JSVal) (u : JSVal)
    (h : firstEntryOfType type xs = some u) : ∃ kvs, u = JSVal.obj kvs := by
  have hp := List.find?_some h
  cases u with
  | obj kvs => exact ⟨kvs, rfl⟩
  | undefined => simp [JSVal.getProp, JSVal.strictEqStr] at hp
  | null => simp [JSVal.getProp, JSVal.strictEqStr] at hp
  | bool b => simp [JSVal.getProp, JSVal.strictEqStr] at hp
  | num n => simp [JSVal.getProp, JSVal.strictEqStr] at hp
  | str t => simp [JSVal.getProp, JSVal.strictEqStr] at hp
  | arr ys => simp [JSVal.getProp, JSVal.strictEqStr] at hp

/-- The refresh block on an ok response whose body is a list without `null` entries. -/
theorem refreshSeats_of_no_null (c : CoachType) (res : Response) (xs : List JSVal)
    (hok : res.ok = true) (hbody : res.body = some (JSVal.arr xs))
    (h : ∀ e ∈ xs, e ≠ JSVal.null ∧ e ≠ JSVal.undefined) :
    refreshSeats c (FetchResult.resp res)
      = some (match firstEntryOfType c.type xs with
              | some u => { c with seats := (u.getProp "available_seats").getD JSVal.undefined }
              | none => c) := by
  unfold refreshSeats
  simp only [hok, hbody, if_true, updatedCoach, findCoach_of_no_null c.type xs h]
  rcases hf : firstEntryOfType c.type xs with _ | u
  · simp [JSVal.truthy]
  · obtain ⟨kvs, rfl⟩ := firstEntryOfType_obj c.type xs u hf
    simp [JSVal.truthy, JSVal.getProp]

/-- The refresh block throws on an ok response whose body does not parse or is not a list. -/
theorem refreshSeats_of_no_list (c : CoachType) (res : Response)
    (hok : res.ok = true) (hbody : ∀ xs, res.body ≠ some (JSVal.arr xs)) :
    refreshSeats c (FetchResult.resp res) = none := by
  unfold refreshSeats
  rcases hb : res.body with _ | body
  · simp [hok, hb]
  · cases body with
    | arr xs => exact absurd hb (hbody xs)
    | undefined => simp [hok, hb, updatedCoach]
    | null => simp [hok, hb, updatedCoach]
    | bool b => simp [hok, hb, updatedCoach]
    | num n => simp [hok, hb, updatedCoach]
    | str t => simp [hok, hb, updatedCoach]
    | obj kvs => simp [hok, hb, updatedCoach]

/-- For a number other than `NaN`, `n <= 0` is false exactly when `0 < n`. -/
theorem lt_zero_iff (n : JSNumber) (h : n ≠ JSNumber.nan) :
    JSNumber.lt 0 n = true ↔ n.le 0 = false := by
  rw [zero_eq_finite]
  cases n with
  | nan => exact absurd rfl h
  | infinity b => simp [JSNumber.lt]
  | finite q => simp [JSNumber.lt]

/-- A card that renders carries its entry and the `disabled` attribute of line 272. -/
theorem coachCard_some (coach : JSVal) (r : Bool) (card : CoachCard)
    (h : coachCard coach r = some card) :
    card.coach = coach ∧ buyDisabled coach r = some card.disabled := by
  unfold coachCard at h
  split at h
  · split at h
    · split at h
      · injection h with h
        subst h
        rename_i hd _
        exact ⟨rfl, hd⟩
      · simp at h
    · simp at h
  · simp at h

/-- The card at an index is the card of the entry at that index. -/
theorem coachCardList_get (r : Bool) : ∀ (xs : List JSVal) (cards : List CoachCard) (i : Nat)
    (card : CoachCard), coachCardList r xs = some cards → cards[i]? = some card →
    ∃ entry, xs[i]? = some entry ∧ coachCard entry r = some card := by
  intro xs
  induction xs with
  | nil =>
    intro cards i card h hc
    simp [coachCardList] at h
    subst h
    simp at hc
  | cons x rest ih =>
    intro cards i card h hc
    unfold coachCardList at h
    rcases hx : coachCard x r with _ | c0
    · simp [hx] at h
    · rcases hr : coachCardList r rest with _ | cs
      · simp [hx, hr] at h
      · simp [hx, hr] at h
        subst h
        cases i with
        | zero =>
          simp at hc
          subst hc
          exact ⟨x, by simp, hx⟩
        | succ j =>
          simp at hc
          obtain ⟨entry, he, hce⟩ := ih cs j card hr hc
          exact ⟨entry, by simpa using he, hce⟩

/-- Cards are shown only for a list. -/
theorem coachCards_get (v : JSVal) (r : Bool) (cards : List CoachCard) (i : Nat)
    (card : CoachCard) (h : coachCards v r = some cards) (hc : cards[i]? = some card) :
    ∃ xs, v = JSVal.arr xs ∧ coachCardList r xs = some cards := by
  cases v with
  | arr xs => exact ⟨xs, rfl, h⟩
  | undefined => simp [coachCards] at h
  | null => simp [coachCards] at h
  | bool b =>
    simp [coachCards] at h
    subst h
    simp at hc
  | num n =>
    simp [coachCards] at h
    subst h
    simp at hc
  | str t =>
    simp only [coachCards] at h
    split at h
    · injection h with h
      subst h
      simp at hc
    · simp at h
  | obj kvs =>
    simp only [coachCards] at h
    split at h
    · simp at h
    · split at h
      · simp at h
      · injection h with h
        subst h
        simp at hc

/-- A click that navigates comes from an enabled button of a rendered card. -/
theorem clickBuy_some (s : DetailsState) (index : Nat) (c : CoachInfo)
    (h : clickBuy s index = some c) :
    s.loading = false ∧ ∃ cards card, coachCards s.coachAvailability s.refreshingSeats = some cards
      ∧ cards[index]? = some card ∧ card.disabled = false ∧ handleBooking card.coach = some c := by
  unfold clickBuy at h
  rcases hl : s.loading with _ | _
  · rcases hcs : coachCards s.coachAvailability s.refreshingSeats with _ | cards
    · simp [hl, hcs] at h
    · rcases hcd : cards[index]? with _ | card
      · simp [hl, hcs, hcd] at h
      · rcases hd : card.disabled with _ | _
        · simp [hl, hcs, hcd, hd] at h
          exact ⟨rfl, cards, card, rfl, hcd, hd, h⟩
        · simp [hl, hcs, hcd, hd] at h
  · simp [hl] at h

/-- The `coachInfo` of `handleBooking` holds the fields of the entry. -/
theorem handleBooking_some (coach : JSVal) (c : CoachInfo) (h : handleBooking coach = some c) :
    coach.getProp "coach_type" = some c.type ∧ coach.getProp "price" = some c.price
    ∧ coach.getProp "available_seats" = some c.seats := by
  rcases h1 : coach.getProp "coach_type" with _ | type
  · simp [handleBooking, h1] at h
  · rcases h2 : coach.getProp "price" with _ | price
    · simp [handleBooking, h1, h2] at h
    · rcases h3 : coach.getProp "available_seats" with _ | seats
      · simp [handleBooking, h1, h2, h3] at h
      · rcases h4 : getCoachDisplayName type with _ | displayName
        · simp [handleBooking, h1, h2, h3, h4] at h
        · rcases h5 : getCoachDescription type with _ | description
          · simp [handleBooking, h1, h2, h3, h4, h5] at h
          · simp [handleBooking, h1, h2, h3, h4, h5] at h
            subst h
            exact ⟨rfl, rfl, rfl⟩

/-- An enabled button: `available_seats <= 0` is false and no refresh is in progress. -/
theorem buyDisabled_false (coach : JSVal) (r : Bool) (seats : JSVal)
    (hs : coach.getProp "available_seats" = some seats)
    (h : buyDisabled coach r = some false) :
    ∃ n, seats.toNumber = some n ∧ n.le 0 = false ∧ r = false := by
  unfold buyDisabled at h
  rw [hs] at h
  simp only at h
  rcases hn : seats.toNumber with _ | n
  · simp [hn] at h
  · simp [hn] at h
    exact ⟨n, rfl, h.1, h.2⟩

/-- The typed update is at least 1, whatever `parseInt` gave. -/
theorem one_le_typed (x : JSNumber) :
    JSNumber.le 1 (JSNumber.max 1 (if x.truthy = true then x else 1)) = true := by
  rw [one_eq_finite]
  cases x with
  | nan => decide
  | infinity b => cases b <;> decide
  | finite q =>
    by_cases ht : (JSNumber.finite q).truthy = true
    · rw [if_pos ht]
      by_cases hl : JSNumber.le (JSNumber.finite 1) (JSNumber.finite q) = true
      · simp only [JSNumber.max, hl, if_true]
      · simp only [JSNumber.max, hl, Bool.false_eq_true, if_false]
        decide
    · rw [if_neg ht]
      decide

/-- The typed update is 1 when `parseInt` gave zero or a negative number. -/
theorem typed_of_le_zero (x : JSNumber) (h : x.le 0 = true) :
    JSNumber.max 1 (if x.truthy = true then x else 1) = 1 := by
  rw [zero_eq_finite] at h
  rw [one_eq_finite]
  cases x with
  | nan => simp [JSNumber.le] at h
  | infinity b =>
    cases b
    · simp [JSNumber.le] at h
    · decide
  | finite q =>
    have hq : q.num ≤ 0 := by
      simpa [JSNumber.le] using h
    by_cases h0 : q.num = 0
    · have ht : (JSNumber.finite q).truthy = false := by simp [JSNumber.truthy, h0]
      simp only [ht, Bool.false_eq_true, if_false]
      decide
    · have ht : (JSNumber.finite q).truthy = true := by simp [JSNumber.truthy, h0]
      have hl : JSNumber.le (JSNumber.finite 1) (JSNumber.finite q) = false := by
        have hd : (0 : Int) < q.den := by exact_mod_cast q.den_pos
        simp only [JSNumber.le, decide_eq_false_iff_not, not_le]
        simp only [Rat.num_one, Rat.den_one, one_mul, Nat.cast_one, mul_one]
        omega
      simp only [ht, if_true, JSNumber.max, hl, Bool.false_eq_true, if_false]

/-- The typed update is an integer or `Infinity` when `parseInt` gave an integer, an infinity or `NaN`. -/
theorem typed_integer (x : JSNumber)
    (h : x.isInteger = true ∨ (∃ b, x = JSNumber.infinity b) ∨ x = JSNumber.nan) :
    (JSNumber.max 1 (if x.truthy = true then x else 1)).isInteger = true
    ∨ JSNumber.max 1 (if x.truthy = true then x else 1) = JSNumber.infinity false := by
  rw [one_eq_finite]
  cases x with
  | nan => left; decide
  | infinity b =>
    cases b
    · right; decide
    · left; decide
  | finite q =>
    have hi : (JSNumber.finite q).isInteger = true := by
      rcases h with h | ⟨b, hb⟩ | h
      · exact h
      · cases hb
      · cases h
    left
    by_cases ht : (JSNumber.finite q).truthy = true
    · rw [if_pos ht]
      by_cases hl : JSNumber.le (JSNumber.finite 1) (JSNumber.finite q) = true
      · simp only [JSNumber.max, hl, if_true]
        exact hi
      · simp only [JSNumber.max, hl, Bool.false_eq_true, if_false]
        decide
    · rw [if_neg ht]
      decide

/-! ## The inventory snapshot of `TrainDetails` -/

/-- C21, as stated, fails: an ok coach-availability response with 80
available seats of 72 is stored as it is, by `fetchCoachAvailability` and by
the initial load. -/
theorem oversold_snapshot_is_stored :
    oversold.isOk = true
    ∧ snapshotWithinTotals
        (fetchCoachAvailability none 101 DetailsState.init oversold).st.coachAvailability = false
    ∧ snapshotWithinTotals
        (fetchTrainData none 101 DetailsState.init noRoutes oversold).st.coachAvailability
        = false := by
  refine ⟨rfl, rfl, rfl⟩

/-- C21 amended: `TrainDetails` stores the coach list exactly as the service
returned it, without comparing available and total seats: after an ok
coach-availability response with parsed body `d`, `fetchCoachAvailability`
leaves `coachAvailability = d`, and so does the initial load, unless its routes
request threw or its ok routes response did not parse, in which case it stores
the fallback list; so the snapshot stored from the response satisfies the
invariant exactly when the response does; the fallback list has no
`total_seats`. -/
theorem snapshot_stored_as_received (token : Option String) (train_id : Int) (s : DetailsState)
    (routes : FetchResult) (res : Response) (d : JSVal)
    (hok : res.ok = true) (hbody : res.body = some d) :
    (fetchCoachAvailability token train_id s (FetchResult.resp res)).st.coachAvailability = d
    ∧ (fetchTrainData token train_id s routes (FetchResult.resp res)).st.coachAvailability
        = (match routes with
           | FetchResult.threw => fallbackCoaches
           | FetchResult.resp routesRes =>
             if routesRes.ok = true ∧ routesRes.body.isNone = true then fallbackCoaches else d)
    ∧ snapshotWithinTotals
        (fetchCoachAvailability token train_id s (FetchResult.resp res)).st.coachAvailability
        = snapshotWithinTotals d
    ∧ snapshotWithinTotals fallbackCoaches = false
    ∧ ∃ xs, fallbackCoaches = JSVal.arr xs
        ∧ ∀ c ∈ xs, c.getProp "total_seats" = some JSVal.undefined := by
  have h1 : (fetchCoachAvailability token train_id s
      (FetchResult.resp res)).st.coachAvailability = d := by
    simp [fetchCoachAvailability, hok, hbody]
  refine ⟨h1, ?_, by rw [h1], rfl, _, rfl, ?_⟩
  · cases routes with
    | threw => simp [fetchTrainData, catchTrainData]
    | resp routesRes =>
      rcases hrok : routesRes.ok with _ | _ <;> rcases hrb : routesRes.body with _ | routesData <;>
        simp [fetchTrainData, storeRoutes, catchTrainData, hrok, hrb, hok, hbody]
  · intro c hc
    simp only [List.mem_cons, List.mem_singleton, List.not_mem_nil, or_false] at hc
    rcases hc with rfl | rfl | rfl | rfl <;> rfl

/-- Witness of C21 amended: the response with 5 of 72 AC chair seats is stored
unchanged, by the refresh and by the initial load with an empty route list. -/
theorem snapshot_stored_as_received_witness :
    fiveLeftResponse.ok = true
    ∧ (fetchCoachAvailability none 101 DetailsState.init
        (FetchResult.resp fiveLeftResponse)).st.coachAvailability
        = JSVal.arr
          [JSVal.obj [("coach_type", JSVal.str "Shovon"), ("available_seats", JSVal.num 9),
                      ("total_seats", JSVal.num 108), ("price", JSVal.num 400)],
           JSVal.obj [("coach_type", JSVal.str "AC_Chair"), ("available_seats", JSVal.num 5),
                      ("total_seats", JSVal.num 72), ("price", JSVal.num 1200)]]
    ∧ (fetchTrainData none 101 DetailsState.init noRoutes
        (FetchResult.resp fiveLeftResponse)).st.coachAvailability
        = JSVal.arr
          [JSVal.obj [("coach_type", JSVal.str "Shovon"), ("available_seats", JSVal.num 9),
                      ("total_seats", JSVal.num 108), ("price", JSVal.num 400)],
           JSVal.obj [("coach_type", JSVal.str "AC_Chair"), ("available_seats", JSVal.num 5),
                      ("total_seats", JSVal.num 72), ("price", JSVal.num 1200)]]
    ∧ snapshotWithinTotals
        (fetchCoachAvailability none 101 DetailsState.init
          (FetchResult.resp fiveLeftResponse)).st.coachAvailability
        = snapshotWithinTotals (JSVal.arr
          [JSVal.obj [("coach_type", JSVal.str "Shovon"), ("available_seats", JSVal.num 9),
                      ("total_seats", JSVal.num 108), ("price", JSVal.num 400)],
           JSVal.obj [("coach_type", JSVal.str "AC_Chair"), ("available_seats", JSVal.num 5),
                      ("total_seats", JSVal.num 72), ("price", JSVal.num 1200)]])
    ∧ snapshotWithinTotals fallbackCoaches = false
    ∧ ∃ xs, fallbackCoaches = JSVal.arr xs
        ∧ ∀ c ∈ xs, c.getProp "total_seats" = some JSVal.undefined :=
  ⟨rfl,
   snapshot_stored_as_received none 101 DetailsState.init noRoutes fiveLeftResponse _ rfl rfl⟩

/-- C22: when the coach-availability request of `fetchCoachAvailability`
throws or returns non-ok, `coachAvailability` is unchanged; when it returns ok
with parsed body `d`, `coachAvailability` is `d`; in every case
`refreshingSeats` ends false and the other hooks are unchanged. -/
theorem failed_refresh_keeps_snapshot (token : Option String) (train_id : Int) (s : DetailsState) (r : FetchResult) :
    (r.isOk = false →
      (fetchCoachAvailability token train_id s r).st.coachAvailability = s.coachAvailability)
    ∧ (∀ res d, r = FetchResult.resp res → res.ok = true → res.body = some d →
        (fetchCoachAvailability token train_id s r).st.coachAvailability = d)
    ∧ (fetchCoachAvailability token train_id s r).st.refreshingSeats = false
    ∧ (fetchCoachAvailability token train_id s r).st.trainRoutes = s.trainRoutes
    ∧ (fetchCoachAvailability token train_id s r).st.loading = s.loading
    ∧ (fetchCoachAvailability token train_id s r).st.error = s.error := by
  cases r with
  | threw => simp [fetchCoachAvailability]
  | resp res =>
    rcases hok : res.ok with _ | _ <;> rcases hb : res.body with _ | body <;>
      simp [fetchCoachAvailability, FetchResult.isOk, hok, hb] <;>
      intro res1 d h1 h2 h3 <;> subst h1 <;> simp_all

/-- C23, as stated, fails: on the initial load, a coach-availability response
with status 500 (the routes response being ok with the parsed body `[]`)
leaves `error` null. -/
theorem coach_failure_sets_no_error :
    serverError.isOk = false
    ∧ (fetchTrainData none 101 DetailsState.init noRoutes serverError).st.error = JSVal.null := by
  refine ⟨rfl, rfl⟩

/-- C23 amended: after `fetchTrainData`, `error` is the message "Error
occurred while fetching train data" whenever one of the two requests threw;
when the coach-availability response is non-ok, `error` is left as it was if
the routes response is ok with a parsed body, is "Failed to fetch train
routes" if the routes response is non-ok, and is the message of the `catch`
block if the body of the ok routes response does not parse; in these three
cases the fallback list is stored, and the warning is logged in all but the
last. -/
theorem coach_failure_falls_back_without_error (token : Option String) (train_id : Int) (s : DetailsState)
    (routes coach : FetchResult) (routesRes coachRes : Response)
    (hcoach : coachRes.ok = false) :
    (fetchTrainData token train_id s FetchResult.threw coach).st.error
        = JSVal.str "Error occurred while fetching train data"
    ∧ (fetchTrainData token train_id s routes FetchResult.threw).st.error
        = JSVal.str "Error occurred while fetching train data"
    ∧ (fetchTrainData token train_id s (FetchResult.resp routesRes)
        (FetchResult.resp coachRes)).st.error
        = (if routesRes.ok = true then
             (if routesRes.body.isSome = true then s.error
              else JSVal.str "Error occurred while fetching train data")
           else JSVal.str "Failed to fetch train routes")
    ∧ (fetchTrainData token train_id s (FetchResult.resp routesRes)
        (FetchResult.resp coachRes)).st.coachAvailability = fallbackCoaches
    ∧ (DetailsEffect.consoleWarn "Failed to fetch coach availability, using fallback data"
        ∈ (fetchTrainData token train_id s (FetchResult.resp routesRes)
            (FetchResult.resp coachRes)).effects
        ↔ ¬ (routesRes.ok = true ∧ routesRes.body.isNone = true)) := by
  refine ⟨?_, ?_, ?_, ?_, ?_⟩
  · cases coach <;> simp [fetchTrainData, catchTrainData]
  · cases routes <;> simp [fetchTrainData, catchTrainData]
  all_goals
    rcases hrok : routesRes.ok with _ | _ <;> rcases hrb : routesRes.body with _ | routesData <;>
      simp [fetchTrainData, storeRoutes, catchTrainData, hrok, hrb, hcoach]

/-- Witness of C23 amended: routes ok with the parsed body `[]`, coach
availability 500. -/
theorem coach_failure_falls_back_without_error_witness :
    serverErrorResponse.ok = false
    ∧ (fetchTrainData none 101 DetailsState.init FetchResult.threw serverError).st.error
        = JSVal.str "Error occurred while fetching train data"
    ∧ (fetchTrainData none 101 DetailsState.init noRoutes FetchResult.threw).st.error
        = JSVal.str "Error occurred while fetching train data"
    ∧ (fetchTrainData none 101 DetailsState.init (FetchResult.resp noRoutesResponse)
        (FetchResult.resp serverErrorResponse)).st.error
        = (if noRoutesResponse.ok = true then
             (if noRoutesResponse.body.isSome = true then DetailsState.init.error
              else JSVal.str "Error occurred while fetching train data")
           else JSVal.str "Failed to fetch train routes")
    ∧ (fetchTrainData none 101 DetailsState.init (FetchResult.resp noRoutesResponse)
        (FetchResult.resp serverErrorResponse)).st.coachAvailability = fallbackCoaches
    ∧ (DetailsEffect.consoleWarn "Failed to fetch coach availability, using fallback data"
        ∈ (fetchTrainData none 101 DetailsState.init (FetchResult.resp noRoutesResponse)
            (FetchResult.resp serverErrorResponse)).effects
        ↔ ¬ (noRoutesResponse.ok = true ∧ noRoutesResponse.body.isNone = true)) :=
  ⟨rfl,
   coach_failure_falls_back_without_error none 101 DetailsState.init noRoutes serverError
     noRoutesResponse serverErrorResponse rfl⟩

/-- C25: `handleVisibilityChange` starts `fetchCoachAvailability` (and so
emits the coach-availability request) if and only if `document.hidden` is
false at the event; when hidden it does nothing; and the effect of
`TrainDetails` registers no timer. -/
theorem visibility_refresh_is_reactive (token : Option String) (train_id : Int) (s : DetailsState) (hidden : Bool)
    (r : FetchResult) (hasTrain hasSearchData : Bool) :
    (handleVisibilityChange token train_id s hidden r).effects.any DetailsEffect.isCoachRequest
        = !hidden
    ∧ handleVisibilityChange token train_id s true r = ⟨s, []⟩
    ∧ handleVisibilityChange token train_id s false r = fetchCoachAvailability token train_id s r
    ∧ (detailsRegistrations hasTrain hasSearchData).any Registration.isTimer = false := by
  refine ⟨?_, by simp [handleVisibilityChange], by simp [handleVisibilityChange], ?_⟩
  · cases hidden
    · cases r with
      | threw => simp [handleVisibilityChange, fetchCoachAvailability, DetailsEffect.isCoachRequest]
      | resp res =>
        rcases hok : res.ok with _ | _ <;> rcases hb : res.body with _ | body <;>
          simp [handleVisibilityChange, fetchCoachAvailability, DetailsEffect.isCoachRequest,
            hok, hb]
    · simp [handleVisibilityChange]
  · cases hasTrain <;> cases hasSearchData <;> simp [detailsRegistrations, Registration.isTimer]

/-- C29, as stated, fails: the entry `noSeatCount` has no `available_seats`,
`undefined <= 0` is false, so its Buy button is enabled although its
`available_seats` is not positive, and the click passes `seats = undefined` to
the booking page. -/
theorem coach_without_seat_count_is_bookable :
    noSeatCount.getProp "available_seats" = some JSVal.undefined
    ∧ JSVal.undefined.toNumber = some JSNumber.nan
    ∧ JSNumber.lt 0 JSNumber.nan = false
    ∧ buyDisabled noSeatCount false = some false
    ∧ clickBuy noSeatCountPage 0
        = some { type := JSVal.str "Shovon", displayName := TableValue.text "Shovon",
                 price := JSVal.num 400, seats := JSVal.undefined,
                 description := TableValue.text "Standard seating" } := by
  refine ⟨rfl, rfl, rfl, rfl, rfl⟩

/-- C29 amended: a click on a Buy button reaches the booking page only from a
rendered card of an entry of the coach list while no refresh is in progress,
with the values of that entry (`type = coach_type`, `price = price`, `seats =
available_seats`) and with `seats <= 0` false, so `seats > 0` whenever `seats`
is a number other than `NaN`; for an entry whose `available_seats` is such a
number the button is enabled if and only if `available_seats > 0` and no
refresh is in progress; for an entry without `available_seats` it is enabled
whenever no refresh is in progress. -/
theorem sold_out_coach_cannot_be_booked (s : DetailsState) (index : Nat) (c : CoachInfo)
    (h : clickBuy s index = some c) :
    (∃ xs entry, s.coachAvailability = JSVal.arr xs ∧ xs[index]? = some entry
        ∧ s.loading = false ∧ s.refreshingSeats = false
        ∧ entry.getProp "coach_type" = some c.type
        ∧ entry.getProp "price" = some c.price
        ∧ entry.getProp "available_seats" = some c.seats
        ∧ ∃ n, c.seats.toNumber = some n ∧ n.le 0 = false)
    ∧ (∀ n, c.seats = JSVal.num n → n ≠ JSNumber.nan → JSNumber.lt 0 n = true)
    ∧ (∀ (coach : JSVal) (refreshingSeats : Bool) (n : JSNumber),
        coach.getProp "available_seats" = some (JSVal.num n) → n ≠ JSNumber.nan →
        (buyDisabled coach refreshingSeats = some false
          ↔ JSNumber.lt 0 n = true ∧ refreshingSeats = false))
    ∧ (∀ (coach : JSVal) (refreshingSeats : Bool),
        coach.getProp "available_seats" = some JSVal.undefined →
        buyDisabled coach refreshingSeats = some refreshingSeats) := by
  have hmain : ∃ xs entry, s.coachAvailability = JSVal.arr xs ∧ xs[index]? = some entry
      ∧ s.loading = false ∧ s.refreshingSeats = false
      ∧ entry.getProp "coach_type" = some c.type
      ∧ entry.getProp "price" = some c.price
      ∧ entry.getProp "available_seats" = some c.seats
      ∧ ∃ n, c.seats.toNumber = some n ∧ n.le 0 = false := by
    obtain ⟨hload, cards, card, hcards, hcard, hdis, hb⟩ := clickBuy_some s index c h
    obtain ⟨xs, hxs, hlist⟩ := coachCards_get s.coachAvailability s.refreshingSeats cards
      index card hcards hcard
    obtain ⟨entry, hentry, hcc⟩ := coachCardList_get s.refreshingSeats xs cards index card
      hlist hcard
    obtain ⟨hco, hbd⟩ := coachCard_some entry s.refreshingSeats card hcc
    rw [hco] at hb
    obtain ⟨ht, hp, hse⟩ := handleBooking_some entry c hb
    rw [hdis] at hbd
    obtain ⟨n, hn, hle, hr⟩ := buyDisabled_false entry s.refreshingSeats c.seats hse hbd
    exact ⟨xs, entry, hxs, hentry, hload, hr, ht, hp, hse, n, hn, hle⟩
  refine ⟨hmain, ?_, ?_, ?_⟩
  · intro n hn hnan
    obtain ⟨-, -, -, -, -, -, -, -, -, m, hm, hle⟩ := hmain
    rw [hn] at hm
    injection hm with hm
    subst hm
    exact (lt_zero_iff n hnan).mpr hle
  · intro coach refreshingSeats n hs hnan
    rw [lt_zero_iff n hnan]
    simp [buyDisabled, hs, JSVal.toNumber]
  · intro coach refreshingSeats hs
    simp [buyDisabled, hs, JSVal.toNumber, JSNumber.le]

/-- Witness of C29 amended: the Shovon card of the fallback list, 108 seats. -/
theorem sold_out_coach_cannot_be_booked_witness :
    clickBuy fallbackPage 3
        = some { type := JSVal.str "Shovon", displayName := TableValue.text "Shovon",
                 price := JSVal.num 400, seats := JSVal.num 108,
                 description := TableValue.text "Standard seating" }
    ∧ JSNumber.lt 0 108 = true
    ∧ ∃ xs entry, fallbackPage.coachAvailability = JSVal.arr xs ∧ xs[3]? = some entry
        ∧ fallbackPage.loading = false ∧ fallbackPage.refreshingSeats = false
        ∧ entry.getProp "coach_type" = some (JSVal.str "Shovon")
        ∧ entry.getProp "price" = some (JSVal.num 400)
        ∧ entry.getProp "available_seats" = some (JSVal.num 108)
        ∧ ∃ n, (JSVal.num 108).toNumber = some n ∧ n.le 0 = false :=
  ⟨rfl, by decide,
   (sold_out_coach_cannot_be_booked fallbackPage 3
      { type := JSVal.str "Shovon", displayName := TableValue.text "Shovon",
        price := JSVal.num 400, seats := JSVal.num 108,
        description := TableValue.text "Standard seating" } rfl).1⟩

/-! ## The rejected reservation and the refresh block of `BookingConfirmation` -/

/-- C24: for a non-ok create-booking response whose parsed body has `detail`
`d`: when `d` is a non-empty string the handler alerts exactly `d`; when
`detail` is absent or the empty string it alerts "Failed to confirm ticket.
Please try again."; nothing else is emitted after the request. -/
theorem rejection_shows_service_reason (p : Props) (token : Option String) (s : State) (res : Response) (now : String)
    (refresh : FetchResult) (errorData d : JSVal)
    (hok : res.ok = false) (hbody : res.body = some errorData)
    (hd : errorData.getProp "detail" = some d) :
    (∀ t, d = JSVal.str t → t ≠ "" →
      (handleConfirmTicket p token s (FetchResult.resp res) now refresh).effects
        = [confirmRequest p token s, Effect.alert (Shown.value (JSVal.str t))]
      ∧ (JSVal.str t).toJSString = t)
    ∧ ((d = JSVal.undefined ∨ d = JSVal.str "") →
      (handleConfirmTicket p token s (FetchResult.resp res) now refresh).effects
        = [confirmRequest p token s,
           Effect.alert (Shown.text "Failed to confirm ticket. Please try again.")]) := by
  have hb : onBookingResult p token s (FetchResult.resp res) now
      = ⟨s, [Effect.alert (if d.truthy then Shown.value d
              else Shown.text "Failed to confirm ticket. Please try again.")], none⟩ := by
    simp [onBookingResult, hok, hbody, hd]
  have hr : (onBookingResult p token s (FetchResult.resp res) now).result = none := by rw [hb]
  rw [handleConfirmTicket_of_none refresh hr, hb]
  constructor
  · intro t ht hne
    subst ht
    refine ⟨?_, by simp [JSVal.toJSString]⟩
    simp [JSVal.truthy, hne]
  · rintro (h | h) <;> subst h <;> simp [JSVal.truthy]

/-- Witness of C24: the service answers 400 with "Not enough seats
available". -/
theorem rejection_shows_service_reason_witness :
    notEnoughSeats.ok = false
    ∧ notEnoughSeats.body
        = some (JSVal.obj [("detail", JSVal.str "Not enough seats available")])
    ∧ (JSVal.obj [("detail", JSVal.str "Not enough seats available")]).getProp "detail"
        = some (JSVal.str "Not enough seats available")
    ∧ (handleConfirmTicket sampleProps none threeSelected (FetchResult.resp notEnoughSeats)
        "now" okEmpty).effects
        = [confirmRequest sampleProps none threeSelected,
           Effect.alert (Shown.value (JSVal.str "Not enough seats available"))]
    ∧ (JSVal.str "Not enough seats available").toJSString = "Not enough seats available" :=
  ⟨rfl, rfl, rfl,
   (rejection_shows_service_reason sampleProps none threeSelected notEnoughSeats "now" okEmpty
      (JSVal.obj [("detail", JSVal.str "Not enough seats available")])
      (JSVal.str "Not enough seats available") rfl rfl rfl).1
        "Not enough seats available" rfl (by decide)⟩

/-- C28, as stated, fails: for the ok refresh response `[null, e]`, where `e`
is the AC chair entry with 5 seats, the first entry whose `coach_type` is
"AC_Chair" is `e`, but `find` throws on `null` and `coachType.seats` stays
40. -/
theorem null_entry_stops_seat_update :
    nullFirstResponse.ok = true
    ∧ firstEntryOfType threeSelected.coachType.type
        [JSVal.null,
         JSVal.obj [("coach_type", JSVal.str "AC_Chair"), ("available_seats", JSVal.num 5)]]
        = some (JSVal.obj
            [("coach_type", JSVal.str "AC_Chair"), ("available_seats", JSVal.num 5)])
    ∧ threeSelected.coachType.seats = JSVal.num 40
    ∧ (onRefreshResult threeSelected (JSVal.obj [])
        (FetchResult.resp nullFirstResponse)).st.coachType.seats = JSVal.num 40 := by
  refine ⟨rfl, rfl, rfl, rfl⟩

/-- C28 amended: after an ok refresh response whose body is a list without
`null` entries, `coachType.seats` is the `available_seats` of the first entry
whose `coach_type` equals `coachType.type`, and is unchanged when no entry
matches; it is unchanged too when the body of the ok response does not parse
or is not a list; for every result of the refresh, `coachType.type`,
`coachType.displayName`, `coachType.price`, `ticketCount` and `totalPrice` are
as before. -/
theorem refresh_changes_only_seats (s : State) (result : JSVal) (res : Response) (xs : List JSVal)
    (r : FetchResult)
    (hok : res.ok = true) (hbody : res.body = some (JSVal.arr xs))
    (h : ∀ e ∈ xs, e ≠ JSVal.null ∧ e ≠ JSVal.undefined) :
    (onRefreshResult s result (FetchResult.resp res)).st.coachType.seats
        = (match firstEntryOfType s.coachType.type xs with
           | some u => (u.getProp "available_seats").getD JSVal.undefined
           | none => s.coachType.seats)
    ∧ (∀ res2 : Response, res2.ok = true → (∀ ys, res2.body ≠ some (JSVal.arr ys)) →
        (onRefreshResult s result (FetchResult.resp res2)).st.coachType.seats
          = s.coachType.seats)
    ∧ (onRefreshResult s result r).st.coachType.type = s.coachType.type
    ∧ (onRefreshResult s result r).st.coachType.displayName = s.coachType.displayName
    ∧ (onRefreshResult s result r).st.coachType.price = s.coachType.price
    ∧ (onRefreshResult s result r).st.ticketCount = s.ticketCount
    ∧ totalPrice (onRefreshResult s result r).st = totalPrice s := by
  have hframe : (onRefreshResult s result r).st.coachType.type = s.coachType.type
      ∧ (onRefreshResult s result r).st.coachType.displayName = s.coachType.displayName
      ∧ (onRefreshResult s result r).st.coachType.price = s.coachType.price
      ∧ (onRefreshResult s result r).st.ticketCount = s.ticketCount := by
    rw [onRefreshResult_st]
    rcases hr : refreshSeats s.coachType r with _ | c
    · exact ⟨rfl, rfl, rfl, rfl⟩
    · obtain ⟨k1, k2, k3⟩ := refreshSeats_keeps s.coachType r c hr
      exact ⟨k1, k2, k3, rfl⟩
  refine ⟨?_, ?_, hframe.1, hframe.2.1, hframe.2.2.1, hframe.2.2.2, ?_⟩
  · rw [onRefreshResult_st, refreshSeats_of_no_null s.coachType res xs hok hbody h]
    cases firstEntryOfType s.coachType.type xs <;> rfl
  · intro res2 hok2 hb2
    rw [onRefreshResult_st, refreshSeats_of_no_list s.coachType res2 hok2 hb2]
  · simp only [totalPrice, hframe.2.2.1, hframe.2.2.2]

/-- Witness of C28 amended: the second entry is the AC chair entry with 5
seats. -/
theorem refresh_changes_only_seats_witness :
    fiveLeftResponse.ok = true
    ∧ (onRefreshResult threeSelected (JSVal.obj [])
        (FetchResult.resp fiveLeftResponse)).st.coachType.seats = JSVal.num 5
    ∧ (∀ res2 : Response, res2.ok = true → (∀ ys, res2.body ≠ some (JSVal.arr ys)) →
        (onRefreshResult threeSelected (JSVal.obj []) (FetchResult.resp res2)).st.coachType.seats
          = threeSelected.coachType.seats)
    ∧ (onRefreshResult threeSelected (JSVal.obj []) FetchResult.threw).st.coachType.type
        = threeSelected.coachType.type
    ∧ (onRefreshResult threeSelected (JSVal.obj []) FetchResult.threw).st.coachType.displayName
        = threeSelected.coachType.displayName
    ∧ (onRefreshResult threeSelected (JSVal.obj []) FetchResult.threw).st.coachType.price
        = threeSelected.coachType.price
    ∧ (onRefreshResult threeSelected (JSVal.obj []) FetchResult.threw).st.ticketCount
        = threeSelected.ticketCount
    ∧ totalPrice (onRefreshResult threeSelected (JSVal.obj []) FetchResult.threw).st
        = totalPrice threeSelected :=
  ⟨rfl,
   refresh_changes_only_seats threeSelected (JSVal.obj []) fiveLeftResponse _ FetchResult.threw
     rfl rfl (by
       intro e he
       simp only [List.mem_cons, List.mem_singleton, List.not_mem_nil, or_false] at he
       rcases he with rfl | rfl <;> exact ⟨by simp, by simp⟩)⟩

/-- C30, as stated, fails: for the typed text of 309 nines `parseInt` gives
`Infinity`, and so does the typed update, which is no integer. -/
theorem typed_count_can_be_infinite :
    manyNines.length = 309
    ∧ parseInt manyNines = JSNumber.infinity false
    ∧ typedCount manyNines = JSNumber.infinity false
    ∧ (typedCount manyNines).isInteger = false
    ∧ (run sampleProps (Page.init acChair) [Event.changeInput manyNines]).st.ticketCount
        = JSNumber.infinity false := by
  refine ⟨by decide!, by decide!, by decide!, by decide!, by decide!⟩

/-- C30 amended: for an integer `1 ≤ ticketCount ≤ 10` the decrement update
and the increment update both yield an integer in `[1,10]`; for every typed
string the typed update yields a number `≥ 1` that is an integer or
`Infinity`, and it yields 1 when `parseInt` gives `NaN`, zero or a negative
number (as for "abc", "0" and "-5"). -/
theorem count_updates_stay_in_range (n : Int) (h1 : 1 ≤ n) (h2 : n ≤ 10) :
    JSNumber.le 1 (decrementCount (JSNumber.ofInt n)) = true
    ∧ JSNumber.le (decrementCount (JSNumber.ofInt n)) 10 = true
    ∧ (decrementCount (JSNumber.ofInt n)).isInteger = true
    ∧ JSNumber.le 1 (incrementCount (JSNumber.ofInt n)) = true
    ∧ JSNumber.le (incrementCount (JSNumber.ofInt n)) 10 = true
    ∧ (incrementCount (JSNumber.ofInt n)).isInteger = true
    ∧ (∀ s, JSNumber.le 1 (typedCount s) = true)
    ∧ (∀ s, (typedCount s).isInteger = true ∨ typedCount s = JSNumber.infinity false)
    ∧ (∀ s, parseInt s = JSNumber.nan → typedCount s = 1)
    ∧ (∀ s, (parseInt s).le 0 = true → typedCount s = 1)
    ∧ typedCount "abc" = 1 ∧ typedCount "0" = 1 ∧ typedCount "-5" = 1 := by
  refine ⟨?_, ?_, ?_, ?_, ?_, ?_, fun s => one_le_typed (parseInt s), ?_, ?_,
    fun s hs => typed_of_le_zero (parseInt s) hs, by decide, by decide, by decide⟩
  · interval_cases n <;> decide
  · interval_cases n <;> decide
  · interval_cases n <;> decide
  · interval_cases n <;> decide
  · interval_cases n <;> decide
  · interval_cases n <;> decide
  · intro s
    apply typed_integer
    unfold parseInt
    cases parseInteger s with
    | none => right; right; rfl
    | some k =>
      rcases round_integer k with hk | ⟨b, hb⟩
      · left; exact hk
      · right; left; exact ⟨b, hb⟩
  · intro s hs
    simp only [typedCount, hs]
    decide

/-- Witness of C30 amended: three tickets. -/
theorem count_updates_stay_in_range_witness :
    (1 : Int) ≤ 3 ∧ (3 : Int) ≤ 10
    ∧ decrementCount 3 = 2 ∧ incrementCount 3 = 4
    ∧ JSNumber.le 1 (decrementCount (JSNumber.ofInt 3)) = true
    ∧ JSNumber.le (decrementCount (JSNumber.ofInt 3)) 10 = true
    ∧ (decrementCount (JSNumber.ofInt 3)).isInteger = true
    ∧ JSNumber.le 1 (incrementCount (JSNumber.ofInt 3)) = true
    ∧ JSNumber.le (incrementCount (JSNumber.ofInt 3)) 10 = true
    ∧ (incrementCount (JSNumber.ofInt 3)).isInteger = true
    ∧ (∀ s, JSNumber.le 1 (typedCount s) = true)
    ∧ (∀ s, (typedCount s).isInteger = true ∨ typedCount s = JSNumber.infinity false)
    ∧ (∀ s, parseInt s = JSNumber.nan → typedCount s = 1)
    ∧ (∀ s, (parseInt s).le 0 = true → typedCount s = 1)
    ∧ typedCount "abc" = 1 ∧ typedCount "0" = 1 ∧ typedCount "-5" = 1 :=
  ⟨by decide, by decide, by decide, by decide,
   count_updates_stay_in_range 3 (by decide) (by decide)⟩

/-! ## `SignUp` and `TrainSearchResults` -/

/-- C26: `handleSubmit` sends the signup request if and only if `password`
equals `confirmPassword` and `password.length` is at least 6; when the
passwords differ, or agree and are too short, it sends nothing and sets the
corresponding error; every request body it sends is `formData` without
`confirmPassword`; in every case `loading` ends false. -/
theorem signup_request_iff_passwords_valid (s : SignUpState) (r : FetchResult) :
    ((handleSubmit s r).effects.any SignUpEffect.isFetch = true
      ↔ s.formData.password = s.formData.confirmPassword ∧ 6 ≤ jsLength s.formData.password)
    ∧ (s.formData.password ≠ s.formData.confirmPassword →
        (handleSubmit s r).effects = []
        ∧ (handleSubmit s r).st.error
            = JSVal.str "Passwords do not match. Please check and try again.")
    ∧ (s.formData.password = s.formData.confirmPassword → jsLength s.formData.password < 6 →
        (handleSubmit s r).effects = []
        ∧ (handleSubmit s r).st.error
            = JSVal.str "Password must be at least 6 characters long.")
    ∧ (∀ body, SignUpEffect.fetchSignup body ∈ (handleSubmit s r).effects →
        body = dataToSend s.formData ∧ ∀ kv ∈ body, kv.1 ≠ "confirmPassword")
    ∧ (handleSubmit s r).st.loading = false := by
  by_cases h : s.formData.password = s.formData.confirmPassword
  · by_cases hl : jsLength s.formData.password < 6
    · rw [handleSubmit_short s r h hl]
      refine ⟨?_, fun hn => absurd h hn, fun _ _ => ⟨rfl, rfl⟩, ?_, rfl⟩
      · constructor
        · intro hx
          simp at hx
        · rintro ⟨-, h6⟩
          omega
      · intro body hb
        simp at hb
    · have hl6 : 6 ≤ jsLength s.formData.password := by omega
      obtain ⟨rest, he, hr, hload⟩ := handleSubmit_sent s r h hl6
      refine ⟨?_, fun hn => absurd h hn, fun _ hl2 => absurd hl2 hl, ?_, hload⟩
      · rw [he]
        constructor
        · intro _
          exact ⟨h, hl6⟩
        · intro _
          simp [SignUpEffect.isFetch]
      · intro body hb
        rw [he] at hb
        rcases List.mem_cons.mp hb with hb | hb
        · have hbody : body = dataToSend s.formData := by
            injection hb
          subst hbody
          refine ⟨rfl, ?_⟩
          intro kv hkv
          simp only [dataToSend, List.mem_cons, List.mem_singleton, List.not_mem_nil,
            or_false] at hkv
          rcases hkv with rfl | rfl | rfl | rfl
          · show "name" ≠ "confirmPassword"
            decide
          · show "email" ≠ "confirmPassword"
            decide
          · show "phone" ≠ "confirmPassword"
            decide
          · show "password" ≠ "confirmPassword"
            decide
        · have := List.any_eq_false.mp hr _ hb
          simp [SignUpEffect.isFetch] at this
  · rw [handleSubmit_mismatch s r h]
    refine ⟨?_, fun _ => ⟨rfl, rfl⟩, fun he => absurd he h, ?_, rfl⟩
    · constructor
      · intro hx
        simp at hx
      · rintro ⟨h2, -⟩
        exact absurd h2 h
    · intro body hb
      simp at hb

/-- C27: evaluation at the failing input. Show Routes is clicked on train 1
and, while that request is pending, on train 2; after both responses arrived
the entries of both trains have `visible = true`. -/
theorem two_routes_visible_after_overlapping_loads :
    visibleCount twoRoutesRun.trainRoutes = 2
    ∧ twoRoutesRun.trainRoutes.map (fun kv => (kv.1, kv.2.visible)) = [(1, true), (2, true)]
    ∧ twoRoutesRun.trace.length = 2 := by
  refine ⟨by decide, by decide, by decide⟩

end RailTikit
